import Mathlib

/-!
# Air-quality monitor: index calculator, result cache, subscriptions, validation, users

Shallow embedding of `services/airQualityService.js`, `services/cacheService.js`,
`services/notificationService.js`, `middleware/validation.js` and
`services/userService.js`, one namespace for each, with the statements proved about them.

Numbers: a finite JavaScript number is a rational (`ℚ`), an integer result an `ℤ`.
In the index calculator arithmetic is exact, where the source computes in IEEE doubles;
the statements about it either hold for any sub-index function or are evaluated at
concrete inputs where the double computation gives the same integer. The coordinate
differences of the alert matcher are rounded to doubles (namespace `Double`).
A concentration argument is an `Option ℚ`: `none` is `undefined` or `null`.
A *result* of type `Option ℤ` uses `none` for a non-finite value (what a division by
zero would produce); non-finite values are not followed further.

Layout: the embedding of each source file with the definitions the statements need, then
auxiliary facts and one section per claim.

## Index calculator of `services/airQualityService.js`
-/

namespace AirQualityService

/-! ## JavaScript primitives -/

/-- The function `Math.round`: the nearest integer, a tie going towards plus infinity. -/
def mathRound (x : ℚ) : ℤ := ⌊x + 1 / 2⌋

/-- JavaScript `/` on finite numbers: a zero divisor gives a non-finite value (`none`). -/
def jsDiv (a b : ℚ) : Option ℚ := if b = 0 then none else some (a / b)

/-- Truthiness of a value that is a finite number, `undefined` or `null`. -/
def truthy : Option ℚ → Bool
  | none => false
  | some c => decide (c ≠ 0)

/-- The call `Math.max(...values)`: a non-finite argument (or an empty argument list, which gives
minus infinity) is reported as `none`. -/
def mathMax : List (Option ℤ) → Option ℤ
  | [] => none
  | [x] => x
  | x :: y :: rest => do
    let a ← x
    let b ← mathMax (y :: rest)
    pure (max a b)

/-! ## calculatePollutantAQI -/

/-- Own properties of the `thresholds` object literal. -/
def thresholds : String → Option (List ℚ)
  | "pm25" => some [12, 35.4, 55.4, 150.4, 250.4, 350.4, 500.4]
  | "pm10" => some [54, 154, 254, 354, 424, 504, 604]
  | "ozone" => some [54, 70, 85, 105, 200, 400, 500]
  | "no2" => some [53, 100, 360, 649, 1249, 1649, 2049]
  | "so2" => some [35, 75, 185, 304, 604, 804, 1004]
  | "co" => some [4.4, 9.4, 12.4, 15.4, 30.4, 40.4, 50.4]
  | _ => none

/-- Property names every object literal inherits from `Object.prototype`. Looking one of
them up in `thresholds` gives a function (or the prototype object): a truthy value with
no indexed elements. -/
def objectPrototypeKeys : List String :=
  ["constructor", "__proto__", "hasOwnProperty", "isPrototypeOf", "propertyIsEnumerable",
   "toLocaleString", "toString", "valueOf", "__defineGetter__", "__defineSetter__",
   "__lookupGetter__", "__lookupSetter__"]

/-- The value of `thresholds[pollutant] || thresholds.pm25`, as the list of elements
the loop can compare with. An inherited property has none: `concentration <= undefined`
is false at every index the loop visits. -/
def pollutantThresholds (pollutant : String) : List ℚ :=
  match thresholds pollutant with
  | some table => table
  | none =>
    if pollutant ∈ objectPrototypeKeys then []
    else [12, 35.4, 55.4, 150.4, 250.4, 350.4, 500.4]

/-- The array `aqiBreakpoints`. -/
def aqiBreakpoints : List ℚ := [0, 51, 101, 151, 201, 301, 401, 501]

/-- Body of the loop of `calculatePollutantAQI` at the index `i` where
`concentration <= pollutantThresholds[i]` holds: the interpolated, rounded value. -/
def interpolate (table : List ℚ) (concentration : ℚ) (i : ℕ) : Option ℤ :=
  let lowBreakpoint := aqiBreakpoints.getD i 0
  let highBreakpoint := aqiBreakpoints.getD (i + 1) 0
  let lowConcentration := if i = 0 then 0 else table.getD (i - 1) 0
  let highConcentration := table.getD i 0
  (jsDiv (highBreakpoint - lowBreakpoint) (highConcentration - lowConcentration)).map
    fun slope => mathRound (slope * (concentration - lowConcentration) + lowBreakpoint)

/-- The loop `for (let i = 0; i < table.length; i++)` with its early return: the first
index whose threshold is at least the concentration decides; `500` when there is none. -/
def scanThresholds (table : List ℚ) (concentration : ℚ) : Option ℤ :=
  match (List.range table.length).find? (fun i => decide (concentration ≤ table.getD i 0)) with
  | some i => interpolate table concentration i
  | none => some 500

/-- The method `calculatePollutantAQI(concentration, pollutant)`. -/
def calculatePollutantAQI (concentration : Option ℚ) (pollutant : String) : Option ℤ :=
  match concentration with
  | none => some 0
  | some c =>
    if c = 0 then some 0
    else scanThresholds (pollutantThresholds pollutant) c

/-! ## getAQICategory -/

/-- The object returned by `getAQICategory`. -/
structure Category where
  name : String
  healthMessage : String
  recommendations : List String
  deriving DecidableEq, Repr

/-- The method `getAQICategory(aqi)`. -/
def getAQICategory (aqi : ℤ) : Category :=
  if aqi ≤ 50 then
    { name := "Good"
      healthMessage := "Air quality is satisfactory, and air pollution poses little or no risk."
      recommendations := ["Enjoy outdoor activities", "Good day for outdoor exercise"] }
  else if aqi ≤ 100 then
    { name := "Moderate"
      healthMessage := "Air quality is acceptable. However, there may be a risk for some people, particularly those who are unusually sensitive to air pollution."
      recommendations := ["Sensitive individuals should consider reducing prolonged outdoor exertion", "Good day for most outdoor activities"] }
  else if aqi ≤ 150 then
    { name := "Unhealthy for Sensitive Groups"
      healthMessage := "Members of sensitive groups may experience health effects. The general public is less likely to be affected."
      recommendations := ["Sensitive individuals should avoid prolonged outdoor exertion", "Everyone else should limit prolonged outdoor exertion"] }
  else if aqi ≤ 200 then
    { name := "Unhealthy"
      healthMessage := "Some members of the general public may experience health effects; members of sensitive groups may experience more serious health effects."
      recommendations := ["Sensitive individuals should avoid all outdoor exertion", "Everyone else should avoid prolonged outdoor exertion"] }
  else if aqi ≤ 300 then
    { name := "Very Unhealthy"
      healthMessage := "Health alert: The risk of health effects is increased for everyone."
      recommendations := ["Everyone should avoid outdoor exertion", "Sensitive individuals should remain indoors"] }
  else
    { name := "Hazardous"
      healthMessage := "Health warning of emergency conditions: everyone is more likely to be affected."
      recommendations := ["Everyone should avoid all outdoor activities", "Remain indoors with windows closed"] }

/-! ## Pollutant mappings and the overall index -/

/-- An object holding concentrations under the six pollutant names; a field is `none`
when the property is missing, `undefined` or `null`. -/
structure Pollutants where
  pm25 : Option ℚ
  pm10 : Option ℚ
  ozone : Option ℚ
  no2 : Option ℚ
  so2 : Option ℚ
  co : Option ℚ
  deriving DecidableEq

/-- Property access `data[pollutant]` on a pollutant mapping. -/
def Pollutants.get (data : Pollutants) (pollutant : String) : Option ℚ :=
  match pollutant with
  | "pm25" => data.pm25
  | "pm10" => data.pm10
  | "ozone" => data.ozone
  | "no2" => data.no2
  | "so2" => data.so2
  | "co" => data.co
  | _ => none

/-- The six sub-indices, in the order of the array `aqiValues`. -/
def aqiValues (pm25 pm10 ozone no2 so2 co : Option ℚ) : List (Option ℤ) :=
  [calculatePollutantAQI pm25 "pm25",
   calculatePollutantAQI pm10 "pm10",
   calculatePollutantAQI ozone "ozone",
   calculatePollutantAQI no2 "no2",
   calculatePollutantAQI so2 "so2",
   calculatePollutantAQI co "co"]

/-- The object returned by `calculateAQIFromPollutants`. -/
structure AQISummary where
  value : ℤ
  category : String
  healthMessage : String
  recommendations : List String
  deriving DecidableEq

/-- The method `calculateAQIFromPollutants(pollutants)` (the debug logging left out). -/
def calculateAQIFromPollutants (pollutants : Pollutants) : Option AQISummary := do
  let maxAQI ← mathMax (aqiValues pollutants.pm25 pollutants.pm10 pollutants.ozone
    pollutants.no2 pollutants.so2 pollutants.co)
  let category := getAQICategory maxAQI
  pure { value := maxAQI
         category := category.name
         healthMessage := category.healthMessage
         recommendations := category.recommendations }

/-- The method `getPollutantValue(tempoData, weatherData, groundData, pollutant)`: the first truthy
reading in the priority ground, TEMPO, weather; `null` otherwise. A source is `none`
when the object itself is `null` or `undefined`. -/
def getPollutantValue (tempoData weatherData groundData : Option Pollutants)
    (pollutant : String) : Option ℚ :=
  let read (data : Option Pollutants) : Option ℚ := data.bind fun d => d.get pollutant
  if truthy (read groundData) then read groundData
  else if truthy (read tempoData) then read tempoData
  else if truthy (read weatherData) then read weatherData
  else none

/-- The object returned by `calculateAQI` and `calculateAQIForKnownCity`. -/
structure AQIReport where
  value : ℤ
  category : String
  healthMessage : String
  recommendations : List String
  pm25 : Option ℚ
  pm10 : Option ℚ
  ozone : Option ℚ
  no2 : Option ℚ
  so2 : Option ℚ
  co : Option ℚ
  deriving DecidableEq

/-- The method `calculateAQI(tempoData, weatherData, groundData)`. -/
def calculateAQI (tempoData weatherData groundData : Option Pollutants) : Option AQIReport := do
  let pm25 := getPollutantValue tempoData weatherData groundData "pm25"
  let pm10 := getPollutantValue tempoData weatherData groundData "pm10"
  let ozone := getPollutantValue tempoData weatherData groundData "ozone"
  let no2 := getPollutantValue tempoData weatherData groundData "no2"
  let so2 := getPollutantValue tempoData weatherData groundData "so2"
  let co := getPollutantValue tempoData weatherData groundData "co"
  let maxAQI ← mathMax (aqiValues pm25 pm10 ozone no2 so2 co)
  let category := getAQICategory maxAQI
  pure { value := maxAQI
         category := category.name
         healthMessage := category.healthMessage
         recommendations := category.recommendations
         pm25 := pm25, pm10 := pm10, ozone := ozone, no2 := no2, so2 := so2, co := co }

/-! ## Known cities and getCurrentAirQuality -/

/-- An entry of the `knownCities` table. -/
structure KnownCity where
  name : String
  aqi : ℤ
  pollutants : Pollutants
  deriving DecidableEq

/-- The string `x.toFixed(4)`, kept as the signed number of ten-thousandths: the magnitude is
rounded to the nearest, a tie going up. (The strings "0.0000" and "-0.0000" are not told
apart; no key of the table is zero.) -/
def toFixed4 (x : ℚ) : ℤ :=
  if x < 0 then -⌊-x * 10000 + 1 / 2⌋ else ⌊x * 10000 + 1 / 2⌋

/-- The method `getKnownCityData(lat, lng)`: the table entry whose key equals the coordinates rounded
to four decimals, else `null`. -/
def getKnownCityData (lat lng : ℚ) : Option KnownCity :=
  let key := (toFixed4 lat, toFixed4 lng)
  if key = (287041, 771025) then
    some { name := "Delhi, Delhi", aqi := 298
           pollutants := { pm25 := some 120, pm10 := some 180, ozone := some 45,
                           no2 := some 85, so2 := some 25, co := some 8 } }
  else if key = (190760, 728777) then
    some { name := "Mumbai, Maharashtra", aqi := 187
           pollutants := { pm25 := some 75, pm10 := some 120, ozone := some 35,
                           no2 := some 65, so2 := some 18, co := some 5 } }
  else if key = (399042, 1164074) then
    some { name := "Beijing, Beijing", aqi := 234
           pollutants := { pm25 := some 95, pm10 := some 150, ozone := some 40,
                           no2 := some 70, so2 := some 20, co := some 6 } }
  else if key = (340522, -1182437) then
    some { name := "Los Angeles, CA", aqi := 167
           pollutants := { pm25 := some 60, pm10 := some 90, ozone := some 55,
                           no2 := some 45, so2 := some 12, co := some 4 } }
  else if key = (557558, 376176) then
    some { name := "Moscow, Moscow", aqi := 145
           pollutants := { pm25 := some 50, pm10 := some 75, ozone := some 30,
                           no2 := some 40, so2 := some 15, co := some 3 } }
  else none

/-- The method `generateGroundStationData(lat, lng)`: the pollutants of a known city, else the mock
reading `mock` (drawn with `Math.random` in the source, a parameter here). -/
def generateGroundStationData (lat lng : ℚ) (mock : Pollutants) : Pollutants :=
  match getKnownCityData lat lng with
  | some city => city.pollutants
  | none => mock

/-- The method `calculateAQIForKnownCity(lat, lng, tempoData, weatherData, groundData)`; the three
data arguments are not read by the source. -/
def calculateAQIForKnownCity (lat lng : ℚ) : Option AQIReport :=
  match getKnownCityData lat lng with
  | some knownCities =>
    let category := getAQICategory knownCities.aqi
    some { value := knownCities.aqi
           category := category.name
           healthMessage := category.healthMessage
           recommendations := category.recommendations
           pm25 := knownCities.pollutants.pm25
           pm10 := knownCities.pollutants.pm10
           ozone := knownCities.pollutants.ozone
           no2 := knownCities.pollutants.no2
           so2 := knownCities.pollutants.so2
           co := knownCities.pollutants.co }
  | none => none

/-- The result object of `getCurrentAirQuality` (location, timestamp and the raw
`sources` left out). -/
structure AirQualityResult where
  aqi : ℤ
  category : String
  healthMessage : String
  recommendations : List String
  pollutants : Pollutants
  deriving DecidableEq

/-- The method `getCurrentAirQuality(lat, lng)` on a cache miss. The readings of the TEMPO and
weather services and the mock ground reading are parameters. -/
def getCurrentAirQuality (lat lng : ℚ) (tempoData weatherData : Option Pollutants)
    (mock : Pollutants) : Option AirQualityResult := do
  let groundData := generateGroundStationData lat lng mock
  let knownCityAQI := calculateAQIForKnownCity lat lng
  let aqi ← match knownCityAQI with
    | some report => some report
    | none => calculateAQI tempoData weatherData (some groundData)
  pure { aqi := aqi.value
         category := aqi.category
         healthMessage := aqi.healthMessage
         recommendations := aqi.recommendations
         pollutants := { pm25 := aqi.pm25, pm10 := aqi.pm10, ozone := aqi.ozone,
                         no2 := aqi.no2, so2 := aqi.so2, co := aqi.co } }

/-! ## Definitions used by the statements and proofs -/

/-- The six pollutant names, in the order of `aqiValues`. -/
def pollutantNames : List String := ["pm25", "pm10", "ozone", "no2", "so2", "co"]

/-- Every list `pollutantThresholds` can return: the six tables of `thresholds` and the
empty list of an inherited property. -/
def allTables : List (List ℚ) :=
  [[12, 35.4, 55.4, 150.4, 250.4, 350.4, 500.4],
   [54, 154, 254, 354, 424, 504, 604],
   [54, 70, 85, 105, 200, 400, 500],
   [53, 100, 360, 649, 1249, 1649, 2049],
   [35, 75, 185, 304, 604, 804, 1004],
   [4.4, 9.4, 12.4, 15.4, 30.4, 40.4, 50.4],
   []]

/-- Closed form of the loop on a seven-entry table: the unrounded interpolated value of
the band that holds `c`, and `500` above the last entry. -/
def bandValue (t0 t1 t2 t3 t4 t5 t6 c : ℚ) : ℚ :=
  if c ≤ t0 then 51 / t0 * c
  else if c ≤ t1 then 50 / (t1 - t0) * (c - t0) + 51
  else if c ≤ t2 then 50 / (t2 - t1) * (c - t1) + 101
  else if c ≤ t3 then 50 / (t3 - t2) * (c - t2) + 151
  else if c ≤ t4 then 100 / (t4 - t3) * (c - t3) + 201
  else if c ≤ t5 then 100 / (t5 - t4) * (c - t4) + 301
  else if c ≤ t6 then 100 / (t6 - t5) * (c - t5) + 401
  else 500

/-! ### Reference definition of the sub-index, after sections 4.1 and 8 of the specification -/

/-- The AQI band table of the specification, `[0,51,101,151,201,301,401,501)`: band `i`
starts at entry `i` and ends before entry `i + 1`. -/
def aqiBandTable : List ℚ := [0, 51, 101, 151, 201, 301, 401, 501]

/-- Rounding to the nearest integer, a tie going away from zero. -/
def roundHalfAwayFromZero (x : ℚ) : ℤ :=
  if 0 ≤ x then ⌊x + 1 / 2⌋ else ⌈x - 1 / 2⌉

/-- Follows the specification, not the code: the sub-index for a concentration `C` and the
breakpoint list of a pollutant. With `i` the smallest band index such that
`C ≤ breakpoint[i]`, it is the interpolation over band `i` rounded half away from zero,
where the lower concentration bound of band `0` is `0`, `aqiLow[i]` is entry `i` of the
band table and `aqiHigh[i]` is the AQI upper bound of band `i`, one below entry `i + 1`
(50, 100, 150, 200, 300, 400, 500: a concentration equal to the upper breakpoint of a band
yields the AQI upper bound of that band, 100 for PM2.5 at 35.4); and `500` when `C`
exceeds the top breakpoint. -/
def referenceSubIndex (breakpoint : List ℚ) (C : ℚ) : ℤ :=
  match breakpoint.findIdx? (fun b => decide (C ≤ b)) with
  | none => 500
  | some i =>
    let cLow := if i = 0 then 0 else breakpoint.getD (i - 1) 0
    let cHigh := breakpoint.getD i 0
    let aqiLow := aqiBandTable.getD i 0
    let aqiHigh := aqiBandTable.getD (i + 1) 0 - 1
    roundHalfAwayFromZero ((aqiHigh - aqiLow) / (cHigh - cLow) * (C - cLow) + aqiLow)

/-! ## getCityRanking -/

/-- An entry of a ranking table. -/
structure City where
  name : String
  aqi : ℤ
  deriving DecidableEq

/-- Own properties of the object literal `cityData`. -/
def cityData : String → Option (List City)
  | "US" => some
    [{ name := "Los Angeles, CA (34.0522°N, 118.2437°W)", aqi := 167 },
     { name := "New York, NY (40.7128°N, 74.0060°W)", aqi := 71 },
     { name := "Chicago, IL (41.8781°N, 87.6298°W)", aqi := 34 },
     { name := "Houston, TX (29.7604°N, 95.3698°W)", aqi := 17 },
     { name := "Phoenix, AZ (33.4484°N, 112.0740°W)", aqi := 13 }]
  | "KZ" => some
    [{ name := "Karaganda, Karaganda (49.8014°N, 73.1021°E)", aqi := 167 },
     { name := "Almaty, Almaty Oblysy (43.2220°N, 76.8512°E)", aqi := 71 },
     { name := "Oskemen, East Kazakhstan (49.9561°N, 82.6144°E)", aqi := 34 },
     { name := "Astana, Astana (51.1694°N, 71.4491°E)", aqi := 17 },
     { name := "Pavlodar, Pavlodar (52.2871°N, 76.9669°E)", aqi := 13 }]
  | "RU" => some
    [{ name := "Moscow, Moscow (55.7558°N, 37.6176°E)", aqi := 145 },
     { name := "Saint Petersburg, Leningrad (59.9311°N, 30.3609°E)", aqi := 89 },
     { name := "Novosibirsk, Novosibirsk (55.0084°N, 82.9357°E)", aqi := 42 },
     { name := "Yekaterinburg, Sverdlovsk (56.8431°N, 60.6454°E)", aqi := 28 },
     { name := "Kazan, Tatarstan (55.8304°N, 49.0661°E)", aqi := 19 }]
  | "CN" => some
    [{ name := "Beijing, Beijing (39.9042°N, 116.4074°E)", aqi := 234 },
     { name := "Shanghai, Shanghai (31.2304°N, 121.4737°E)", aqi := 156 },
     { name := "Guangzhou, Guangdong (23.1291°N, 113.2644°E)", aqi := 98 },
     { name := "Shenzhen, Guangdong (22.5431°N, 114.0579°E)", aqi := 67 },
     { name := "Chengdu, Sichuan (30.5728°N, 104.0668°E)", aqi := 45 }]
  | "IN" => some
    [{ name := "Delhi, Delhi (28.7041°N, 77.1025°E)", aqi := 298 },
     { name := "Mumbai, Maharashtra (19.0760°N, 72.8777°E)", aqi := 187 },
     { name := "Kolkata, West Bengal (22.5726°N, 88.3639°E)", aqi := 134 },
     { name := "Chennai, Tamil Nadu (13.0827°N, 80.2707°E)", aqi := 89 },
     { name := "Bangalore, Karnataka (12.9716°N, 77.5946°E)", aqi := 56 }]
  | "DE" => some
    [{ name := "Berlin, Berlin (52.5200°N, 13.4050°E)", aqi := 45 },
     { name := "Munich, Bavaria (48.1351°N, 11.5820°E)", aqi := 32 },
     { name := "Hamburg, Hamburg (53.5511°N, 9.9937°E)", aqi := 28 },
     { name := "Cologne, North Rhine-Westphalia (50.9375°N, 6.9603°E)", aqi := 23 },
     { name := "Frankfurt, Hesse (50.1109°N, 8.6821°E)", aqi := 19 }]
  | "FR" => some
    [{ name := "Paris, Île-de-France (48.8566°N, 2.3522°E)", aqi := 67 },
     { name := "Lyon, Auvergne-Rhône-Alpes (45.7640°N, 4.8357°E)", aqi := 43 },
     { name := "Marseille, Provence-Alpes-Côte d\x27Azur (43.2965°N, 5.3698°E)", aqi := 38 },
     { name := "Toulouse, Occitanie (43.6047°N, 1.4442°E)", aqi := 29 },
     { name := "Nice, Provence-Alpes-Côte d\x27Azur (43.7102°N, 7.2620°E)", aqi := 24 }]
  | "GB" => some
    [{ name := "London, England (51.5074°N, 0.1278°W)", aqi := 78 },
     { name := "Birmingham, England (52.4862°N, 1.8904°W)", aqi := 54 },
     { name := "Manchester, England (53.4808°N, 2.2426°W)", aqi := 41 },
     { name := "Glasgow, Scotland (55.8642°N, 4.2518°W)", aqi := 35 },
     { name := "Edinburgh, Scotland (55.9533°N, 3.1883°W)", aqi := 28 }]
  | _ => none

/-- Own properties of the object literal `countryNames`. -/
def countryNames : String → Option String
  | "US" => some "United States"
  | "KZ" => some "Kazakhstan"
  | "RU" => some "Russia"
  | "CN" => some "China"
  | "IN" => some "India"
  | "DE" => some "Germany"
  | "FR" => some "France"
  | "GB" => some "United Kingdom"
  | _ => none

/-- The object `getCityRanking` returns, without the time stamp `updated`. -/
structure CityRanking where
  country : String
  cities : List City
  deriving DecidableEq

/-- The call `cities.sort((a, b) => b.aqi - a.aqi)`: a stable sort, the largest index
first. -/
def sortByAqiDescending (cities : List City) : List City :=
  cities.insertionSort fun a b => b.aqi ≤ a.aqi

/-- The method `getCityRanking(country)`. For a name inherited from `Object.prototype`
the lookup `cityData[country]` gives a function (or the prototype object), which is
truthy and has no method `sort`, so the call `cities.sort` throws a `TypeError`. -/
def getCityRanking (country : String) : Except String CityRanking :=
  match cityData country with
  | some cities =>
    .ok { country := (countryNames country).getD "United States"
          cities := sortByAqiDescending cities }
  | none =>
    if country ∈ objectPrototypeKeys then
      .error "TypeError: cities.sort is not a function"
    else
      .ok { country := (countryNames country).getD "United States"
            cities := sortByAqiDescending ((cityData "US").getD []) }

/-- The reading `data[pollutant]` of a source that may be `null` or `undefined`. -/
def reading (data : Option Pollutants) (pollutant : String) : Option ℚ :=
  data.bind fun d => d.get pollutant

end AirQualityService

/-!
# JavaScript `Map` with string keys

A `Map` is kept as the list of its entries in insertion order.
-/

namespace JSMap

/-- The call `map.get(key)`: the value of the first entry with that key. -/
def get {α : Type} : List (String × α) → String → Option α
  | [], _ => none
  | (k, v) :: rest, key => if k = key then some v else get rest key

/-- The call `map.has(key)`. -/
def has {α : Type} (map : List (String × α)) (key : String) : Bool :=
  (get map key).isSome

/-- The call `map.set(key, value)`: an existing entry keeps its place and takes the new
value, a new entry goes to the end. -/
def set {α : Type} : List (String × α) → String → α → List (String × α)
  | [], key, value => [(key, value)]
  | (k, v) :: rest, key, value =>
    if k = key then (k, value) :: rest else (k, v) :: set rest key value

/-- The call `map.delete(key)`. -/
def delete {α : Type} (map : List (String × α)) (key : String) : List (String × α) :=
  map.filter fun entry => decide (entry.1 ≠ key)

/-- The call `map.values()`, in insertion order. -/
def values {α : Type} (map : List (String × α)) : List α :=
  map.map fun entry => entry.2

end JSMap

/-!
# Result cache of `services/cacheService.js`

The state of the cache object is the pair (`isRedisConnected`, `memoryCache`), the
`redisClient` reference, the `setTimeout` callbacks still pending, and the clock. The
primary store is not part of the state: what an operation on it answers is a parameter of
the operation. Times are in milliseconds, a `ttl` is in seconds.
-/

namespace CacheService

/-- JavaScript values a cache can hold. An object is kept as its JSON text. -/
inductive JSValue
  | undefined
  | null
  | bool (b : Bool)
  | number (x : ℚ)
  | string (s : String)
  | object (json : String)
  deriving DecidableEq

/-- Truthiness of a value. -/
def JSValue.truthy : JSValue → Bool
  | .undefined => false
  | .null => false
  | .bool b => b
  | .number x => decide (x ≠ 0)
  | .string s => decide (s ≠ "")
  | .object _ => true

/-- The expression `a || b`. -/
def jsOr (a b : JSValue) : JSValue := if a.truthy then a else b

/-- A pending callback `setTimeout(() => memoryCache.delete(key), ...)`, due at `due`. -/
structure Timer where
  due : ℚ
  key : String
  deriving DecidableEq

/-- State of the `CacheService` object. The field `redisClient` tells whether the
reference is set (not `null`). -/
structure CacheState where
  redisClient : Bool
  isRedisConnected : Bool
  memoryCache : List (String × JSValue)
  timers : List Timer
  now : ℚ

/-- The fields as the constructor sets them, before `initRedis` runs. -/
def CacheState.fresh (now : ℚ) : CacheState :=
  { redisClient := false, isRedisConnected := false, memoryCache := [], timers := [],
    now := now }

/-- How the body of `initRedis` ends: `createClient` throws, `connect()` resolves (the
client emits `connect`), or `connect()` rejects. -/
inductive ConnectOutcome
  | createClientThrows
  | connected
  | connectFails

/-- The method `initRedis()`. -/
def initRedis (s : CacheState) : ConnectOutcome → CacheState
  | .createClientThrows => { s with isRedisConnected := false }
  | .connected => { s with redisClient := true, isRedisConnected := true }
  | .connectFails => { s with redisClient := true, isRedisConnected := false }

/-- The handler of the client event `error`. -/
def onError (s : CacheState) : CacheState := { s with isRedisConnected := false }

/-- The handler of the client event `connect`. -/
def onConnect (s : CacheState) : CacheState := { s with isRedisConnected := true }

/-- What the primary branch of `get` meets: `redisClient.get` answers `null` or an empty
string (`nil`), answers a text that `JSON.parse` turns into `parsed`, or the branch throws
(the client rejects, or the text does not parse). -/
inductive GetReply
  | nil
  | json (parsed : JSValue)
  | throws

/-- What the primary branch of `set`, `del` or `flush` meets: it completes or it throws. -/
inductive Reply
  | ok
  | throws

/-- A `try { body } catch (error) { handler }` block. -/
def tryCatch {ε α : Type} (body : Except ε α) (handler : ε → Except ε α) : Except ε α :=
  match body with
  | .ok a => .ok a
  | .error e => handler e

/-- The expression `this.memoryCache.get(key) || null`. -/
def memoryLookup (s : CacheState) (key : String) : JSValue :=
  jsOr ((JSMap.get s.memoryCache key).getD .undefined) .null

/-- The method `get(key)`: the returned value and the state. -/
def get (s : CacheState) (key : String) (reply : GetReply) :
    Except String (JSValue × CacheState) :=
  tryCatch
    (if s.isRedisConnected && s.redisClient then
      match reply with
      | .nil => .ok (.null, s)
      | .json parsed => .ok (parsed, s)
      | .throws => .error "redis"
    else
      .ok (memoryLookup s key, s))
    (fun _ => .ok (memoryLookup s key, s))

/-- Delay of a Node.js timer in milliseconds: a delay below 1 or above 2147483647 is
replaced by 1. -/
def timerDelay (ms : ℚ) : ℚ := if 1 ≤ ms ∧ ms ≤ 2147483647 then ms else 1

/-- The method `set(key, value, ttl = 3600)`; `ttl` is `none` when the argument is
omitted. -/
def set (s : CacheState) (key : String) (value : JSValue) (ttl : Option ℚ) (reply : Reply) :
    Except String CacheState :=
  let ttl := ttl.getD 3600
  tryCatch
    (if s.isRedisConnected && s.redisClient then
      match reply with
      | .ok => .ok s
      | .throws => .error "redis"
    else
      .ok { s with
        memoryCache := JSMap.set s.memoryCache key value
        timers := s.timers ++ [{ due := s.now + timerDelay (ttl * 1000), key := key }] })
    (fun _ => .ok { s with memoryCache := JSMap.set s.memoryCache key value })

/-- The method `del(key)`. -/
def del (s : CacheState) (key : String) (reply : Reply) : Except String CacheState :=
  tryCatch
    (if s.isRedisConnected && s.redisClient then
      match reply with
      | .ok => .ok s
      | .throws => .error "redis"
    else
      .ok { s with memoryCache := JSMap.delete s.memoryCache key })
    (fun _ => .ok { s with memoryCache := JSMap.delete s.memoryCache key })

/-- The method `flush()`. -/
def flush (s : CacheState) (reply : Reply) : Except String CacheState :=
  tryCatch
    (if s.isRedisConnected && s.redisClient then
      match reply with
      | .ok => .ok s
      | .throws => .error "redis"
    else
      .ok { s with memoryCache := [] })
    (fun _ => .ok { s with memoryCache := [] })

/-- Runs the callbacks of the timers due at time `t`: each deletes its key. -/
def fireTimers (memoryCache : List (String × JSValue)) (timers : List Timer) (t : ℚ) :
    List (String × JSValue) :=
  timers.foldl (fun m timer => if timer.due ≤ t then JSMap.delete m timer.key else m)
    memoryCache

/-- The clock moves on to `t` (it never moves back): the timers due by then fire and
leave the pending list. -/
def advance (s : CacheState) (t : ℚ) : CacheState :=
  let now := max s.now t
  { s with
    now := now
    memoryCache := fireTimers s.memoryCache s.timers now
    timers := s.timers.filter fun timer => decide (¬ timer.due ≤ now) }

/-- One thing that happens to the cache: a call of a method together with what the
primary store answers, a client event, or the passing of time. -/
inductive Event
  | get (key : String) (reply : GetReply)
  | set (key : String) (value : JSValue) (ttl : Option ℚ) (reply : Reply)
  | del (key : String) (reply : Reply)
  | flush (reply : Reply)
  | error
  | connect
  | advance (t : ℚ)

/-- The state after an event; a method that throws would leave the state as it is. -/
def step (s : CacheState) : Event → CacheState
  | .get key reply =>
    match get s key reply with
    | .ok (_, s') => s'
    | .error _ => s
  | .set key value ttl reply =>
    match set s key value ttl reply with
    | .ok s' => s'
    | .error _ => s
  | .del key reply =>
    match del s key reply with
    | .ok s' => s'
    | .error _ => s
  | .flush reply =>
    match flush s reply with
    | .ok s' => s'
    | .error _ => s
  | .error => onError s
  | .connect => onConnect s
  | .advance t => advance s t

/-- The state after a sequence of events. -/
def run (s : CacheState) (events : List Event) : CacheState := events.foldl step s

/-- Whether the event is a call `set(key, ...)`. -/
def Event.setsKey (key : String) : Event → Bool
  | .set k _ _ _ => decide (k = key)
  | _ => false

/-- What a stretch of the cache's life keeps true about `key` after a `set` on the local
branch whose timer is due at `due`: every pending timer is due in the future, and `key`
is absent from `memoryCache` or a timer for it is pending with that due time. -/
def AwaitsEviction (key : String) (due : ℚ) (s : CacheState) : Prop :=
  (∀ timer ∈ s.timers, s.now < timer.due) ∧
  (JSMap.get s.memoryCache key = none ∨
    ∃ timer ∈ s.timers, timer.key = key ∧ timer.due = due)

end CacheService

/-!
# Double-precision subtraction

The coordinates the notification service compares are JavaScript numbers, IEEE 754 doubles.
A finite double is kept as the rational it stands for. The difference of two doubles is
the exact difference rounded to the nearest double, a tie going to the even significand.
A result of magnitude `2 ^ 1024` or more stands for an infinity: both are above every
bound they are compared with here.
-/

namespace Double

/-- Rounding to the nearest integer, a tie going to the even one. -/
def roundHalfEven (x : ℚ) : ℤ :=
  if x - ⌊x⌋ < 1 / 2 then ⌊x⌋
  else if 1 / 2 < x - ⌊x⌋ then ⌊x⌋ + 1
  else if ⌊x⌋ % 2 = 0 then ⌊x⌋
  else ⌊x⌋ + 1

/-- Binary exponent of a positive number, `⌊log₂ x⌋`, and `-1022` for everything below
`2 ^ (-1022)`: the subnormal numbers share the spacing of the lowest binade. -/
def exponent (x : ℚ) : ℤ := max (Int.log 2 x) (-1022)

/-- Spacing of the doubles around a positive number: 53 significant bits. -/
def quantum (x : ℚ) : ℚ := 2 ^ (exponent x - 52)

/-- The double nearest to a non-negative number. -/
def roundMagnitude (x : ℚ) : ℚ := roundHalfEven (x / quantum x) * quantum x

/-- The double nearest to a number: the sign and the rounded magnitude. This is also the
value of a decimal literal. -/
def roundToDouble (x : ℚ) : ℚ :=
  if x < 0 then -roundMagnitude (-x) else roundMagnitude x

/-- The expression `a - b` on doubles. -/
def sub (a b : ℚ) : ℚ := roundToDouble (a - b)

end Double

/-!
# Subscription registry and alert matcher of `services/notificationService.js`

The registry is the `Map` `this.subscriptions`. A subscription holds what the service
stores for well-typed input: coordinates that are finite doubles (kept as the rationals
they stand for), contacts that are strings or absent, and `alertLevels` that is an array
of strings. The random subscription id and the creation time are parameters. What the
service does to the outside (calls of `sendAirQualityAlert`, of the mail transport and of
the SMS log) is recorded as a trace; timestamps are left out of the messages.
-/

namespace NotificationService

/-- The object `{ lat, lng }`. -/
structure Location where
  lat : ℚ
  lng : ℚ
  deriving DecidableEq

/-- A stored subscription; `email` and `phone` are `none` when `undefined`. -/
structure Subscription where
  id : String
  location : Location
  email : Option String
  phone : Option String
  alertLevels : List String
  createdAt : String
  isActive : Bool
  deriving DecidableEq

/-- The argument object of `subscribeToAlerts`; `alertLevels` is `none` when the property
is omitted. -/
structure SubscribeRequest where
  lat : ℚ
  lng : ℚ
  email : Option String
  phone : Option String
  alertLevels : Option (List String)

/-- The object `subscribeToAlerts` returns. -/
structure SubscribeResponse where
  subscriptionId : String
  message : String
  subscription : Subscription
  deriving DecidableEq

/-- The method `subscribeToAlerts(request)`: the response and the registry afterwards.
The call `sendTestNotificationAfterSubscription` catches every error of its own body and
does not touch the registry, so nothing in the `try` block throws. -/
def subscribeToAlerts (subscriptions : List (String × Subscription))
    (request : SubscribeRequest) (subscriptionId createdAt : String) :
    Except String (SubscribeResponse × List (String × Subscription)) :=
  let alertLevels := request.alertLevels.getD ["unhealthy", "very-unhealthy", "hazardous"]
  let subscription : Subscription :=
    { id := subscriptionId
      location := { lat := request.lat, lng := request.lng }
      email := request.email
      phone := request.phone
      alertLevels := alertLevels
      createdAt := createdAt
      isActive := true }
  .ok ({ subscriptionId := subscriptionId
         message := "Successfully subscribed to air quality alerts. Test notification sent!"
         subscription := subscription },
       JSMap.set subscriptions subscriptionId subscription)

/-- The method `unsubscribeFromAlerts(subscriptionId)`: the returned message and the
registry afterwards, or the error thrown. -/
def unsubscribeFromAlerts (subscriptions : List (String × Subscription))
    (subscriptionId : String) : Except String (String × List (String × Subscription)) :=
  if JSMap.has subscriptions subscriptionId then
    .ok ("Successfully unsubscribed from alerts", JSMap.delete subscriptions subscriptionId)
  else
    .error "Subscription not found"

/-- Characters the pattern `\s` matches. -/
def isWhitespace (c : Char) : Bool :=
  c.toNat ∈ [9, 10, 11, 12, 13, 32, 160, 5760, 8232, 8233, 8239, 8287, 12288, 65279]
    || (8192 ≤ c.toNat && c.toNat ≤ 8202)

/-- The call `text.replace(/\s+/g, '-')` on the characters of a text; `inRun` tells that
the preceding character was whitespace. -/
def replaceWhitespaceRuns (inRun : Bool) : List Char → List Char
  | [] => []
  | c :: rest =>
    if isWhitespace c then
      if inRun then replaceWhitespaceRuns true rest
      else '-' :: replaceWhitespaceRuns true rest
    else c :: replaceWhitespaceRuns false rest

/-- The expression `category.toLowerCase().replace(/\s+/g, '-')` for a category written
in ASCII characters: the letters `A` to `Z` are lowered, and a letter outside ASCII, which
`toLowerCase` may change, is left as it is. -/
def normalizeCategory (category : String) : String :=
  String.mk (replaceWhitespaceRuns false (category.toList.map Char.toLower))

/-- The argument `airQualityData`: the fields of a result that the service reads, and
the location of the result. -/
structure AirQualityData where
  location : Location
  aqi : ℤ
  category : String
  healthMessage : String
  recommendations : List String
  deriving DecidableEq

/-- The method `shouldSendAlert(subscription, airQualityData)`. -/
def shouldSendAlert (subscription : Subscription) (airQualityData : AirQualityData) : Bool :=
  decide (normalizeCategory airQualityData.category ∈ subscription.alertLevels)

/-- The list `relevantSubscriptions` of `checkAndSendAlerts`: the differences are
computed in doubles and compared with the double that the literal `0.1` denotes. -/
def relevantSubscriptions (subscriptions : List (String × Subscription))
    (location : Location) : List Subscription :=
  (JSMap.values subscriptions).filter fun sub =>
    sub.isActive
      && decide (|Double.sub sub.location.lat location.lat| < Double.roundToDouble 0.1)
      && decide (|Double.sub sub.location.lng location.lng| < Double.roundToDouble 0.1)

/-- The object `alertMessage` of `sendAirQualityAlert`, without its timestamp. -/
structure AlertMessage where
  title : String
  message : String
  aqi : ℤ
  category : String
  recommendations : List String
  deriving DecidableEq

/-- What the service does to the outside: a call of `sendAirQualityAlert`, a call
`emailTransporter.sendMail` for a recipient (subject and body are built from the message
alone), and the SMS log line for a phone number. -/
inductive Action
  | alert (subscription : Subscription)
  | sendMail (recipient : String) (message : AlertMessage)
  | sms (recipient : String) (message : AlertMessage)
  deriving DecidableEq

/-- A computation that acts on the outside and then returns or throws. -/
structure Run (α : Type) where
  trace : List Action
  result : Except String α

/-- Returns without acting. -/
def Run.pure {α : Type} (a : α) : Run α := { trace := [], result := .ok a }

/-- Performs one action; throws afterwards when `throws` is set. -/
def Run.act (action : Action) (throws : Bool) : Run Unit :=
  { trace := [action], result := if throws then .error "transport" else .ok () }

/-- Sequencing: the second computation runs only when the first returns. -/
def Run.andThen {α β : Type} (first : Run α) (next : α → Run β) : Run β :=
  match first.result with
  | .ok a => { trace := first.trace ++ (next a).trace, result := (next a).result }
  | .error e => { trace := first.trace, result := .error e }

/-- A `try { body } catch (error) { handler }` block. -/
def Run.tryCatch {α : Type} (body : Run α) (handler : String → Run α) : Run α :=
  match body.result with
  | .ok a => { trace := body.trace, result := .ok a }
  | .error e => { trace := body.trace ++ (handler e).trace, result := (handler e).result }

/-- The method `generateAlertMessage(airQualityData)`. -/
def generateAlertMessage (airQualityData : AirQualityData) : String :=
  "Air Quality Alert: " ++ airQualityData.category ++ "\n      AQI: "
    ++ toString airQualityData.aqi ++ "\n      \n      " ++ airQualityData.healthMessage
    ++ "\n      \n      Recommendations:\n      "
    ++ "\n".intercalate (airQualityData.recommendations.map fun item => "• " ++ item)
    ++ "\n      \n      Stay safe and check air quality regularly!"

/-- The object `alertMessage` that `sendAirQualityAlert` builds from its argument. -/
def alertMessage (airQualityData : AirQualityData) : AlertMessage :=
  { title := "Air Quality Alert: " ++ airQualityData.category
    message := generateAlertMessage airQualityData
    aqi := airQualityData.aqi
    category := airQualityData.category
    recommendations := airQualityData.recommendations }

/-- Truthiness of a contact that is a string or `undefined`. -/
def present : Option String → Bool
  | none => false
  | some s => decide (s ≠ "")

/-- The method `sendEmailNotification(email, message)`; `throws` tells whether the mail
transport throws on this call. -/
def sendEmailNotification (throws : Bool) (email : String) (message : AlertMessage) :
    Run Unit :=
  Run.tryCatch (Run.act (.sendMail email message) throws) (fun _ => Run.pure ())

/-- The method `sendSMSNotification(phone, message)`. -/
def sendSMSNotification (phone : String) (message : AlertMessage) : Run Unit :=
  Run.tryCatch (Run.act (.sms phone message) false) (fun _ => Run.pure ())

/-- The method `sendAirQualityAlert(subscription, airQualityData)`; `throws` tells whether
the mail transport throws when it is called. -/
def sendAirQualityAlert (throws : Bool) (subscription : Subscription)
    (airQualityData : AirQualityData) : Run Unit :=
  let alertMessage := alertMessage airQualityData
  Run.tryCatch
    (Run.andThen
      (if present subscription.email then
        sendEmailNotification throws (subscription.email.getD "") alertMessage
      else Run.pure ())
      fun _ =>
        if present subscription.phone then
          sendSMSNotification (subscription.phone.getD "") alertMessage
        else Run.pure ())
    (fun _ => Run.pure ())

/-- The loop `for (const subscription of relevantSubscriptions)`; `n` counts the
subscriptions already visited and `transport n` tells whether the mail transport throws
for the subscription at place `n`. -/
def alertLoop (transport : ℕ → Bool) (airQualityData : AirQualityData) :
    ℕ → List Subscription → Run Unit
  | _, [] => Run.pure ()
  | n, subscription :: rest =>
    Run.andThen
      (if shouldSendAlert subscription airQualityData then
        Run.andThen (Run.act (.alert subscription) false) fun _ =>
          sendAirQualityAlert (transport n) subscription airQualityData
      else Run.pure ())
      fun _ => alertLoop transport airQualityData (n + 1) rest

/-- The method `checkAndSendAlerts(location, airQualityData)`: what it does and how it
ends, and the registry afterwards. -/
def checkAndSendAlerts (subscriptions : List (String × Subscription))
    (location : Location) (airQualityData : AirQualityData) (transport : ℕ → Bool) :
    Run Unit × List (String × Subscription) :=
  (Run.tryCatch
    (alertLoop transport airQualityData 0 (relevantSubscriptions subscriptions location))
    (fun _ => Run.pure ()),
   subscriptions)

/-! ## Definitions used by the statements and proofs -/

/-- One dispatch request per present channel: the mail for a present `email`, then the
SMS for a present `phone`. -/
def expectedSends (subscription : Subscription) (airQualityData : AirQualityData) :
    List Action :=
  (if present subscription.email then
      [Action.sendMail (subscription.email.getD "") (alertMessage airQualityData)]
    else [])
  ++ (if present subscription.phone then
      [Action.sms (subscription.phone.getD "") (alertMessage airQualityData)]
    else [])

/-- The trace of a pass over a list of subscriptions in which nothing throws: for each
subscription that should be alerted, the call of `sendAirQualityAlert` and its sends. -/
def expectedTrace (airQualityData : AirQualityData) : List Subscription → List Action
  | [] => []
  | subscription :: rest =>
    (if shouldSendAlert subscription airQualityData then
        Action.alert subscription :: expectedSends subscription airQualityData
      else [])
    ++ expectedTrace airQualityData rest

/-- A call that changes the registry. -/
inductive RegistryCall
  | subscribe (request : SubscribeRequest) (subscriptionId createdAt : String)
  | unsubscribe (subscriptionId : String)

/-- The registry after a call; a call that throws leaves it as it is. -/
def applyCall (subscriptions : List (String × Subscription)) :
    RegistryCall → List (String × Subscription)
  | .subscribe request subscriptionId createdAt =>
    match subscribeToAlerts subscriptions request subscriptionId createdAt with
    | .ok (_, subscriptions') => subscriptions'
    | .error _ => subscriptions
  | .unsubscribe subscriptionId =>
    match unsubscribeFromAlerts subscriptions subscriptionId with
    | .ok (_, subscriptions') => subscriptions'
    | .error _ => subscriptions

/-- The registry after a sequence of calls. -/
def applyCalls (subscriptions : List (String × Subscription)) (calls : List RegistryCall) :
    List (String × Subscription) :=
  calls.foldl applyCall subscriptions

/-- Tells that a call is not a subscription created under the id `subscriptionId`. -/
def RegistryCall.avoids (subscriptionId : String) : RegistryCall → Prop
  | .subscribe _ newId _ => newId ≠ subscriptionId
  | .unsubscribe _ => True

/-- Tells that a text is written in ASCII characters; on such a text `toLowerCase`
changes the letters `A` to `Z` only. -/
def IsAscii (text : String) : Prop := ∀ c ∈ text.toList, c.toNat < 128

/-- Every stored subscription carries the key it is stored under as its `id`. -/
def IdsMatchKeys (subscriptions : List (String × Subscription)) : Prop :=
  ∀ entry ∈ subscriptions, entry.2.id = entry.1

end NotificationService

/-!
# Request validation of `middleware/validation.js`

A query parameter is a string or absent. The builtin `parseFloat` is a parameter of the
model: any function from strings to the values a JavaScript number can take.
-/

namespace Validation

/-- The values `parseFloat` can return. -/
inductive ParsedNumber
  | nan
  | negInfinity
  | posInfinity
  | finite (x : ℚ)
  deriving DecidableEq

/-- The call `isNaN(x)`. -/
def isNaN : ParsedNumber → Bool
  | .nan => true
  | _ => false

/-- The comparison `x < bound` with a finite bound. -/
def lessThan : ParsedNumber → ℚ → Bool
  | .nan, _ => false
  | .negInfinity, _ => true
  | .posInfinity, _ => false
  | .finite x, bound => decide (x < bound)

/-- The comparison `x > bound` with a finite bound. -/
def greaterThan : ParsedNumber → ℚ → Bool
  | .nan, _ => false
  | .negInfinity, _ => false
  | .posInfinity, _ => true
  | .finite x, bound => decide (bound < x)

/-- Truthiness of a query parameter. -/
def given : Option String → Bool
  | none => false
  | some s => decide (s ≠ "")

/-- What the middleware does with a request: it calls `next()` after setting
`req.validatedLocation`, or it answers with a status and an error text. -/
inductive Outcome
  | next (lat lng : ParsedNumber)
  | respond (status : ℕ) (error : String)
  deriving DecidableEq

/-- The middleware `validateLocation(req, res, next)` on the query parameters `lat` and
`lng`. -/
def validateLocation (parseFloat : String → ParsedNumber) (lat lng : Option String) :
    Outcome :=
  if !given lat || !given lng then
    .respond 400 "Latitude and longitude are required"
  else
    let latitude := parseFloat (lat.getD "")
    let longitude := parseFloat (lng.getD "")
    if isNaN latitude || isNaN longitude then
      .respond 400 "Latitude and longitude must be valid numbers"
    else if lessThan latitude (-90) || greaterThan latitude 90 then
      .respond 400 "Latitude must be between -90 and 90"
    else if lessThan longitude (-180) || greaterThan longitude 180 then
      .respond 400 "Longitude must be between -180 and 180"
    else
      .next latitude longitude

end Validation

/-!
# User store of `services/userService.js`

The store is the `Map` `this.users`, keyed by the email given at registration. Password
hashing and token signing are not modelled: the hash, the token, the random id and the
time stamps are parameters, and a hash or a token that is `none` stands for a call that
throws. A method returns what it returns or throws, and the store afterwards.
-/

namespace UserService

/-- A stored user object. -/
structure User where
  id : String
  email : String
  password : String
  name : String
  createdAt : String
  updatedAt : Option String
  isActive : Bool
  deriving DecidableEq

/-- The profile object returned by `getUserProfile` and `updateUserProfile`. -/
structure Profile where
  id : String
  email : String
  name : String
  createdAt : String
  updatedAt : Option String
  isActive : Bool
  deriving DecidableEq

/-- The expression `Array.from(this.users.values()).find(u => u.id === userId)`. -/
def findById (users : List (String × User)) (userId : String) : Option User :=
  (JSMap.values users).find? fun u => decide (u.id = userId)

/-- The method `registerUser({ email, password, name })`: the public fields of the new
user with the token, or the error thrown; and the store afterwards. -/
def registerUser (users : List (String × User)) (email name : String)
    (hashedPassword : Option String) (userId createdAt : String) (token : Option String) :
    Except String (User × String) × List (String × User) :=
  if JSMap.has users email then (.error "User already exists", users)
  else
    match hashedPassword with
    | none => (.error "hash", users)
    | some hashed =>
      let user : User :=
        { id := userId, email := email, password := hashed, name := name,
          createdAt := createdAt, updatedAt := none, isActive := true }
      let users' := JSMap.set users email user
      match token with
      | none => (.error "sign", users')
      | some signed => (.ok (user, signed), users')

/-- The method `getUserProfile(userId)`. -/
def getUserProfile (users : List (String × User)) (userId : String) : Except String Profile :=
  match findById users userId with
  | none => .error "User not found"
  | some user =>
    .ok { id := user.id, email := user.email, name := user.name,
          createdAt := user.createdAt, updatedAt := none, isActive := user.isActive }

/-- The assignments of `updateUserProfile` to the user object it found. -/
def applyUpdates (user : User) (name email : Option String) (updatedAt : String) : User :=
  let user := match name with
    | some n => if n ≠ "" then { user with name := n } else user
    | none => user
  let user := match email with
    | some e => if e ≠ "" then { user with email := e } else user
    | none => user
  { user with updatedAt := some updatedAt }

/-- Writes `f user` in place of the first stored user object with the id `userId`; the
key of the entry stays what it was. -/
def mutateFirst (userId : String) (f : User → User) :
    List (String × User) → List (String × User)
  | [] => []
  | (key, user) :: rest =>
    if user.id = userId then (key, f user) :: rest
    else (key, user) :: mutateFirst userId f rest

/-- The method `updateUserProfile(userId, updates)`; `name` and `email` are the two
properties of `updates` that are read. -/
def updateUserProfile (users : List (String × User)) (userId : String)
    (name email : Option String) (updatedAt : String) :
    Except String Profile × List (String × User) :=
  match findById users userId with
  | none => (.error "User not found", users)
  | some user =>
    let updated := applyUpdates user name email updatedAt
    (.ok { id := updated.id, email := updated.email, name := updated.name,
           createdAt := updated.createdAt, updatedAt := updated.updatedAt,
           isActive := updated.isActive },
     mutateFirst userId (fun u => applyUpdates u name email updatedAt) users)

/-- The method `deleteUser(userId)`. -/
def deleteUser (users : List (String × User)) (userId : String) :
    Except String String × List (String × User) :=
  match findById users userId with
  | none => (.error "User not found", users)
  | some user => (.ok "User deleted successfully", JSMap.delete users user.email)

end UserService

namespace AirQualityService

/-! ## Auxiliary facts -/

theorem mathRound_intCast (n : ℤ) : mathRound (n : ℚ) = n := by
  unfold mathRound
  rw [Int.floor_eq_iff]
  constructor <;> norm_num

theorem le_mathRound (n : ℤ) (x : ℚ) (h : (n : ℚ) ≤ x) : n ≤ mathRound x := by
  unfold mathRound
  rw [Int.le_floor]
  linarith

theorem scanThresholds_nil (c : ℚ) : scanThresholds [] c = some 500 := by
  simp [scanThresholds]

theorem scanThresholds_cascade (t0 t1 t2 t3 t4 t5 t6 c : ℚ) :
    scanThresholds [t0, t1, t2, t3, t4, t5, t6] c =
      if c ≤ t0 then interpolate [t0, t1, t2, t3, t4, t5, t6] c 0
      else if c ≤ t1 then interpolate [t0, t1, t2, t3, t4, t5, t6] c 1
      else if c ≤ t2 then interpolate [t0, t1, t2, t3, t4, t5, t6] c 2
      else if c ≤ t3 then interpolate [t0, t1, t2, t3, t4, t5, t6] c 3
      else if c ≤ t4 then interpolate [t0, t1, t2, t3, t4, t5, t6] c 4
      else if c ≤ t5 then interpolate [t0, t1, t2, t3, t4, t5, t6] c 5
      else if c ≤ t6 then interpolate [t0, t1, t2, t3, t4, t5, t6] c 6
      else some 500 := by
  simp only [scanThresholds, List.length_cons, List.length_nil, List.range, List.range.loop,
    List.find?_cons, List.find?_nil, List.getD_cons_zero, List.getD_cons_succ]
  split_ifs <;> simp [*]

/-- On a strictly increasing seven-entry table that starts above zero, the loop returns
the rounded closed form `bandValue`. -/
theorem scanThresholds_seven (t0 t1 t2 t3 t4 t5 t6 c : ℚ) (h0 : 0 < t0) (h1 : t0 < t1)
    (h2 : t1 < t2) (h3 : t2 < t3) (h4 : t3 < t4) (h5 : t4 < t5) (h6 : t5 < t6) :
    scanThresholds [t0, t1, t2, t3, t4, t5, t6] c
      = some (mathRound (bandValue t0 t1 t2 t3 t4 t5 t6 c)) := by
  have e0 : t0 ≠ 0 := ne_of_gt h0
  have e1 : t1 - t0 ≠ 0 := sub_ne_zero.mpr (ne_of_gt h1)
  have e2 : t2 - t1 ≠ 0 := sub_ne_zero.mpr (ne_of_gt h2)
  have e3 : t3 - t2 ≠ 0 := sub_ne_zero.mpr (ne_of_gt h3)
  have e4 : t4 - t3 ≠ 0 := sub_ne_zero.mpr (ne_of_gt h4)
  have e5 : t5 - t4 ≠ 0 := sub_ne_zero.mpr (ne_of_gt h5)
  have e6 : t6 - t5 ≠ 0 := sub_ne_zero.mpr (ne_of_gt h6)
  rw [scanThresholds_cascade]
  unfold bandValue
  split_ifs
  · simp [interpolate, aqiBreakpoints, jsDiv, e0]
  · simp [interpolate, aqiBreakpoints, jsDiv, e1]; norm_num
  · simp [interpolate, aqiBreakpoints, jsDiv, e2]; norm_num
  · simp [interpolate, aqiBreakpoints, jsDiv, e3]; norm_num
  · simp [interpolate, aqiBreakpoints, jsDiv, e4]; norm_num
  · simp [interpolate, aqiBreakpoints, jsDiv, e5]; norm_num
  · simp [interpolate, aqiBreakpoints, jsDiv, e6]; norm_num
  · have h500 : (500 : ℚ) = ((500 : ℤ) : ℚ) := by norm_num
    rw [h500, mathRound_intCast]

theorem thresholds_mem (p : String) (t : List ℚ) (h : thresholds p = some t) :
    t ∈ allTables := by
  unfold thresholds at h
  split at h <;> simp_all [allTables]

theorem pollutantThresholds_mem (p : String) : pollutantThresholds p ∈ allTables := by
  unfold pollutantThresholds
  cases h : thresholds p with
  | none => simp only []; split_ifs <;> simp [allTables]
  | some t => exact thresholds_mem p t h

theorem allTables_chain : ∀ t ∈ allTables, List.Chain' (· < ·) ((0 : ℚ) :: t) := by
  simp [allTables]
  norm_num

theorem scanThresholds_isSome (t : List ℚ) (ht : t ∈ allTables) (c : ℚ) :
    ∃ v : ℤ, scanThresholds t c = some v := by
  simp only [allTables, List.mem_cons, List.mem_singleton, List.not_mem_nil, or_false] at ht
  rcases ht with rfl | rfl | rfl | rfl | rfl | rfl | rfl
  · exact ⟨_, scanThresholds_seven _ _ _ _ _ _ _ c (by norm_num) (by norm_num) (by norm_num)
      (by norm_num) (by norm_num) (by norm_num) (by norm_num)⟩
  · exact ⟨_, scanThresholds_seven _ _ _ _ _ _ _ c (by norm_num) (by norm_num) (by norm_num)
      (by norm_num) (by norm_num) (by norm_num) (by norm_num)⟩
  · exact ⟨_, scanThresholds_seven _ _ _ _ _ _ _ c (by norm_num) (by norm_num) (by norm_num)
      (by norm_num) (by norm_num) (by norm_num) (by norm_num)⟩
  · exact ⟨_, scanThresholds_seven _ _ _ _ _ _ _ c (by norm_num) (by norm_num) (by norm_num)
      (by norm_num) (by norm_num) (by norm_num) (by norm_num)⟩
  · exact ⟨_, scanThresholds_seven _ _ _ _ _ _ _ c (by norm_num) (by norm_num) (by norm_num)
      (by norm_num) (by norm_num) (by norm_num) (by norm_num)⟩
  · exact ⟨_, scanThresholds_seven _ _ _ _ _ _ _ c (by norm_num) (by norm_num) (by norm_num)
      (by norm_num) (by norm_num) (by norm_num) (by norm_num)⟩
  · exact ⟨500, scanThresholds_nil c⟩

/-- The sub-index is a finite integer for every argument. -/
theorem calculatePollutantAQI_isSome (concentration : Option ℚ) (pollutant : String) :
    ∃ v : ℤ, calculatePollutantAQI concentration pollutant = some v := by
  unfold calculatePollutantAQI
  cases concentration with
  | none => exact ⟨0, rfl⟩
  | some c =>
    simp only []
    split_ifs
    · exact ⟨0, rfl⟩
    · exact scanThresholds_isSome _ (pollutantThresholds_mem pollutant) c

theorem mathMax_mem_and_ge : ∀ (l : List (Option ℤ)) (m : ℤ), mathMax l = some m →
    some m ∈ l ∧ ∀ v : ℤ, some v ∈ l → v ≤ m
  | [], m, h => by simp [mathMax] at h
  | [x], m, h => by
    simp only [mathMax] at h
    subst h
    simp
  | x :: y :: rest, m, h => by
    cases x with
    | none => simp [mathMax] at h
    | some a =>
      cases hb : mathMax (y :: rest) with
      | none => simp [mathMax, hb] at h
      | some b =>
        have ih := mathMax_mem_and_ge (y :: rest) b hb
        simp only [mathMax, hb, Option.bind_eq_bind, Option.some_bind, Option.pure_def,
          Option.some.injEq] at h
        subst h
        constructor
        · rcases le_total a b with hab | hab
          · rw [max_eq_right hab]
            exact List.mem_cons_of_mem _ ih.1
          · rw [max_eq_left hab]
            exact List.mem_cons_self _ _
        · intro v hv
          rcases List.mem_cons.mp hv with hv | hv
          · have : v = a := Option.some.inj hv
            subst this
            exact le_max_left _ _
          · exact le_trans (ih.2 v hv) (le_max_right _ _)

theorem mathMax_aqiValues_isSome (a b c d e f : Option ℚ) :
    ∃ m : ℤ, mathMax (aqiValues a b c d e f) = some m := by
  obtain ⟨v1, h1⟩ := calculatePollutantAQI_isSome a "pm25"
  obtain ⟨v2, h2⟩ := calculatePollutantAQI_isSome b "pm10"
  obtain ⟨v3, h3⟩ := calculatePollutantAQI_isSome c "ozone"
  obtain ⟨v4, h4⟩ := calculatePollutantAQI_isSome d "no2"
  obtain ⟨v5, h5⟩ := calculatePollutantAQI_isSome e "so2"
  obtain ⟨v6, h6⟩ := calculatePollutantAQI_isSome f "co"
  simp [aqiValues, mathMax, h1, h2, h3, h4, h5, h6]

theorem none_not_mem_aqiValues (a b c d e f : Option ℚ) :
    none ∉ aqiValues a b c d e f := by
  obtain ⟨v1, h1⟩ := calculatePollutantAQI_isSome a "pm25"
  obtain ⟨v2, h2⟩ := calculatePollutantAQI_isSome b "pm10"
  obtain ⟨v3, h3⟩ := calculatePollutantAQI_isSome c "ozone"
  obtain ⟨v4, h4⟩ := calculatePollutantAQI_isSome d "no2"
  obtain ⟨v5, h5⟩ := calculatePollutantAQI_isSome e "so2"
  obtain ⟨v6, h6⟩ := calculatePollutantAQI_isSome f "co"
  simp [aqiValues, h1, h2, h3, h4, h5, h6]

theorem pollutantThresholds_pm25 :
    pollutantThresholds "pm25" = [12, 35.4, 55.4, 150.4, 250.4, 350.4, 500.4] := rfl

theorem pollutantThresholds_pm10 :
    pollutantThresholds "pm10" = [54, 154, 254, 354, 424, 504, 604] := rfl

theorem pollutantThresholds_ozone :
    pollutantThresholds "ozone" = [54, 70, 85, 105, 200, 400, 500] := rfl

theorem pollutantThresholds_no2 :
    pollutantThresholds "no2" = [53, 100, 360, 649, 1249, 1649, 2049] := rfl

theorem pollutantThresholds_so2 :
    pollutantThresholds "so2" = [35, 75, 185, 304, 604, 804, 1004] := rfl

theorem pollutantThresholds_co :
    pollutantThresholds "co" = [4.4, 9.4, 12.4, 15.4, 30.4, 40.4, 50.4] := rfl

theorem calculatePollutantAQI_none (p : String) : calculatePollutantAQI none p = some 0 := rfl

theorem calculatePollutantAQI_some (c : ℚ) (p : String) (hc : c ≠ 0) :
    calculatePollutantAQI (some c) p = scanThresholds (pollutantThresholds p) c := by
  simp [calculatePollutantAQI, hc]

/-- For each of the six pollutants the table has seven entries, is strictly increasing
from above zero, and the sub-index of a non-zero concentration is the rounded closed
form `bandValue`. -/
theorem calculatePollutantAQI_closed (p : String) (hp : p ∈ pollutantNames) :
    ∃ t0 t1 t2 t3 t4 t5 t6 : ℚ, pollutantThresholds p = [t0, t1, t2, t3, t4, t5, t6] ∧
      0 < t0 ∧ t0 < t1 ∧ t1 < t2 ∧ t2 < t3 ∧ t3 < t4 ∧ t4 < t5 ∧ t5 < t6 ∧
      ∀ c : ℚ, c ≠ 0 → calculatePollutantAQI (some c) p
        = some (mathRound (bandValue t0 t1 t2 t3 t4 t5 t6 c)) := by
  simp only [pollutantNames, List.mem_cons, List.mem_singleton, List.not_mem_nil,
    or_false] at hp
  rcases hp with rfl | rfl | rfl | rfl | rfl | rfl
  · refine ⟨_, _, _, _, _, _, _, pollutantThresholds_pm25, by norm_num, by norm_num,
      by norm_num, by norm_num, by norm_num, by norm_num, by norm_num, fun c hc => ?_⟩
    rw [calculatePollutantAQI_some c _ hc, pollutantThresholds_pm25]
    exact scanThresholds_seven _ _ _ _ _ _ _ c (by norm_num) (by norm_num) (by norm_num)
      (by norm_num) (by norm_num) (by norm_num) (by norm_num)
  · refine ⟨_, _, _, _, _, _, _, pollutantThresholds_pm10, by norm_num, by norm_num,
      by norm_num, by norm_num, by norm_num, by norm_num, by norm_num, fun c hc => ?_⟩
    rw [calculatePollutantAQI_some c _ hc, pollutantThresholds_pm10]
    exact scanThresholds_seven _ _ _ _ _ _ _ c (by norm_num) (by norm_num) (by norm_num)
      (by norm_num) (by norm_num) (by norm_num) (by norm_num)
  · refine ⟨_, _, _, _, _, _, _, pollutantThresholds_ozone, by norm_num, by norm_num,
      by norm_num, by norm_num, by norm_num, by norm_num, by norm_num, fun c hc => ?_⟩
    rw [calculatePollutantAQI_some c _ hc, pollutantThresholds_ozone]
    exact scanThresholds_seven _ _ _ _ _ _ _ c (by norm_num) (by norm_num) (by norm_num)
      (by norm_num) (by norm_num) (by norm_num) (by norm_num)
  · refine ⟨_, _, _, _, _, _, _, pollutantThresholds_no2, by norm_num, by norm_num,
      by norm_num, by norm_num, by norm_num, by norm_num, by norm_num, fun c hc => ?_⟩
    rw [calculatePollutantAQI_some c _ hc, pollutantThresholds_no2]
    exact scanThresholds_seven _ _ _ _ _ _ _ c (by norm_num) (by norm_num) (by norm_num)
      (by norm_num) (by norm_num) (by norm_num) (by norm_num)
  · refine ⟨_, _, _, _, _, _, _, pollutantThresholds_so2, by norm_num, by norm_num,
      by norm_num, by norm_num, by norm_num, by norm_num, by norm_num, fun c hc => ?_⟩
    rw [calculatePollutantAQI_some c _ hc, pollutantThresholds_so2]
    exact scanThresholds_seven _ _ _ _ _ _ _ c (by norm_num) (by norm_num) (by norm_num)
      (by norm_num) (by norm_num) (by norm_num) (by norm_num)
  · refine ⟨_, _, _, _, _, _, _, pollutantThresholds_co, by norm_num, by norm_num,
      by norm_num, by norm_num, by norm_num, by norm_num, by norm_num, fun c hc => ?_⟩
    rw [calculatePollutantAQI_some c _ hc, pollutantThresholds_co]
    exact scanThresholds_seven _ _ _ _ _ _ _ c (by norm_num) (by norm_num) (by norm_num)
      (by norm_num) (by norm_num) (by norm_num) (by norm_num)

/-- At the upper breakpoint of a band the closed form is the lower AQI bound of the next
band, `501` for the top band. -/
theorem bandValue_at_breakpoint (t0 t1 t2 t3 t4 t5 t6 : ℚ) (h0 : 0 < t0) (h1 : t0 < t1)
    (h2 : t1 < t2) (h3 : t2 < t3) (h4 : t3 < t4) (h5 : t4 < t5) (h6 : t5 < t6) :
    bandValue t0 t1 t2 t3 t4 t5 t6 t0 = 51 ∧ bandValue t0 t1 t2 t3 t4 t5 t6 t1 = 101 ∧
    bandValue t0 t1 t2 t3 t4 t5 t6 t2 = 151 ∧ bandValue t0 t1 t2 t3 t4 t5 t6 t3 = 201 ∧
    bandValue t0 t1 t2 t3 t4 t5 t6 t4 = 301 ∧ bandValue t0 t1 t2 t3 t4 t5 t6 t5 = 401 ∧
    bandValue t0 t1 t2 t3 t4 t5 t6 t6 = 501 := by
  have e0 : t0 ≠ 0 := ne_of_gt h0
  have e1 : t1 - t0 ≠ 0 := sub_ne_zero.mpr (ne_of_gt h1)
  have e2 : t2 - t1 ≠ 0 := sub_ne_zero.mpr (ne_of_gt h2)
  have e3 : t3 - t2 ≠ 0 := sub_ne_zero.mpr (ne_of_gt h3)
  have e4 : t4 - t3 ≠ 0 := sub_ne_zero.mpr (ne_of_gt h4)
  have e5 : t5 - t4 ≠ 0 := sub_ne_zero.mpr (ne_of_gt h5)
  have e6 : t6 - t5 ≠ 0 := sub_ne_zero.mpr (ne_of_gt h6)
  refine ⟨?_, ?_, ?_, ?_, ?_, ?_, ?_⟩
  · rw [bandValue, if_pos le_rfl]; field_simp
  · rw [bandValue, if_neg (by linarith), if_pos le_rfl]; field_simp; norm_num
  · rw [bandValue, if_neg (by linarith), if_neg (by linarith), if_pos le_rfl]
    field_simp; norm_num
  · rw [bandValue, if_neg (by linarith), if_neg (by linarith), if_neg (by linarith),
      if_pos le_rfl]
    field_simp; norm_num
  · rw [bandValue, if_neg (by linarith), if_neg (by linarith), if_neg (by linarith),
      if_neg (by linarith), if_pos le_rfl]
    field_simp; norm_num
  · rw [bandValue, if_neg (by linarith), if_neg (by linarith), if_neg (by linarith),
      if_neg (by linarith), if_neg (by linarith), if_pos le_rfl]
    field_simp; norm_num
  · rw [bandValue, if_neg (by linarith), if_neg (by linarith), if_neg (by linarith),
      if_neg (by linarith), if_neg (by linarith), if_neg (by linarith), if_pos le_rfl]
    field_simp; norm_num

theorem bandValue_ge_51 (t0 t1 t2 t3 t4 t5 t6 c : ℚ) (h1 : t0 < t1)
    (h2 : t1 < t2) (h3 : t2 < t3) (h4 : t3 < t4) (h5 : t4 < t5) (h6 : t5 < t6)
    (hc : t0 < c) : 51 ≤ bandValue t0 t1 t2 t3 t4 t5 t6 c := by
  unfold bandValue
  split_ifs with c0 c1 c2 c3 c4 c5 c6
  · linarith
  · have := mul_nonneg (div_nonneg (by norm_num : (0 : ℚ) ≤ 50) (sub_nonneg.mpr h1.le))
      (sub_nonneg.mpr (not_le.mp c0).le)
    linarith
  · have := mul_nonneg (div_nonneg (by norm_num : (0 : ℚ) ≤ 50) (sub_nonneg.mpr h2.le))
      (sub_nonneg.mpr (not_le.mp c1).le)
    linarith
  · have := mul_nonneg (div_nonneg (by norm_num : (0 : ℚ) ≤ 50) (sub_nonneg.mpr h3.le))
      (sub_nonneg.mpr (not_le.mp c2).le)
    linarith
  · have := mul_nonneg (div_nonneg (by norm_num : (0 : ℚ) ≤ 100) (sub_nonneg.mpr h4.le))
      (sub_nonneg.mpr (not_le.mp c3).le)
    linarith
  · have := mul_nonneg (div_nonneg (by norm_num : (0 : ℚ) ≤ 100) (sub_nonneg.mpr h5.le))
      (sub_nonneg.mpr (not_le.mp c4).le)
    linarith
  · have := mul_nonneg (div_nonneg (by norm_num : (0 : ℚ) ≤ 100) (sub_nonneg.mpr h6.le))
      (sub_nonneg.mpr (not_le.mp c5).le)
    linarith
  · norm_num

theorem bandValue_nonneg (t0 t1 t2 t3 t4 t5 t6 c : ℚ) (h0 : 0 < t0) (h1 : t0 < t1)
    (h2 : t1 < t2) (h3 : t2 < t3) (h4 : t3 < t4) (h5 : t4 < t5) (h6 : t5 < t6)
    (hc : 0 ≤ c) : 0 ≤ bandValue t0 t1 t2 t3 t4 t5 t6 c := by
  by_cases hle : c ≤ t0
  · rw [bandValue, if_pos hle]
    exact mul_nonneg (div_nonneg (by norm_num) h0.le) hc
  · have := bandValue_ge_51 t0 t1 t2 t3 t4 t5 t6 c h1 h2 h3 h4 h5 h6 (not_le.mp hle)
    linarith

/-- For one of the six pollutants and an absent or non-negative concentration the
sub-index is a non-negative integer. -/
theorem subIndex_nonneg (p : String) (hp : p ∈ pollutantNames) (x : Option ℚ)
    (hx : ∀ c, x = some c → 0 ≤ c) :
    ∃ v : ℤ, calculatePollutantAQI x p = some v ∧ 0 ≤ v := by
  obtain ⟨t0, t1, t2, t3, t4, t5, t6, _, h0, h1, h2, h3, h4, h5, h6, hcl⟩ :=
    calculatePollutantAQI_closed p hp
  cases x with
  | none => exact ⟨0, rfl, le_rfl⟩
  | some c =>
    have hc : 0 ≤ c := hx c rfl
    by_cases hz : c = 0
    · subst hz
      exact ⟨0, by simp [calculatePollutantAQI], le_rfl⟩
    · refine ⟨_, hcl c hz, ?_⟩
      exact le_mathRound 0 _ (by
        push_cast
        exact bandValue_nonneg t0 t1 t2 t3 t4 t5 t6 c h0 h1 h2 h3 h4 h5 h6 hc)

/-- A PM2.5 concentration of 0.1 has the interpolated value 0.425 and the sub-index 0. -/
theorem calculatePollutantAQI_pm25_small :
    calculatePollutantAQI (some 0.1) "pm25" = some 0 := by
  rw [calculatePollutantAQI_some _ _ (by norm_num), pollutantThresholds_pm25]
  norm_num [scanThresholds, interpolate, jsDiv, aqiBreakpoints, mathRound, List.range,
    List.range.loop]

theorem max_eq_zero_iff_of_nonneg (a b : ℤ) (ha : 0 ≤ a) (hb : 0 ≤ b) :
    max a b = 0 ↔ a = 0 ∧ b = 0 := by
  constructor
  · intro h
    have h1 := le_max_left a b
    have h2 := le_max_right a b
    omega
  · rintro ⟨rfl, rfl⟩
    rfl

theorem getKnownCityData_delhi :
    getKnownCityData 28.7041 77.1025
      = some { name := "Delhi, Delhi", aqi := 298
               pollutants := { pm25 := some 120, pm10 := some 180, ozone := some 45,
                               no2 := some 85, so2 := some 25, co := some 8 } } := by
  have h1 : toFixed4 28.7041 = 287041 := by
    norm_num [toFixed4]
  have h2 : toFixed4 77.1025 = 771025 := by
    norm_num [toFixed4]
  simp [getKnownCityData, h1, h2]

theorem getKnownCityData_origin : getKnownCityData 0 0 = none := by
  have h : toFixed4 0 = 0 := by
    norm_num [toFixed4]
  simp only [getKnownCityData, h]
  rfl

/-! ## The claims -/

/-! ### C1. Sub-index at a band's upper breakpoint -/

/-- C1: the code does not return the AQI upper bound of the band. At a concentration equal
to the upper breakpoint of band `i` of any of the six pollutants `calculatePollutantAQI`
returns `aqiBreakpoints[i + 1]`, the lower bound of the next band: 51, 101, 151, 201,
301, 401 and, for the top band, 501. -/
theorem upper_breakpoint_gives_next_band_low (p : String) (hp : p ∈ pollutantNames)
    (i : ℕ) (hi : i < 7) :
    calculatePollutantAQI (some ((pollutantThresholds p).getD i 0)) p
      = some (([51, 101, 151, 201, 301, 401, 501] : List ℤ).getD i 0) := by
  obtain ⟨t0, t1, t2, t3, t4, t5, t6, htab, h0, h1, h2, h3, h4, h5, h6, hcl⟩ :=
    calculatePollutantAQI_closed p hp
  obtain ⟨b0, b1, b2, b3, b4, b5, b6⟩ :=
    bandValue_at_breakpoint t0 t1 t2 t3 t4 t5 t6 h0 h1 h2 h3 h4 h5 h6
  rw [htab]
  interval_cases i <;>
    simp only [List.getD_cons_zero, List.getD_cons_succ]
  · rw [hcl t0 (by linarith), b0]; exact_mod_cast congrArg some (mathRound_intCast 51)
  · rw [hcl t1 (by linarith), b1]; exact_mod_cast congrArg some (mathRound_intCast 101)
  · rw [hcl t2 (by linarith), b2]; exact_mod_cast congrArg some (mathRound_intCast 151)
  · rw [hcl t3 (by linarith), b3]; exact_mod_cast congrArg some (mathRound_intCast 201)
  · rw [hcl t4 (by linarith), b4]; exact_mod_cast congrArg some (mathRound_intCast 301)
  · rw [hcl t5 (by linarith), b5]; exact_mod_cast congrArg some (mathRound_intCast 401)
  · rw [hcl t6 (by linarith), b6]; exact_mod_cast congrArg some (mathRound_intCast 501)

/-- The example of C1 on the code: a PM2.5 concentration of 35.4 gives sub-index 101. -/
theorem upper_breakpoint_gives_next_band_low_witness :
    calculatePollutantAQI (some 35.4) "pm25" = some 101 :=
  upper_breakpoint_gives_next_band_low "pm25" (by decide) 1 (by decide)

/-! ### C2. Monotonicity of the sub-index -/

/-- C2: the sub-index is not monotone across the top breakpoint. For PM10 the
concentration 604, the top breakpoint, gives 501 and the larger concentration 605 gives
the clamp value 500. -/
theorem top_breakpoint_not_monotone :
    calculatePollutantAQI (some 604) "pm10" = some 501 ∧
    calculatePollutantAQI (some 605) "pm10" = some 500 := by
  constructor
  · rw [calculatePollutantAQI_some _ _ (by norm_num), pollutantThresholds_pm10]
    norm_num [scanThresholds, interpolate, jsDiv, aqiBreakpoints, mathRound, List.range,
      List.range.loop]
  · rw [calculatePollutantAQI_some _ _ (by norm_num), pollutantThresholds_pm10]
    norm_num [scanThresholds, interpolate, jsDiv, aqiBreakpoints, mathRound, List.range,
      List.range.loop]

/-! ### C3. Range of the index -/

/-- C3: the index can leave the range 0 to 500. An ozone concentration of 500, the top
breakpoint, gives sub-index 501, and a mapping holding only that reading gets the overall
index 501. -/
theorem index_exceeds_500 :
    calculatePollutantAQI (some 500) "ozone" = some 501 ∧
    (calculateAQIFromPollutants
        { pm25 := none, pm10 := none, ozone := some 500, no2 := none, so2 := none,
          co := none }).map (fun r => r.value) = some 501 := by
  have h : calculatePollutantAQI (some 500) "ozone" = some 501 := by
    rw [calculatePollutantAQI_some _ _ (by norm_num), pollutantThresholds_ozone]
    norm_num [scanThresholds, interpolate, jsDiv, aqiBreakpoints, mathRound, List.range,
      List.range.loop]
  refine ⟨h, ?_⟩
  simp [calculateAQIFromPollutants, aqiValues, mathMax, h, calculatePollutantAQI_none]

/-! ### C4. The overall index is the maximum -/

/-- C4: the value returned by `calculateAQIFromPollutants`, and the value returned by
`calculateAQI` on the readings chosen by `getPollutantValue`, is the maximum of the six
sub-indices: it is one of them, no sub-index exceeds it, and all six are finite. -/
theorem overall_index_is_max (pollutants : Pollutants)
    (tempoData weatherData groundData : Option Pollutants) :
    (∃ r, calculateAQIFromPollutants pollutants = some r ∧
      none ∉ aqiValues pollutants.pm25 pollutants.pm10 pollutants.ozone pollutants.no2
        pollutants.so2 pollutants.co ∧
      some r.value ∈ aqiValues pollutants.pm25 pollutants.pm10 pollutants.ozone
        pollutants.no2 pollutants.so2 pollutants.co ∧
      ∀ v : ℤ, some v ∈ aqiValues pollutants.pm25 pollutants.pm10 pollutants.ozone
        pollutants.no2 pollutants.so2 pollutants.co → v ≤ r.value) ∧
    (∃ r, calculateAQI tempoData weatherData groundData = some r ∧
      r.pm25 = getPollutantValue tempoData weatherData groundData "pm25" ∧
      r.pm10 = getPollutantValue tempoData weatherData groundData "pm10" ∧
      r.ozone = getPollutantValue tempoData weatherData groundData "ozone" ∧
      r.no2 = getPollutantValue tempoData weatherData groundData "no2" ∧
      r.so2 = getPollutantValue tempoData weatherData groundData "so2" ∧
      r.co = getPollutantValue tempoData weatherData groundData "co" ∧
      none ∉ aqiValues r.pm25 r.pm10 r.ozone r.no2 r.so2 r.co ∧
      some r.value ∈ aqiValues r.pm25 r.pm10 r.ozone r.no2 r.so2 r.co ∧
      ∀ v : ℤ, some v ∈ aqiValues r.pm25 r.pm10 r.ozone r.no2 r.so2 r.co → v ≤ r.value) := by
  constructor
  · obtain ⟨m, hm⟩ := mathMax_aqiValues_isSome pollutants.pm25 pollutants.pm10
      pollutants.ozone pollutants.no2 pollutants.so2 pollutants.co
    have hmax := mathMax_mem_and_ge _ m hm
    refine ⟨{ value := m
              category := (getAQICategory m).name
              healthMessage := (getAQICategory m).healthMessage
              recommendations := (getAQICategory m).recommendations }, ?_,
      none_not_mem_aqiValues _ _ _ _ _ _, hmax.1, hmax.2⟩
    simp [calculateAQIFromPollutants, hm]
  · obtain ⟨m, hm⟩ := mathMax_aqiValues_isSome
      (getPollutantValue tempoData weatherData groundData "pm25")
      (getPollutantValue tempoData weatherData groundData "pm10")
      (getPollutantValue tempoData weatherData groundData "ozone")
      (getPollutantValue tempoData weatherData groundData "no2")
      (getPollutantValue tempoData weatherData groundData "so2")
      (getPollutantValue tempoData weatherData groundData "co")
    have hmax := mathMax_mem_and_ge _ m hm
    refine ⟨{ value := m
              category := (getAQICategory m).name
              healthMessage := (getAQICategory m).healthMessage
              recommendations := (getAQICategory m).recommendations
              pm25 := getPollutantValue tempoData weatherData groundData "pm25"
              pm10 := getPollutantValue tempoData weatherData groundData "pm10"
              ozone := getPollutantValue tempoData weatherData groundData "ozone"
              no2 := getPollutantValue tempoData weatherData groundData "no2"
              so2 := getPollutantValue tempoData weatherData groundData "so2"
              co := getPollutantValue tempoData weatherData groundData "co" }, ?_,
      rfl, rfl, rfl, rfl, rfl, rfl, none_not_mem_aqiValues _ _ _ _ _ _, hmax.1, hmax.2⟩
    simp [calculateAQI, hm]

/-! ### C5. Category bands -/

/-- C5: for every integer index from 0 to 500 `getAQICategory` names the category of the
band table: Good for 0-50, Moderate for 51-100, Unhealthy for Sensitive Groups for
101-150, Unhealthy for 151-200, Very Unhealthy for 201-300, Hazardous for 301-500. -/
theorem getAQICategory_band_table (v : ℤ) (h0 : 0 ≤ v) (h500 : v ≤ 500) :
    (v ≤ 50 → (getAQICategory v).name = "Good") ∧
    (51 ≤ v → v ≤ 100 → (getAQICategory v).name = "Moderate") ∧
    (101 ≤ v → v ≤ 150 → (getAQICategory v).name = "Unhealthy for Sensitive Groups") ∧
    (151 ≤ v → v ≤ 200 → (getAQICategory v).name = "Unhealthy") ∧
    (201 ≤ v → v ≤ 300 → (getAQICategory v).name = "Very Unhealthy") ∧
    (301 ≤ v → (getAQICategory v).name = "Hazardous") := by
  unfold getAQICategory
  refine ⟨?_, ?_, ?_, ?_, ?_, ?_⟩
  · intro h
    rw [if_pos h]
  · intro h1 h2
    rw [if_neg (by omega), if_pos h2]
  · intro h1 h2
    rw [if_neg (by omega), if_neg (by omega), if_pos h2]
  · intro h1 h2
    rw [if_neg (by omega), if_neg (by omega), if_neg (by omega), if_pos h2]
  · intro h1 h2
    rw [if_neg (by omega), if_neg (by omega), if_neg (by omega), if_neg (by omega), if_pos h2]
  · intro h1
    rw [if_neg (by omega), if_neg (by omega), if_neg (by omega), if_neg (by omega),
      if_neg (by omega)]

/-- The boundaries named by C5: 50 is Good, 51 is Moderate, 300 is Very Unhealthy and 301
is Hazardous. -/
theorem getAQICategory_band_table_witness :
    (getAQICategory 50).name = "Good" ∧ (getAQICategory 51).name = "Moderate" ∧
    (getAQICategory 300).name = "Very Unhealthy" ∧ (getAQICategory 301).name = "Hazardous" :=
  ⟨(getAQICategory_band_table 50 (by decide) (by decide)).1 (by decide),
   (getAQICategory_band_table 51 (by decide) (by decide)).2.1 (by decide) (by decide),
   (getAQICategory_band_table 300 (by decide) (by decide)).2.2.2.2.1 (by decide) (by decide),
   (getAQICategory_band_table 301 (by decide) (by decide)).2.2.2.2.2 (by decide)⟩

/-! ### C6. The code against the reference definition -/

/-- C6: the code differs from the reference definition. For PM2.5 at 35.4, the upper
breakpoint of band 1, the code returns 101 and the reference definition 100; inside band
0, at 6, the code returns 26 and the reference definition 25 (the code interpolates up to
51, the lower bound of the next band, the reference up to 50). Above the top breakpoint,
at 600, both give 500. -/
theorem differs_from_reference :
    calculatePollutantAQI (some 35.4) "pm25" = some 101 ∧
    referenceSubIndex (pollutantThresholds "pm25") 35.4 = 100 ∧
    calculatePollutantAQI (some 6) "pm25" = some 26 ∧
    referenceSubIndex (pollutantThresholds "pm25") 6 = 25 ∧
    calculatePollutantAQI (some 600) "pm25" = some 500 ∧
    referenceSubIndex (pollutantThresholds "pm25") 600 = 500 := by
  refine ⟨?_, ?_, ?_, ?_, ?_, ?_⟩
  · rw [calculatePollutantAQI_some _ _ (by norm_num), pollutantThresholds_pm25]
    norm_num [scanThresholds, interpolate, jsDiv, aqiBreakpoints, mathRound, List.range,
      List.range.loop]
  · rw [pollutantThresholds_pm25]
    unfold referenceSubIndex
    simp only [List.findIdx?_cons, List.findIdx?_nil, decide_eq_true_eq]
    norm_num [aqiBandTable, roundHalfAwayFromZero]
  · rw [calculatePollutantAQI_some _ _ (by norm_num), pollutantThresholds_pm25]
    norm_num [scanThresholds, interpolate, jsDiv, aqiBreakpoints, mathRound, List.range,
      List.range.loop]
  · rw [pollutantThresholds_pm25]
    unfold referenceSubIndex
    simp only [List.findIdx?_cons, List.findIdx?_nil, decide_eq_true_eq]
    norm_num [aqiBandTable, roundHalfAwayFromZero]
  · rw [calculatePollutantAQI_some _ _ (by norm_num), pollutantThresholds_pm25]
    norm_num [scanThresholds, interpolate, jsDiv, aqiBreakpoints, mathRound, List.range,
      List.range.loop]
  · rw [pollutantThresholds_pm25]
    unfold referenceSubIndex
    simp only [List.findIdx?_cons, List.findIdx?_nil, decide_eq_true_eq]
    norm_num [aqiBandTable, roundHalfAwayFromZero]

/-! ### C7. Index reported by getCurrentAirQuality -/

/-- C7, as stated, fails at a known city: at the coordinates of Delhi the result reports
the index 298 of the ranking table, while the maximum of the six sub-indices of the
reported pollutants is 185. -/
theorem known_city_index_is_not_max :
    ∃ r, getCurrentAirQuality 28.7041 77.1025 none none
          { pm25 := none, pm10 := none, ozone := none, no2 := none, so2 := none, co := none }
        = some r ∧
      r.aqi = 298 ∧
      mathMax (aqiValues r.pollutants.pm25 r.pollutants.pm10 r.pollutants.ozone
        r.pollutants.no2 r.pollutants.so2 r.pollutants.co) = some 185 := by
  refine ⟨{ aqi := 298
            category := (getAQICategory 298).name
            healthMessage := (getAQICategory 298).healthMessage
            recommendations := (getAQICategory 298).recommendations
            pollutants := { pm25 := some 120, pm10 := some 180, ozone := some 45,
                            no2 := some 85, so2 := some 25, co := some 8 } },
    by simp [getCurrentAirQuality, calculateAQIForKnownCity, getKnownCityData_delhi],
    rfl, ?_⟩
  have e1 : calculatePollutantAQI (some 120) "pm25" = some 185 := by
    rw [calculatePollutantAQI_some _ _ (by norm_num), pollutantThresholds_pm25]
    norm_num [scanThresholds, interpolate, jsDiv, aqiBreakpoints, mathRound, List.range,
      List.range.loop]
  have e2 : calculatePollutantAQI (some 180) "pm10" = some 114 := by
    rw [calculatePollutantAQI_some _ _ (by norm_num), pollutantThresholds_pm10]
    norm_num [scanThresholds, interpolate, jsDiv, aqiBreakpoints, mathRound, List.range,
      List.range.loop]
  have e3 : calculatePollutantAQI (some 45) "ozone" = some 43 := by
    rw [calculatePollutantAQI_some _ _ (by norm_num), pollutantThresholds_ozone]
    norm_num [scanThresholds, interpolate, jsDiv, aqiBreakpoints, mathRound, List.range,
      List.range.loop]
  have e4 : calculatePollutantAQI (some 85) "no2" = some 85 := by
    rw [calculatePollutantAQI_some _ _ (by norm_num), pollutantThresholds_no2]
    norm_num [scanThresholds, interpolate, jsDiv, aqiBreakpoints, mathRound, List.range,
      List.range.loop]
  have e5 : calculatePollutantAQI (some 25) "so2" = some 36 := by
    rw [calculatePollutantAQI_some _ _ (by norm_num), pollutantThresholds_so2]
    norm_num [scanThresholds, interpolate, jsDiv, aqiBreakpoints, mathRound, List.range,
      List.range.loop]
  have e6 : calculatePollutantAQI (some 8) "co" = some 87 := by
    rw [calculatePollutantAQI_some _ _ (by norm_num), pollutantThresholds_co]
    norm_num [scanThresholds, interpolate, jsDiv, aqiBreakpoints, mathRound, List.range,
      List.range.loop]
  simp only [aqiValues, e1, e2, e3, e4, e5, e6]
  rfl

/-- C7, amended: every cache-miss call of `getCurrentAirQuality` produces a result; when
the location is not a known city the reported index is the maximum of the six
sub-indices of the reported pollutants; at a known city the reported index and pollutants
are the fixed entries of the city table. -/
theorem current_index_max_unless_known_city (lat lng : ℚ)
    (tempoData weatherData : Option Pollutants) (mock : Pollutants) :
    ∃ r, getCurrentAirQuality lat lng tempoData weatherData mock = some r ∧
      (getKnownCityData lat lng = none →
        none ∉ aqiValues r.pollutants.pm25 r.pollutants.pm10 r.pollutants.ozone
          r.pollutants.no2 r.pollutants.so2 r.pollutants.co ∧
        some r.aqi ∈ aqiValues r.pollutants.pm25 r.pollutants.pm10 r.pollutants.ozone
          r.pollutants.no2 r.pollutants.so2 r.pollutants.co ∧
        ∀ v : ℤ, some v ∈ aqiValues r.pollutants.pm25 r.pollutants.pm10 r.pollutants.ozone
          r.pollutants.no2 r.pollutants.so2 r.pollutants.co → v ≤ r.aqi) ∧
      (∀ city, getKnownCityData lat lng = some city →
        r.aqi = city.aqi ∧ r.pollutants = city.pollutants) := by
  cases hk : getKnownCityData lat lng with
  | some city =>
    refine ⟨{ aqi := city.aqi
              category := (getAQICategory city.aqi).name
              healthMessage := (getAQICategory city.aqi).healthMessage
              recommendations := (getAQICategory city.aqi).recommendations
              pollutants := city.pollutants },
      by simp [getCurrentAirQuality, calculateAQIForKnownCity, hk], ?_, ?_⟩
    · intro h
      cases h
    · intro city2 h
      cases h
      exact ⟨rfl, rfl⟩
  | none =>
    obtain ⟨m, hm⟩ := mathMax_aqiValues_isSome
      (getPollutantValue tempoData weatherData (some mock) "pm25")
      (getPollutantValue tempoData weatherData (some mock) "pm10")
      (getPollutantValue tempoData weatherData (some mock) "ozone")
      (getPollutantValue tempoData weatherData (some mock) "no2")
      (getPollutantValue tempoData weatherData (some mock) "so2")
      (getPollutantValue tempoData weatherData (some mock) "co")
    have hmax := mathMax_mem_and_ge _ m hm
    refine ⟨{ aqi := m
              category := (getAQICategory m).name
              healthMessage := (getAQICategory m).healthMessage
              recommendations := (getAQICategory m).recommendations
              pollutants :=
                { pm25 := getPollutantValue tempoData weatherData (some mock) "pm25"
                  pm10 := getPollutantValue tempoData weatherData (some mock) "pm10"
                  ozone := getPollutantValue tempoData weatherData (some mock) "ozone"
                  no2 := getPollutantValue tempoData weatherData (some mock) "no2"
                  so2 := getPollutantValue tempoData weatherData (some mock) "so2"
                  co := getPollutantValue tempoData weatherData (some mock) "co" } },
      ?_, ?_, ?_⟩
    · simp [getCurrentAirQuality, calculateAQIForKnownCity, generateGroundStationData, hk,
        calculateAQI, hm]
    · intro _
      exact ⟨none_not_mem_aqiValues _ _ _ _ _ _, hmax.1, hmax.2⟩
    · intro city h
      cases h

/-- Instance of the amended C7 away from the known cities, at latitude 0 and longitude 0
with a mock ground reading: the reported index is one of the six sub-indices. -/
theorem current_index_max_unless_known_city_witness :
    ∃ r, getCurrentAirQuality 0 0 none none
          { pm25 := some 10, pm10 := some 20, ozone := some 30, no2 := some 15,
            so2 := some 2, co := some 1 } = some r ∧
      some r.aqi ∈ aqiValues r.pollutants.pm25 r.pollutants.pm10 r.pollutants.ozone
        r.pollutants.no2 r.pollutants.so2 r.pollutants.co := by
  obtain ⟨r, hr, hmax, _⟩ := current_index_max_unless_known_city 0 0 none none
    { pm25 := some 10, pm10 := some 20, ozone := some 30, no2 := some 15,
      so2 := some 2, co := some 1 }
  exact ⟨r, hr, (hmax getKnownCityData_origin).2.1⟩

/-! ### C8. Totality -/

/-- What holds of the totality claim: for every pollutant name and every finite
concentration (non-negative or not) `calculatePollutantAQI` returns a finite integer;
the breakpoint list in use is strictly increasing and starts above zero, so no
interpolation denominator `highConcentration - lowConcentration` is zero; and a name that
is neither a key of `thresholds` nor inherited from `Object.prototype` uses the pm25
table. -/
theorem calculatePollutantAQI_total (pollutant : String) (concentration : ℚ) :
    (∃ v : ℤ, calculatePollutantAQI (some concentration) pollutant = some v) ∧
    List.Chain' (· < ·) ((0 : ℚ) :: pollutantThresholds pollutant) ∧
    (∀ i, i < (pollutantThresholds pollutant).length →
      (pollutantThresholds pollutant).getD i 0
        - (if i = 0 then 0 else (pollutantThresholds pollutant).getD (i - 1) 0) ≠ 0) ∧
    (thresholds pollutant = none → pollutant ∉ objectPrototypeKeys →
      pollutantThresholds pollutant = [12, 35.4, 55.4, 150.4, 250.4, 350.4, 500.4]) := by
  refine ⟨calculatePollutantAQI_isSome _ _,
    allTables_chain _ (pollutantThresholds_mem pollutant), ?_, ?_⟩
  · have hmem := pollutantThresholds_mem pollutant
    generalize pollutantThresholds pollutant = t at hmem
    simp only [allTables, List.mem_cons, List.mem_singleton, List.not_mem_nil, or_false] at hmem
    intro i hi
    rcases hmem with rfl | rfl | rfl | rfl | rfl | rfl | rfl <;>
      simp only [List.length_cons, List.length_nil] at hi <;>
      interval_cases i <;> norm_num
  · intro hown hproto
    simp [pollutantThresholds, hown, hproto]

/-- C8: an unknown name does not always use the pm25 table. For the name `toString`,
which every object literal inherits, `thresholds[pollutant]` is a function, the fallback
to `thresholds.pm25` is not taken, the loop finds no breakpoint and the result is 500 for
a concentration of 4, where the pm25 table gives 17, as it does for the unknown name
`radon`. -/
theorem inherited_name_skips_pm25_table :
    calculatePollutantAQI (some 4) "toString" = some 500 ∧
    calculatePollutantAQI (some 4) "pm25" = some 17 ∧
    calculatePollutantAQI (some 4) "radon" = some 17 := by
  have hradon : pollutantThresholds "radon" = [12, 35.4, 55.4, 150.4, 250.4, 350.4, 500.4] := by
    simp [pollutantThresholds, thresholds, objectPrototypeKeys]
  have htoString : pollutantThresholds "toString" = [] := by
    simp [pollutantThresholds, thresholds, objectPrototypeKeys]
  refine ⟨?_, ?_, ?_⟩
  · rw [calculatePollutantAQI_some _ _ (by norm_num), htoString]
    rfl
  · rw [calculatePollutantAQI_some _ _ (by norm_num), pollutantThresholds_pm25]
    norm_num [scanThresholds, interpolate, jsDiv, aqiBreakpoints, mathRound, List.range,
      List.range.loop]
  · rw [calculatePollutantAQI_some _ _ (by norm_num), hradon]
    norm_num [scanThresholds, interpolate, jsDiv, aqiBreakpoints, mathRound, List.range,
      List.range.loop]

/-! ### C9. All pollutants absent -/

/-- C9: with all six concentrations absent `calculateAQIFromPollutants` returns value 0
and category Good, with the health message and the recommendations of Good. -/
theorem all_absent_is_good :
    calculateAQIFromPollutants
        { pm25 := none, pm10 := none, ozone := none, no2 := none, so2 := none, co := none }
      = some { value := 0
               category := "Good"
               healthMessage := "Air quality is satisfactory, and air pollution poses little or no risk."
               recommendations := ["Enjoy outdoor activities", "Good day for outdoor exercise"] } := by
  rfl

/-! ### C10. When the overall index is zero -/

/-- C10, as stated, fails: a PM2.5 concentration of 0.1, neither absent nor zero, with the
five other pollutants absent, gives the overall index 0. -/
theorem small_concentration_gives_index_zero :
    (calculateAQIFromPollutants
        { pm25 := some 0.1, pm10 := none, ozone := none, no2 := none, so2 := none,
          co := none }).map (fun r => r.value) = some 0 ∧
    (some 0.1 : Option ℚ) ≠ none ∧ (some 0.1 : Option ℚ) ≠ some 0 := by
  refine ⟨?_, by simp, by norm_num⟩
  simp [calculateAQIFromPollutants, aqiValues, mathMax, calculatePollutantAQI_pm25_small,
    calculatePollutantAQI_none]

/-- C10, amended: for a mapping of the six pollutants to absent or non-negative
concentrations, a missing concentration contributes sub-index 0, and the overall index of
`calculateAQIFromPollutants` is 0 only if every pollutant has the sub-index 0: it is
absent, or zero, or positive and rounded to 0 by `calculatePollutantAQI`. -/
theorem overall_index_zero_only_if (pollutants : Pollutants)
    (hnonneg : ∀ p ∈ pollutantNames, ∀ c, pollutants.get p = some c → 0 ≤ c) :
    (∀ p, calculatePollutantAQI none p = some 0) ∧
    ((calculateAQIFromPollutants pollutants).map (fun r => r.value) = some 0 →
      ∀ p ∈ pollutantNames, calculatePollutantAQI (pollutants.get p) p = some 0) := by
  refine ⟨calculatePollutantAQI_none, ?_⟩
  obtain ⟨v1, e1, n1⟩ := subIndex_nonneg "pm25" (by decide) pollutants.pm25
    (hnonneg "pm25" (by decide))
  obtain ⟨v2, e2, n2⟩ := subIndex_nonneg "pm10" (by decide) pollutants.pm10
    (hnonneg "pm10" (by decide))
  obtain ⟨v3, e3, n3⟩ := subIndex_nonneg "ozone" (by decide) pollutants.ozone
    (hnonneg "ozone" (by decide))
  obtain ⟨v4, e4, n4⟩ := subIndex_nonneg "no2" (by decide) pollutants.no2
    (hnonneg "no2" (by decide))
  obtain ⟨v5, e5, n5⟩ := subIndex_nonneg "so2" (by decide) pollutants.so2
    (hnonneg "so2" (by decide))
  obtain ⟨v6, e6, n6⟩ := subIndex_nonneg "co" (by decide) pollutants.co
    (hnonneg "co" (by decide))
  have hval : (calculateAQIFromPollutants pollutants).map (fun r => r.value)
      = some (max v1 (max v2 (max v3 (max v4 (max v5 v6))))) := by
    simp [calculateAQIFromPollutants, aqiValues, mathMax, e1, e2, e3, e4, e5, e6]
  have h56 : 0 ≤ max v5 v6 := le_trans n5 (le_max_left _ _)
  have h46 : 0 ≤ max v4 (max v5 v6) := le_trans n4 (le_max_left _ _)
  have h36 : 0 ≤ max v3 (max v4 (max v5 v6)) := le_trans n3 (le_max_left _ _)
  have h26 : 0 ≤ max v2 (max v3 (max v4 (max v5 v6))) := le_trans n2 (le_max_left _ _)
  intro hzero
  rw [hval, Option.some.injEq, max_eq_zero_iff_of_nonneg _ _ n1 h26,
    max_eq_zero_iff_of_nonneg _ _ n2 h36, max_eq_zero_iff_of_nonneg _ _ n3 h46,
    max_eq_zero_iff_of_nonneg _ _ n4 h56, max_eq_zero_iff_of_nonneg _ _ n5 n6] at hzero
  obtain ⟨z1, z2, z3, z4, z5, z6⟩ := hzero
  subst z1 z2 z3 z4 z5 z6
  intro p hp
  simp only [pollutantNames, List.mem_cons, List.mem_singleton, List.not_mem_nil,
    or_false] at hp
  rcases hp with rfl | rfl | rfl | rfl | rfl | rfl
  · exact e1
  · exact e2
  · exact e3
  · exact e4
  · exact e5
  · exact e6

/-- Instance of the amended C10: with a PM2.5 concentration of 0.1 and the other
pollutants absent the overall index is 0, and the sub-index of PM2.5 is 0. -/
theorem overall_index_zero_only_if_witness :
    calculatePollutantAQI (some 0.1) "pm25" = some 0 :=
  (overall_index_zero_only_if
      { pm25 := some 0.1, pm10 := none, ozone := none, no2 := none, so2 := none, co := none }
      (by
        intro p hp c hc
        simp only [pollutantNames, List.mem_cons, List.mem_singleton, List.not_mem_nil,
          or_false] at hp
        rcases hp with rfl | rfl | rfl | rfl | rfl | rfl <;>
          simp [Pollutants.get] at hc
        rw [← hc]
        norm_num)).2
    (by
      simp [calculateAQIFromPollutants, aqiValues, mathMax, calculatePollutantAQI_pm25_small,
        calculatePollutantAQI_none])
    "pm25" (by decide)

/-! ### C11. Category, health message and recommendations follow from the index -/

/-- C11: in every result of `calculateAQIFromPollutants`, `calculateAQI` and
`calculateAQIForKnownCity` the category, the health message and the recommendations are
those `getAQICategory` returns for the value of the result; and two indices with the same
category name have the same health message and the same list of recommendations. -/
theorem category_content_from_index :
    (∀ pollutants r, calculateAQIFromPollutants pollutants = some r →
      r.category = (getAQICategory r.value).name ∧
      r.healthMessage = (getAQICategory r.value).healthMessage ∧
      r.recommendations = (getAQICategory r.value).recommendations) ∧
    (∀ tempoData weatherData groundData r,
      calculateAQI tempoData weatherData groundData = some r →
      r.category = (getAQICategory r.value).name ∧
      r.healthMessage = (getAQICategory r.value).healthMessage ∧
      r.recommendations = (getAQICategory r.value).recommendations) ∧
    (∀ lat lng r, calculateAQIForKnownCity lat lng = some r →
      r.category = (getAQICategory r.value).name ∧
      r.healthMessage = (getAQICategory r.value).healthMessage ∧
      r.recommendations = (getAQICategory r.value).recommendations) ∧
    (∀ a b : ℤ, (getAQICategory a).name = (getAQICategory b).name →
      (getAQICategory a).healthMessage = (getAQICategory b).healthMessage ∧
      (getAQICategory a).recommendations = (getAQICategory b).recommendations) := by
  refine ⟨?_, ?_, ?_, ?_⟩
  · intro pollutants r h
    unfold calculateAQIFromPollutants at h
    cases hm : mathMax (aqiValues pollutants.pm25 pollutants.pm10 pollutants.ozone
        pollutants.no2 pollutants.so2 pollutants.co) with
    | none => simp [hm] at h
    | some m =>
      simp [hm] at h
      subst h
      exact ⟨rfl, rfl, rfl⟩
  · intro tempoData weatherData groundData r h
    unfold calculateAQI at h
    cases hm : mathMax (aqiValues
        (getPollutantValue tempoData weatherData groundData "pm25")
        (getPollutantValue tempoData weatherData groundData "pm10")
        (getPollutantValue tempoData weatherData groundData "ozone")
        (getPollutantValue tempoData weatherData groundData "no2")
        (getPollutantValue tempoData weatherData groundData "so2")
        (getPollutantValue tempoData weatherData groundData "co")) with
    | none => simp [hm] at h
    | some m =>
      simp [hm] at h
      subst h
      exact ⟨rfl, rfl, rfl⟩
  · intro lat lng r h
    unfold calculateAQIForKnownCity at h
    cases hk : getKnownCityData lat lng with
    | none => simp [hk] at h
    | some city =>
      simp [hk] at h
      subst h
      exact ⟨rfl, rfl, rfl⟩
  · intro a b h
    unfold getAQICategory at h ⊢
    split_ifs at h ⊢ <;> first | exact ⟨rfl, rfl⟩ | exact absurd h (by decide)

/-- Instance of C11: the result for a mapping with all pollutants absent carries the
content of `getAQICategory` at its value 0. -/
theorem category_content_from_index_witness :
    ∃ r, calculateAQIFromPollutants
        { pm25 := none, pm10 := none, ozone := none, no2 := none, so2 := none, co := none }
          = some r ∧
      r.value = 0 ∧
      r.category = (getAQICategory r.value).name ∧
      r.healthMessage = (getAQICategory r.value).healthMessage ∧
      r.recommendations = (getAQICategory r.value).recommendations :=
  ⟨{ value := 0
     category := "Good"
     healthMessage := "Air quality is satisfactory, and air pollution poses little or no risk."
     recommendations := ["Enjoy outdoor activities", "Good day for outdoor exercise"] },
   rfl, rfl, category_content_from_index.1
     { pm25 := none, pm10 := none, ozone := none, no2 := none, so2 := none, co := none }
     _ rfl⟩

/-! ### C25. Source priority of `getPollutantValue` -/

theorem getPollutantValue_eq (tempoData weatherData groundData : Option Pollutants)
    (pollutant : String) :
    getPollutantValue tempoData weatherData groundData pollutant
      = if truthy (reading groundData pollutant) then reading groundData pollutant
        else if truthy (reading tempoData pollutant) then reading tempoData pollutant
        else if truthy (reading weatherData pollutant) then reading weatherData pollutant
        else none := rfl

/-- C25: the code passes over a reading of zero. With a ground reading 0 and a TEMPO
reading 5 for PM2.5 the function returns the TEMPO reading, not the ground reading that
has priority, and with the ground reading 0 alone it returns `null`: each source is taken
only if `data && data[pollutant]` is truthy. -/
theorem zero_reading_is_skipped :
    getPollutantValue
        (some { pm25 := some 5, pm10 := none, ozone := none, no2 := none, so2 := none,
                co := none })
        none
        (some { pm25 := some 0, pm10 := none, ozone := none, no2 := none, so2 := none,
                co := none })
        "pm25" = some 5 ∧
    getPollutantValue none none
        (some { pm25 := some 0, pm10 := none, ozone := none, no2 := none, so2 := none,
                co := none })
        "pm25" = none := by
  constructor <;> simp [getPollutantValue_eq, reading, Pollutants.get, truthy]

/-- Among the readings that are present and not zero the priority holds:
`getPollutantValue` returns the ground reading of the pollutant when it is present and
not zero, otherwise the TEMPO reading when that is present and not zero, otherwise the
weather reading when that is present and not zero, and `null` when no source has a
reading that is present and not zero. -/
theorem getPollutantValue_priority (tempoData weatherData groundData : Option Pollutants)
    (pollutant : String) :
    (truthy (reading groundData pollutant) = true →
      getPollutantValue tempoData weatherData groundData pollutant
        = reading groundData pollutant) ∧
    (truthy (reading groundData pollutant) = false →
      truthy (reading tempoData pollutant) = true →
      getPollutantValue tempoData weatherData groundData pollutant
        = reading tempoData pollutant) ∧
    (truthy (reading groundData pollutant) = false →
      truthy (reading tempoData pollutant) = false →
      truthy (reading weatherData pollutant) = true →
      getPollutantValue tempoData weatherData groundData pollutant
        = reading weatherData pollutant) ∧
    (truthy (reading groundData pollutant) = false →
      truthy (reading tempoData pollutant) = false →
      truthy (reading weatherData pollutant) = false →
      getPollutantValue tempoData weatherData groundData pollutant = none) ∧
    (∀ value : Option ℚ, truthy value = true ↔ ∃ c, value = some c ∧ c ≠ 0) := by
  refine ⟨?_, ?_, ?_, ?_, ?_⟩
  · intro h
    simp [getPollutantValue_eq, h]
  · intro h1 h2
    simp [getPollutantValue_eq, h1, h2]
  · intro h1 h2 h3
    simp [getPollutantValue_eq, h1, h2, h3]
  · intro h1 h2 h3
    simp [getPollutantValue_eq, h1, h2, h3]
  · intro value
    cases value <;> simp [truthy]

/-! ### C26. City ranking -/

theorem getCityRanking_of_own (country : String) (cities : List City)
    (h : cityData country = some cities) :
    getCityRanking country = .ok { country := (countryNames country).getD "United States"
                                   cities := sortByAqiDescending cities } := by
  simp [getCityRanking, h]

theorem cityData_tables (country : String) (cities : List City)
    (h : cityData country = some cities) :
    sortByAqiDescending cities = cities ∧ cities.Sorted (fun a b => b.aqi ≤ a.aqi) := by
  unfold cityData at h
  split at h <;> first
    | (injection h with h; subst h
       exact ⟨by decide, by simp [List.Sorted]⟩)
    | cases h

/-- For every country code that is not a name inherited from `Object.prototype`,
`getCityRanking` returns the cities of the country's table, of the US table under the
name United States when the code is not a key, as a permutation sorted by index, the
largest first. -/
theorem getCityRanking_sorted (country : String) (hown : country ∉ objectPrototypeKeys) :
    ∃ ranking, getCityRanking country = .ok ranking ∧
      ranking.cities.Perm ((cityData country).getD ((cityData "US").getD [])) ∧
      ranking.cities.Sorted (fun a b => b.aqi ≤ a.aqi) ∧
      (cityData country = none → ranking.country = "United States") := by
  cases h : cityData country with
  | some cities =>
    obtain ⟨hsort, hsorted⟩ := cityData_tables country cities h
    refine ⟨_, getCityRanking_of_own country cities h, ?_, ?_, fun hnone => by cases hnone⟩
    · simp only [hsort, Option.getD_some]
      exact List.Perm.refl _
    · simp only [hsort]
      exact hsorted
  | none =>
    have hname : countryNames country = none := by
      unfold cityData at h
      unfold countryNames
      split at h <;> first | rfl | cases h
    obtain ⟨hsort, hsorted⟩ := cityData_tables "US" _ rfl
    refine ⟨{ country := "United States"
              cities := sortByAqiDescending ((cityData "US").getD []) }, ?_, ?_, ?_,
      fun _ => rfl⟩
    · simp [getCityRanking, h, hown, hname]
    · simp only [Option.getD_none]
      exact List.perm_insertionSort _ _
    · have e : sortByAqiDescending ((cityData "US").getD []) = _ := hsort
      simp only [e]
      exact hsorted

/-- C26: the code throws for some country codes. For the code `constructor`, a name that
every object literal inherits, `cityData[country]` is a function, so the fallback to the
US table is not taken and `cities.sort` throws. -/
theorem getCityRanking_throws_for_inherited_name :
    getCityRanking "constructor" = .error "TypeError: cities.sort is not a function" ∧
    getCityRanking "XX"
      = .ok { country := "United States"
              cities := [{ name := "Los Angeles, CA (34.0522°N, 118.2437°W)", aqi := 167 },
                         { name := "New York, NY (40.7128°N, 74.0060°W)", aqi := 71 },
                         { name := "Chicago, IL (41.8781°N, 87.6298°W)", aqi := 34 },
                         { name := "Houston, TX (29.7604°N, 95.3698°W)", aqi := 17 },
                         { name := "Phoenix, AZ (33.4484°N, 112.0740°W)", aqi := 13 }] } :=
  ⟨rfl, rfl⟩

end AirQualityService

namespace JSMap

/-! ## Facts about the `Map` model -/

theorem get_set_self {α : Type} (map : List (String × α)) (key : String) (value : α) :
    get (set map key value) key = some value := by
  induction map with
  | nil => simp [set, get]
  | cons entry rest ih =>
    obtain ⟨k, v⟩ := entry
    by_cases h : k = key
    · simp [set, get, h]
    · simp [set, get, h, ih]

theorem get_set_of_ne {α : Type} (map : List (String × α)) (key other : String) (value : α)
    (h : other ≠ key) : get (set map key value) other = get map other := by
  induction map with
  | nil => simp [set, get, h.symm]
  | cons entry rest ih =>
    obtain ⟨k, v⟩ := entry
    by_cases hk : k = key
    · subst hk
      simp [set, get, h.symm]
    · by_cases ho : k = other
      · subst ho
        simp [set, get, hk]
      · simp [set, get, hk, ho, ih]

theorem get_delete_self {α : Type} (map : List (String × α)) (key : String) :
    get (delete map key) key = none := by
  induction map with
  | nil => simp [delete, get]
  | cons entry rest ih =>
    obtain ⟨k, v⟩ := entry
    by_cases h : k = key
    · simpa [delete, h] using ih
    · simpa [delete, get, h] using ih

theorem get_delete_of_ne {α : Type} (map : List (String × α)) (key other : String)
    (h : other ≠ key) : get (delete map key) other = get map other := by
  induction map with
  | nil => simp [delete, get]
  | cons entry rest ih =>
    obtain ⟨k, v⟩ := entry
    by_cases hk : k = key
    · subst hk
      have hne : ¬ k = other := fun e => h e.symm
      simpa [delete, get, hne] using ih
    · by_cases ho : k = other
      · subst ho
        simp [delete, get, hk]
      · simpa [delete, get, hk, ho] using ih

theorem get_eq_none_of_delete {α : Type} (map : List (String × α)) (key other : String)
    (h : get map other = none) : get (delete map key) other = none := by
  by_cases ho : other = key
  · subst ho
    exact get_delete_self map other
  · rw [get_delete_of_ne map key other ho, h]

end JSMap

namespace CacheService

/-! ## Facts about the cache -/

theorem get_local (s : CacheState) (h : s.isRedisConnected = false) (key : String)
    (reply : GetReply) : get s key reply = .ok (memoryLookup s key, s) := by
  simp [get, tryCatch, h]

theorem set_local (s : CacheState) (h : s.isRedisConnected = false) (key : String)
    (value : JSValue) (ttl : Option ℚ) (reply : Reply) :
    set s key value ttl reply = .ok { s with
      memoryCache := JSMap.set s.memoryCache key value
      timers := s.timers ++
        [{ due := s.now + timerDelay (ttl.getD 3600 * 1000), key := key }] } := by
  simp [set, tryCatch, h]

theorem del_local (s : CacheState) (h : s.isRedisConnected = false) (key : String)
    (reply : Reply) :
    del s key reply = .ok { s with memoryCache := JSMap.delete s.memoryCache key } := by
  simp [del, tryCatch, h]

theorem flush_local (s : CacheState) (h : s.isRedisConnected = false) (reply : Reply) :
    flush s reply = .ok { s with memoryCache := [] } := by
  simp [flush, tryCatch, h]

theorem get_throws (s : CacheState) (key : String) :
    get s key .throws = .ok (memoryLookup s key, s) := by
  unfold get tryCatch
  split_ifs <;> rfl

theorem set_throws (s : CacheState) (h : (s.isRedisConnected && s.redisClient) = true)
    (key : String) (value : JSValue) (ttl : Option ℚ) :
    set s key value ttl .throws
      = .ok { s with memoryCache := JSMap.set s.memoryCache key value } := by
  simp only [set, tryCatch, h, if_true]

theorem del_throws (s : CacheState) (key : String) :
    del s key .throws = .ok { s with memoryCache := JSMap.delete s.memoryCache key } := by
  unfold del tryCatch
  split_ifs <;> rfl

theorem flush_throws (s : CacheState) :
    flush s .throws = .ok { s with memoryCache := [] } := by
  unfold flush tryCatch
  split_ifs <;> rfl

theorem memoryLookup_of_truthy (s : CacheState) (key : String) (value : JSValue)
    (h : JSMap.get s.memoryCache key = some value) (htruthy : value.truthy = true) :
    memoryLookup s key = value := by
  simp [memoryLookup, jsOr, h, htruthy]

theorem memoryLookup_of_none (s : CacheState) (key : String)
    (h : JSMap.get s.memoryCache key = none) : memoryLookup s key = .null := by
  simp [memoryLookup, jsOr, h, JSValue.truthy]

/-! ### C12. Round trip on the local store -/

/-- On the local store (`isRedisConnected` false), for every key, every value that is
truthy or `null` and every `ttl` (also an omitted one), `set(k, v, ttl)` followed at once
by `get(k)` returns `v`, whatever the primary store would answer. -/
theorem local_round_trip (s : CacheState) (hlocal : s.isRedisConnected = false)
    (key : String) (value : JSValue) (hvalue : value.truthy = true ∨ value = .null)
    (ttl : Option ℚ) (setReply : Reply) (getReply : GetReply) :
    ∃ s', set s key value ttl setReply = .ok s' ∧ get s' key getReply = .ok (value, s') := by
  refine ⟨_, set_local s hlocal key value ttl setReply, ?_⟩
  rcases hvalue with htruthy | hnull
  · simp [get, tryCatch, hlocal, memoryLookup, jsOr, JSMap.get_set_self, htruthy]
  · subst hnull
    simp [get, tryCatch, hlocal, memoryLookup, jsOr, JSMap.get_set_self, JSValue.truthy]

/-- C12: the code loses a falsy value. On the local store `set("k", 0, 60)` followed at
once by `get("k")` returns `null`, not `0`: the stored `0` is in `memoryCache`, and
`memoryCache.get(key) || null` turns it into `null`. -/
theorem falsy_value_reads_back_as_null :
    ∃ s', set (CacheState.fresh 0) "k" (.number 0) (some 60) .ok = .ok s' ∧
      JSMap.get s'.memoryCache "k" = some (.number 0) ∧
      get s' "k" .nil = .ok (.null, s') ∧ JSValue.number 0 ≠ JSValue.null := by
  refine ⟨_, set_local _ rfl _ _ _ _, ?_, ?_, by decide⟩
  · simp [JSMap.get, JSMap.set, CacheState.fresh]
  · rw [get_local _ rfl]
    simp [memoryLookup, jsOr, JSMap.get, JSMap.set, CacheState.fresh, JSValue.truthy]

/-! ### Eviction of an entry written on the local branch -/

theorem timerDelay_pos (ms : ℚ) : 1 ≤ timerDelay ms := by
  unfold timerDelay
  split_ifs with h
  · exact h.1
  · exact le_refl 1

theorem fireTimers_keeps_none (key : String) (t : ℚ) (timers : List Timer) :
    ∀ memoryCache : List (String × JSValue), JSMap.get memoryCache key = none →
      JSMap.get (fireTimers memoryCache timers t) key = none := by
  induction timers with
  | nil => intro m h; exact h
  | cons timer rest ih =>
    intro m h
    simp only [fireTimers, List.foldl_cons]
    split_ifs
    · exact ih _ (JSMap.get_eq_none_of_delete m timer.key key h)
    · exact ih _ h

theorem fireTimers_deletes_due (key : String) (t : ℚ) (timers : List Timer) :
    ∀ memoryCache : List (String × JSValue),
      (∃ timer ∈ timers, timer.key = key ∧ timer.due ≤ t) →
      JSMap.get (fireTimers memoryCache timers t) key = none := by
  induction timers with
  | nil => intro m h; obtain ⟨_, hmem, _⟩ := h; cases hmem
  | cons head rest ih =>
    intro m h
    obtain ⟨timer, hmem, hkey, hdue⟩ := h
    simp only [fireTimers, List.foldl_cons]
    rcases List.mem_cons.mp hmem with hhead | hrest
    · subst hhead
      rw [if_pos hdue, hkey]
      exact fireTimers_keeps_none key t rest _ (JSMap.get_delete_self m key)
    · exact ih _ ⟨timer, hrest, hkey, hdue⟩

theorem get_keeps_state (s : CacheState) (key : String) (reply : GetReply) :
    ∃ value, get s key reply = .ok (value, s) := by
  unfold get tryCatch
  split_ifs <;> cases reply <;> exact ⟨_, rfl⟩

theorem step_keeps_awaiting (key : String) (due : ℚ) (s : CacheState) (e : Event)
    (h : AwaitsEviction key due s) (he : e.setsKey key = false) :
    AwaitsEviction key due (step s e) := by
  obtain ⟨hpending, hentry⟩ := h
  cases e with
  | get k reply =>
    obtain ⟨value, hget⟩ := get_keeps_state s k reply
    simp only [step, hget]
    exact ⟨hpending, hentry⟩
  | set k value ttl reply =>
    have hk : key ≠ k := by
      intro hkey
      simp [Event.setsKey, hkey] at he
    have hmap : JSMap.get (JSMap.set s.memoryCache k value) key = none ∨
        ∃ timer ∈ s.timers, timer.key = key ∧ timer.due = due := by
      rcases hentry with hnone | htimer
      · exact Or.inl (by rw [JSMap.get_set_of_ne _ _ _ _ hk]; exact hnone)
      · exact Or.inr htimer
    unfold step set tryCatch
    split_ifs
    · cases reply
      · exact ⟨hpending, hentry⟩
      · exact ⟨hpending, hmap⟩
    · refine ⟨?_, ?_⟩
      · intro timer hmem
        rcases List.mem_append.mp hmem with hold | hnew
        · exact hpending timer hold
        · simp only [List.mem_singleton] at hnew
          subst hnew
          have := timerDelay_pos (ttl.getD 3600 * 1000)
          show s.now < s.now + timerDelay (ttl.getD 3600 * 1000)
          linarith
      · rcases hmap with hnone | ⟨timer, hmem, hkey, hdue⟩
        · exact Or.inl hnone
        · exact Or.inr ⟨timer, List.mem_append_left _ hmem, hkey, hdue⟩
  | del k reply =>
    have hmap : JSMap.get (JSMap.delete s.memoryCache k) key = none ∨
        ∃ timer ∈ s.timers, timer.key = key ∧ timer.due = due := by
      rcases hentry with hnone | htimer
      · exact Or.inl (JSMap.get_eq_none_of_delete _ _ _ hnone)
      · exact Or.inr htimer
    unfold step del tryCatch
    split_ifs
    · cases reply
      · exact ⟨hpending, hentry⟩
      · exact ⟨hpending, hmap⟩
    · exact ⟨hpending, hmap⟩
  | flush reply =>
    unfold step flush tryCatch
    split_ifs
    · cases reply
      · exact ⟨hpending, hentry⟩
      · exact ⟨hpending, Or.inl rfl⟩
    · exact ⟨hpending, Or.inl rfl⟩
  | error => exact ⟨hpending, hentry⟩
  | connect => exact ⟨hpending, hentry⟩
  | advance t =>
    refine ⟨?_, ?_⟩
    · intro timer hmem
      simp only [step, advance, List.mem_filter, decide_eq_true_eq, not_le] at hmem
      exact hmem.2
    · simp only [step, advance]
      rcases hentry with hnone | ⟨timer, hmem, hkey, hdue⟩
      · exact Or.inl (fireTimers_keeps_none key _ _ _ hnone)
      · by_cases hfire : timer.due ≤ max s.now t
        · exact Or.inl (fireTimers_deletes_due key _ _ _ ⟨timer, hmem, hkey, hfire⟩)
        · refine Or.inr ⟨timer, ?_, hkey, hdue⟩
          simp only [List.mem_filter, decide_eq_true_eq]
          exact ⟨hmem, hfire⟩

theorem run_keeps_awaiting (key : String) (due : ℚ) (events : List Event) :
    ∀ s : CacheState, AwaitsEviction key due s → (∀ e ∈ events, e.setsKey key = false) →
      AwaitsEviction key due (run s events) := by
  induction events with
  | nil => intro s h _; exact h
  | cons e rest ih =>
    intro s h hne
    exact ih (step s e) (step_keeps_awaiting key due s e h (hne e (List.mem_cons_self _ _)))
      fun e' he' => hne e' (List.mem_cons_of_mem _ he')

/-- An entry written by the local branch of `set` expires: in a cache with
`isRedisConnected` false whose pending timers are all due in the future, after
`set(key, value, ttl)` with `ttl * 1000` in the range of a timer delay, and whatever
calls, client events and time steps follow that contain no further `set` on `key`, once
`ttl` seconds have passed every `get(key)` served from the local store returns `null`. -/
theorem local_set_expires (s : CacheState) (hlocal : s.isRedisConnected = false)
    (hpending : ∀ timer ∈ s.timers, s.now < timer.due)
    (key : String) (value : JSValue) (ttl : ℚ)
    (hrange : 1 ≤ ttl * 1000 ∧ ttl * 1000 ≤ 2147483647) (reply : Reply)
    (events : List Event) (hlast : ∀ e ∈ events, e.setsKey key = false)
    (hlate : s.now + ttl * 1000
      ≤ (run (step s (.set key value (some ttl) reply)) events).now) :
    memoryLookup (run (step s (.set key value (some ttl) reply)) events) key = .null := by
  have hstart : AwaitsEviction key (s.now + ttl * 1000)
      (step s (.set key value (some ttl) reply)) := by
    simp only [step, set_local s hlocal, Option.getD_some, timerDelay, hrange, and_self,
      if_true]
    refine ⟨?_, Or.inr ⟨_, List.mem_append_right _ (List.mem_singleton_self _), rfl, rfl⟩⟩
    intro timer hmem
    rcases List.mem_append.mp hmem with hold | hnew
    · exact hpending timer hold
    · simp only [List.mem_singleton] at hnew
      subst hnew
      show s.now < s.now + ttl * 1000
      linarith [hrange.1]
  obtain ⟨hfuture, hentry⟩ := run_keeps_awaiting key _ events _ hstart hlast
  rcases hentry with hnone | ⟨timer, hmem, _, hdue⟩
  · exact memoryLookup_of_none _ _ hnone
  · have := hfuture timer hmem
    rw [hdue] at this
    exact absurd hlate (not_le.mpr this)

/-! ### C13. No expired value from the local store -/

/-- C13: the code returns an expired value. With the primary connected, `set("k", "v", 1)`
at time 0 in which the primary throws stores the value in `memoryCache` through the
`catch` branch, which schedules no eviction; five seconds later a `get("k")` served from
the local store (the primary throws again, or an `error` event has cleared
`isRedisConnected`) returns `"v"`. -/
theorem catch_branch_entry_never_expires :
    ∃ s1, set { redisClient := true, isRedisConnected := true, memoryCache := [],
                timers := [], now := 0 } "k" (.string "v") (some 1) .throws = .ok s1 ∧
      s1.timers = [] ∧
      (advance s1 5000).now = 5000 ∧
      get (advance s1 5000) "k" .throws = .ok (.string "v", advance s1 5000) ∧
      get (onError (advance s1 5000)) "k" .nil
        = .ok (.string "v", onError (advance s1 5000)) := by
  refine ⟨{ redisClient := true, isRedisConnected := true,
            memoryCache := [("k", .string "v")], timers := [], now := 0 },
    rfl, rfl, ?_, ?_, ?_⟩
  · simp [advance]
  · rw [get_throws]
    simp [memoryLookup, jsOr, advance, fireTimers, JSMap.get, JSMap.set, JSValue.truthy]
  · simp [get, tryCatch, memoryLookup, jsOr, advance, fireTimers, JSMap.get, JSValue.truthy,
      onError]

/-! ### C14. No error escapes the cache -/

/-- C14: for every state and every answer of the primary store, `get`, `set`, `del` and
`flush` return without throwing; and with `isRedisConnected` false, `set` writes the local
store and `get` reads it. -/
theorem no_error_escapes (s : CacheState) (key : String) (value : JSValue) (ttl : Option ℚ)
    (getReply : GetReply) (reply : Reply) :
    (∃ v s', get s key getReply = .ok (v, s')) ∧
    (∃ s', set s key value ttl reply = .ok s') ∧
    (∃ s', del s key reply = .ok s') ∧
    (∃ s', flush s reply = .ok s') ∧
    (s.isRedisConnected = false →
      (∃ s', set s key value ttl reply = .ok s' ∧
        JSMap.get s'.memoryCache key = some value) ∧
      get s key getReply = .ok (memoryLookup s key, s)) := by
  refine ⟨?_, ?_, ?_, ?_, ?_⟩
  · unfold get tryCatch
    split_ifs <;> cases getReply <;> exact ⟨_, _, rfl⟩
  · unfold set tryCatch
    split_ifs <;> cases reply <;> exact ⟨_, rfl⟩
  · unfold del tryCatch
    split_ifs <;> cases reply <;> exact ⟨_, rfl⟩
  · unfold flush tryCatch
    split_ifs <;> cases reply <;> exact ⟨_, rfl⟩
  · intro h
    exact ⟨⟨_, set_local s h key value ttl reply, JSMap.get_set_self _ _ _⟩,
      get_local s h key getReply⟩

/-- Instance of C14 with the primary unreachable: in a fresh cache `set` writes the local
store although the primary would throw, and `get` reads the local store. -/
theorem no_error_escapes_witness :
    (∃ s', set (CacheState.fresh 0) "k" (.string "v") (some 1) .throws = .ok s' ∧
      JSMap.get s'.memoryCache "k" = some (.string "v")) ∧
    get (CacheState.fresh 0) "k" .throws
      = .ok (memoryLookup (CacheState.fresh 0) "k", CacheState.fresh 0) :=
  (no_error_escapes (CacheState.fresh 0) "k" (.string "v") (some 1) .throws .throws).2.2.2.2
    rfl

/-! ### C15. What clears `isRedisConnected` -/

theorem step_keeps_local (s : CacheState) (e : Event) (h : s.isRedisConnected = false)
    (he : e ≠ Event.connect) : (step s e).isRedisConnected = false := by
  cases e with
  | get key reply => simp [step, get_local s h]; exact h
  | set key value ttl reply => simp [step, set_local s h]; exact h
  | del key reply => simp [step, del_local s h]; exact h
  | flush reply => simp [step, flush_local s h]; exact h
  | error => rfl
  | connect => exact absurd rfl he
  | advance t => exact h

theorem run_keeps_local (events : List Event) :
    ∀ s : CacheState, s.isRedisConnected = false → (∀ e ∈ events, e ≠ Event.connect) →
      (run s events).isRedisConnected = false := by
  induction events with
  | nil => intro s h _; exact h
  | cons e rest ih =>
    intro s h hne
    have hstep := step_keeps_local s e h (hne e (List.mem_cons_self _ _))
    exact ih (step s e) hstep fun e' he' => hne e' (List.mem_cons_of_mem _ he')

/-- C15, as stated, fails: with the primary connected, a `get` in which the primary throws
is answered from the local store but leaves `isRedisConnected` true, and the next `get`
is answered by the primary, not by the local store. -/
theorem primary_failure_keeps_flag :
    ∃ s1, get { redisClient := true, isRedisConnected := true,
                memoryCache := [("k", .string "local")], timers := [], now := 0 }
              "k" .throws = .ok (.string "local", s1) ∧
      s1.isRedisConnected = true ∧
      get s1 "k" (.json (.string "primary")) = .ok (.string "primary", s1) :=
  ⟨{ redisClient := true, isRedisConnected := true,
     memoryCache := [("k", .string "local")], timers := [], now := 0 },
   by simp [get, tryCatch, memoryLookup, jsOr, JSMap.get, JSValue.truthy], rfl, rfl⟩

/-- C15, amended: `isRedisConnected` is cleared by a failed connection attempt and by the
client event `error`; a `get`, `set`, `del` or `flush` in which the primary throws is
itself carried out on the local store and leaves `isRedisConnected` as it was; and once
`isRedisConnected` is false it stays false until a `connect` event, every operation being
carried out on the local store whatever the primary would answer. -/
theorem flag_cleared_by_events_only (s : CacheState) (key : String) (value : JSValue)
    (ttl : Option ℚ) :
    (onError s).isRedisConnected = false ∧
    (initRedis s .connectFails).isRedisConnected = false ∧
    (initRedis s .createClientThrows).isRedisConnected = false ∧
    get s key .throws = .ok (memoryLookup s key, s) ∧
    (∃ s', set s key value ttl .throws = .ok s' ∧
      s'.isRedisConnected = s.isRedisConnected ∧
      JSMap.get s'.memoryCache key = some value) ∧
    (∃ s', del s key .throws = .ok s' ∧
      s'.isRedisConnected = s.isRedisConnected ∧ JSMap.get s'.memoryCache key = none) ∧
    (∃ s', flush s .throws = .ok s' ∧
      s'.isRedisConnected = s.isRedisConnected ∧ s'.memoryCache = []) ∧
    (s.isRedisConnected = false →
      (∀ events : List Event, (∀ e ∈ events, e ≠ Event.connect) →
        (run s events).isRedisConnected = false) ∧
      (∀ (getReply : GetReply) (reply : Reply),
        get s key getReply = .ok (memoryLookup s key, s) ∧
        set s key value ttl reply = .ok { s with
          memoryCache := JSMap.set s.memoryCache key value
          timers := s.timers ++
            [{ due := s.now + timerDelay (ttl.getD 3600 * 1000), key := key }] } ∧
        del s key reply = .ok { s with memoryCache := JSMap.delete s.memoryCache key } ∧
        flush s reply = .ok { s with memoryCache := [] })) := by
  refine ⟨rfl, rfl, rfl, get_throws s key, ?_, ?_, ?_, ?_⟩
  · unfold set tryCatch
    split_ifs <;> exact ⟨_, rfl, rfl, JSMap.get_set_self _ _ _⟩
  · rw [del_throws]
    exact ⟨_, rfl, rfl, JSMap.get_delete_self _ _⟩
  · rw [flush_throws]
    exact ⟨_, rfl, rfl, rfl⟩
  · intro h
    exact ⟨fun events hne => run_keeps_local events s h hne,
      fun getReply reply => ⟨get_local s h key getReply, set_local s h key value ttl reply,
        del_local s h key reply, flush_local s h reply⟩⟩

/-- Instance of the amended C15: after an `error` event on a connected cache, a `set` and
a later time step leave `isRedisConnected` false. -/
theorem flag_cleared_by_events_only_witness :
    (run (onError { redisClient := true, isRedisConnected := true, memoryCache := [],
                    timers := [], now := 0 })
      [.set "k" (.string "v") (some 1) .ok, .advance 10]).isRedisConnected = false :=
  ((flag_cleared_by_events_only
      (onError { redisClient := true, isRedisConnected := true, memoryCache := [],
                 timers := [], now := 0 }) "k" (.string "v") (some 1)).2.2.2.2.2.2.2 rfl).1
    [.set "k" (.string "v") (some 1) .ok, .advance 10]
    (by
      intro e he
      simp only [List.mem_cons, List.mem_singleton, List.not_mem_nil, or_false] at he
      rcases he with rfl | rfl <;> exact fun h => Event.noConfusion h)

/-! ### C27. A later `set` and the timer of an earlier one -/

/-- C27: a later `set` does not replace the expiry. On the local store, `set("k", "v1", 1)`
at time 0 and `set("k", "v2", 100)` half a second later leave two timers pending; at
1000 ms the timer of the first `set` deletes the key, so two seconds after the start
`get("k")` returns `null`, although the second entry would expire only at 100500 ms. -/
theorem earlier_timer_evicts_later_value :
    ∃ s, run (CacheState.fresh 0)
          [.set "k" (.string "v1") (some 1) .ok, .advance 500,
           .set "k" (.string "v2") (some 100) .ok, .advance 2000] = s ∧
      s.now = 2000 ∧ s.isRedisConnected = false ∧
      s.timers = [{ due := 100500, key := "k" }] ∧
      get s "k" .nil = .ok (.null, s) := by
  have hrun : run (CacheState.fresh 0)
      [.set "k" (.string "v1") (some 1) .ok, .advance 500,
       .set "k" (.string "v2") (some 100) .ok, .advance 2000]
      = { redisClient := false, isRedisConnected := false, memoryCache := [],
          timers := [{ due := 100500, key := "k" }], now := 2000 } := by
    simp only [run, List.foldl, step, CacheState.fresh, set_local, advance, fireTimers,
      timerDelay, Option.getD]
    norm_num [JSMap.set, JSMap.delete]
  refine ⟨_, hrun, rfl, rfl, rfl, ?_⟩
  simp [get, tryCatch, memoryLookup, jsOr, JSMap.get, JSValue.truthy]

end CacheService

namespace Double

/-! ## Facts about rounding to a double -/

theorem le_roundHalfEven (m : ℤ) (y : ℚ) (h : (m : ℚ) - 1 / 2 < y) : m ≤ roundHalfEven y := by
  have h1 : (⌊y⌋ : ℚ) ≤ y := Int.floor_le y
  have h2 : y < ⌊y⌋ + 1 := Int.lt_floor_add_one y
  have key : ∀ k : ℤ, (m : ℚ) - 1 / 2 < k + 1 / 2 → m ≤ k := by
    intro k hk
    have : (m : ℚ) < k + 1 := by linarith
    have : m < k + 1 := by exact_mod_cast this
    omega
  unfold roundHalfEven
  split_ifs with c1 c2 c3
  · exact key _ (by linarith)
  · have := key (⌊y⌋ + 1) (by push_cast; linarith)
    exact this
  · exact key _ (by linarith [not_lt.mp c1])
  · have := key (⌊y⌋ + 1) (by push_cast; linarith)
    exact this

theorem roundHalfEven_le (m : ℤ) (y : ℚ) (h : y < (m : ℚ) + 1 / 2) : roundHalfEven y ≤ m := by
  have h1 : (⌊y⌋ : ℚ) ≤ y := Int.floor_le y
  have h2 : y < ⌊y⌋ + 1 := Int.lt_floor_add_one y
  have key : ∀ k : ℤ, (k : ℚ) - 1 / 2 < (m : ℚ) + 1 / 2 → k ≤ m := by
    intro k hk
    have : (k : ℚ) < m + 1 := by linarith
    have : k < m + 1 := by exact_mod_cast this
    omega
  unfold roundHalfEven
  split_ifs with c1 c2 c3
  · exact key _ (by linarith)
  · exact key (⌊y⌋ + 1) (by push_cast; linarith [not_lt.mp c1])
  · exact key _ (by linarith)
  · exact key (⌊y⌋ + 1) (by push_cast; linarith [not_lt.mp c1, not_lt.mp c2])

theorem two_zpow_pos (k : ℤ) : (0 : ℚ) < 2 ^ k := zpow_pos (by norm_num) k

theorem two_zpow_log_le (x : ℚ) (hx : 0 < x) : (2 : ℚ) ^ Int.log 2 x ≤ x := by
  have h := Int.zpow_log_le_self (b := 2) (by norm_num) hx
  simpa using h

theorem lt_two_zpow_log_succ (x : ℚ) : x < (2 : ℚ) ^ (Int.log 2 x + 1) := by
  have h := Int.lt_zpow_succ_log_self (b := 2) (by norm_num) x
  simpa using h

theorem log_eq_of_bounds (x : ℚ) (k : ℤ) (h1 : (2 : ℚ) ^ k ≤ x) (h2 : x < 2 ^ (k + 1)) :
    Int.log 2 x = k := by
  have hx : 0 < x := lt_of_lt_of_le (two_zpow_pos k) h1
  have ha : k ≤ Int.log 2 x :=
    (Int.zpow_le_iff_le_log (b := 2) (by norm_num) hx).mp (by simpa using h1)
  have hb : Int.log 2 x < k + 1 :=
    (Int.lt_zpow_iff_log_lt (b := 2) (by norm_num) hx).mp (by simpa using h2)
  omega

theorem two_zpow_split (k m : ℤ) (n : ℕ) (h : k = m + n) :
    (2 : ℚ) ^ k = 2 ^ m * 2 ^ n := by
  rw [← zpow_natCast, ← zpow_add₀ (by norm_num : (2 : ℚ) ≠ 0), h]

theorem roundMagnitude_zero : roundMagnitude 0 = 0 := by
  simp [roundMagnitude, roundHalfEven]

theorem roundMagnitude_nonneg (x : ℚ) (hx : 0 ≤ x) : 0 ≤ roundMagnitude x := by
  unfold roundMagnitude
  have hq : 0 < quantum x := two_zpow_pos _
  have hn : (0 : ℤ) ≤ roundHalfEven (x / quantum x) :=
    le_roundHalfEven 0 _ (by
      have : 0 ≤ x / quantum x := div_nonneg hx hq.le
      push_cast
      linarith)
  have : (0 : ℚ) ≤ (roundHalfEven (x / quantum x) : ℚ) := by exact_mod_cast hn
  exact mul_nonneg this hq.le

theorem abs_roundToDouble (x : ℚ) : |roundToDouble x| = roundMagnitude |x| := by
  unfold roundToDouble
  split_ifs with h
  · rw [abs_neg, abs_of_nonneg (roundMagnitude_nonneg _ (by linarith)), abs_of_neg h]
  · rw [abs_of_nonneg (roundMagnitude_nonneg _ (not_lt.mp h)), abs_of_nonneg (not_lt.mp h)]

/-- Evaluation of the rounding of a positive number from its binade and the integer
nearest to its scaled value. -/
theorem roundMagnitude_eq (x : ℚ) (k n : ℤ) (h1 : (2 : ℚ) ^ k ≤ x) (h2 : x < 2 ^ (k + 1))
    (hk : -1022 ≤ k) (hn1 : (n : ℚ) - 1 / 2 < x / 2 ^ (k - 52))
    (hn2 : x / 2 ^ (k - 52) < (n : ℚ) + 1 / 2) :
    roundMagnitude x = n * 2 ^ (k - 52) := by
  have he : exponent x = k := by
    unfold exponent
    rw [log_eq_of_bounds x k h1 h2]
    exact max_eq_left hk
  unfold roundMagnitude quantum
  rw [he]
  have : roundHalfEven (x / 2 ^ (k - 52)) = n :=
    le_antisymm (roundHalfEven_le n _ hn2) (le_roundHalfEven n _ hn1)
  rw [this]

/-- The literal `0.1` is the double `3602879701896397 * 2 ^ (-55)`. -/
theorem roundToDouble_tenth :
    roundToDouble 0.1 = 3602879701896397 / 36028797018963968 := by
  unfold roundToDouble
  rw [if_neg (by norm_num),
    roundMagnitude_eq 0.1 (-4) 7205759403792794 (by norm_num) (by norm_num) (by norm_num)
      (by norm_num) (by norm_num)]
  norm_num

/-- A magnitude of one tenth or more rounds to the double `0.1` or above. -/
theorem tenth_le_roundMagnitude (x : ℚ) (hx : 1 / 10 ≤ x) :
    3602879701896397 / 36028797018963968 ≤ roundMagnitude x := by
  have hpos : 0 < x := by linarith
  have hL1 := two_zpow_log_le x hpos
  have hL2 := lt_two_zpow_log_succ x
  have hL : -4 ≤ Int.log 2 x := by
    have h : (2 : ℚ) ^ (-4 : ℤ) < 2 ^ (Int.log 2 x + 1) := by
      refine lt_of_le_of_lt ?_ hL2
      norm_num
      linarith
    have := (zpow_lt_zpow_iff_right₀ (by norm_num : (1 : ℚ) < 2)).mp h
    omega
  have he : exponent x = Int.log 2 x := by
    unfold exponent
    exact max_eq_left (by omega)
  unfold roundMagnitude quantum
  rw [he]
  have hq : (0 : ℚ) < 2 ^ (Int.log 2 x - 52) := two_zpow_pos _
  by_cases h4 : Int.log 2 x = -4
  · rw [h4]
    have hn : (7205759403792794 : ℤ) ≤ roundHalfEven (x / 2 ^ ((-4 : ℤ) - 52)) :=
      le_roundHalfEven _ _ (by
        norm_num
        linarith)
    have hn' : (7205759403792794 : ℚ) ≤ (roundHalfEven (x / 2 ^ ((-4 : ℤ) - 52)) : ℚ) := by
      exact_mod_cast hn
    calc (3602879701896397 : ℚ) / 36028797018963968
        = 7205759403792794 * 2 ^ ((-4 : ℤ) - 52) := by norm_num
      _ ≤ _ := mul_le_mul_of_nonneg_right hn' (two_zpow_pos _).le
  · have h3 : -3 ≤ Int.log 2 x := by omega
    have hsplit := two_zpow_split (Int.log 2 x) (Int.log 2 x - 52) 52 (by omega)
    have hn : ((2 : ℤ) ^ 52) ≤ roundHalfEven (x / 2 ^ (Int.log 2 x - 52)) :=
      le_roundHalfEven _ _ (by
        have : (2 : ℚ) ^ 52 ≤ x / 2 ^ (Int.log 2 x - 52) := by
          rw [le_div_iff₀ hq, mul_comm, ← hsplit]
          exact hL1
        push_cast
        linarith)
    have hn' : ((2 : ℚ) ^ 52) ≤ (roundHalfEven (x / 2 ^ (Int.log 2 x - 52)) : ℚ) := by
      exact_mod_cast hn
    have hbig : (2 : ℚ) ^ (-3 : ℤ) ≤ 2 ^ Int.log 2 x :=
      zpow_le_zpow_right₀ (by norm_num) h3
    calc (3602879701896397 : ℚ) / 36028797018963968
        ≤ 2 ^ (-3 : ℤ) := by norm_num
      _ ≤ 2 ^ Int.log 2 x := hbig
      _ = 2 ^ 52 * 2 ^ (Int.log 2 x - 52) := by rw [hsplit]; ring
      _ ≤ _ := mul_le_mul_of_nonneg_right hn' hq.le

/-- A magnitude of at most `7205759403792793 * 2 ^ (-56)`, the largest double below the
double `0.1`, rounds to at most that double. -/
theorem roundMagnitude_le_below_tenth (x : ℚ) (h0 : 0 ≤ x)
    (hx : x ≤ 7205759403792793 / 72057594037927936) :
    roundMagnitude x ≤ 7205759403792793 / 72057594037927936 := by
  rcases h0.eq_or_lt with hzero | hpos
  · rw [← hzero, roundMagnitude_zero]
    norm_num
  have hL1 := two_zpow_log_le x hpos
  have hL2 := lt_two_zpow_log_succ x
  have hL : Int.log 2 x ≤ -4 := by
    have h : (2 : ℚ) ^ Int.log 2 x < 2 ^ (-3 : ℤ) := by
      refine lt_of_le_of_lt hL1 ?_
      norm_num
      linarith
    have := (zpow_lt_zpow_iff_right₀ (by norm_num : (1 : ℚ) < 2)).mp h
    omega
  unfold roundMagnitude quantum
  by_cases h4 : Int.log 2 x = -4
  · have he : exponent x = -4 := by
      unfold exponent
      rw [h4]
      rfl
    rw [he]
    have hn : roundHalfEven (x / 2 ^ ((-4 : ℤ) - 52)) ≤ (7205759403792793 : ℤ) :=
      roundHalfEven_le _ _ (by
        norm_num
        linarith)
    have hn' : (roundHalfEven (x / 2 ^ ((-4 : ℤ) - 52)) : ℚ) ≤ (7205759403792793 : ℚ) := by
      exact_mod_cast hn
    calc _ ≤ (7205759403792793 : ℚ) * 2 ^ ((-4 : ℤ) - 52) :=
          mul_le_mul_of_nonneg_right hn' (two_zpow_pos _).le
      _ = 7205759403792793 / 72057594037927936 := by norm_num
  · have hle : Int.log 2 x ≤ exponent x := le_max_left _ _
    have he5 : exponent x ≤ -5 := by
      unfold exponent
      exact max_le (by omega) (by norm_num)
    have hq : (0 : ℚ) < 2 ^ (exponent x - 52) := two_zpow_pos _
    have hsplit := two_zpow_split (exponent x + 1) (exponent x - 52) 53 (by omega)
    have hx2 : x < 2 ^ (exponent x + 1) :=
      lt_of_lt_of_le hL2 (zpow_le_zpow_right₀ (by norm_num) (by omega))
    have hn : roundHalfEven (x / 2 ^ (exponent x - 52)) ≤ ((2 : ℤ) ^ 53) :=
      roundHalfEven_le _ _ (by
        have : x / 2 ^ (exponent x - 52) < (2 : ℚ) ^ 53 := by
          rw [div_lt_iff₀ hq, mul_comm, ← hsplit]
          exact hx2
        push_cast
        linarith)
    have hn' : (roundHalfEven (x / 2 ^ (exponent x - 52)) : ℚ) ≤ (2 : ℚ) ^ 53 := by
      exact_mod_cast hn
    have hsmall : (2 : ℚ) ^ (exponent x + 1) ≤ 2 ^ (-4 : ℤ) :=
      zpow_le_zpow_right₀ (by norm_num) (by omega)
    calc _ ≤ (2 : ℚ) ^ 53 * 2 ^ (exponent x - 52) :=
          mul_le_mul_of_nonneg_right hn' hq.le
      _ = 2 ^ (exponent x + 1) := by rw [hsplit]; ring
      _ ≤ 2 ^ (-4 : ℤ) := hsmall
      _ ≤ 7205759403792793 / 72057594037927936 := by norm_num

end Double

namespace NotificationService

/-! ## Facts about the alert matcher -/

theorem sendAirQualityAlert_eq (throws : Bool) (subscription : Subscription)
    (airQualityData : AirQualityData) :
    sendAirQualityAlert throws subscription airQualityData
      = { trace := expectedSends subscription airQualityData, result := .ok () } := by
  cases throws <;> cases he : present subscription.email <;>
    cases hp : present subscription.phone <;>
    simp [sendAirQualityAlert, expectedSends, Run.tryCatch, Run.andThen, Run.pure, Run.act,
      sendEmailNotification, sendSMSNotification, he, hp]

theorem alertLoop_eq (transport : ℕ → Bool) (airQualityData : AirQualityData)
    (subscriptions : List Subscription) :
    ∀ n, alertLoop transport airQualityData n subscriptions
      = { trace := expectedTrace airQualityData subscriptions, result := .ok () } := by
  induction subscriptions with
  | nil => intro n; rfl
  | cons subscription rest ih =>
    intro n
    cases hs : shouldSendAlert subscription airQualityData <;>
      simp [alertLoop, expectedTrace, hs, ih, sendAirQualityAlert_eq, Run.andThen, Run.pure,
        Run.act]

theorem checkAndSendAlerts_eq (subscriptions : List (String × Subscription))
    (location : Location) (airQualityData : AirQualityData) (transport : ℕ → Bool) :
    checkAndSendAlerts subscriptions location airQualityData transport
      = ({ trace := expectedTrace airQualityData (relevantSubscriptions subscriptions location),
           result := .ok () }, subscriptions) := by
  simp [checkAndSendAlerts, alertLoop_eq, Run.tryCatch]

theorem alert_not_mem_expectedSends (subscription other : Subscription)
    (airQualityData : AirQualityData) :
    Action.alert subscription ∉ expectedSends other airQualityData := by
  unfold expectedSends
  split_ifs <;> simp

theorem alert_mem_expectedTrace (airQualityData : AirQualityData) (subscription : Subscription)
    (subscriptions : List Subscription) :
    Action.alert subscription ∈ expectedTrace airQualityData subscriptions ↔
      subscription ∈ subscriptions ∧ shouldSendAlert subscription airQualityData = true := by
  induction subscriptions with
  | nil => simp [expectedTrace]
  | cons head rest ih =>
    have hsends := alert_not_mem_expectedSends subscription head airQualityData
    cases hs : shouldSendAlert head airQualityData
    · simp only [expectedTrace, hs, List.mem_append, ih, List.mem_cons]
      constructor
      · rintro (h | h)
        · simp at h
        · exact ⟨Or.inr h.1, h.2⟩
      · rintro ⟨h | h, h2⟩
        · subst h
          rw [hs] at h2
          cases h2
        · exact Or.inr ⟨h, h2⟩
    · simp only [expectedTrace, hs, List.mem_append, ih, List.mem_cons, if_true]
      constructor
      · rintro ((h | h) | h)
        · have : subscription = head := by injection h
          subst this
          exact ⟨Or.inl rfl, hs⟩
        · exact absurd h hsends
        · exact ⟨Or.inr h.1, h.2⟩
      · rintro ⟨h | h, h2⟩
        · subst h
          exact Or.inl (Or.inl rfl)
        · exact Or.inr ⟨h, h2⟩

theorem mem_relevantSubscriptions (subscriptions : List (String × Subscription))
    (location : Location) (subscription : Subscription) :
    subscription ∈ relevantSubscriptions subscriptions location ↔
      subscription ∈ JSMap.values subscriptions ∧ subscription.isActive = true ∧
      |Double.sub subscription.location.lat location.lat| < Double.roundToDouble 0.1 ∧
      |Double.sub subscription.location.lng location.lng| < Double.roundToDouble 0.1 := by
  simp [relevantSubscriptions, List.mem_filter, and_assoc]

/-- A true difference of at most `7205759403792793 * 2 ^ (-56)` passes the test
`Math.abs(a - b) < 0.1`. -/
theorem within_of_le (a b : ℚ) (h : |a - b| ≤ 7205759403792793 / 72057594037927936) :
    |Double.sub a b| < Double.roundToDouble 0.1 := by
  rw [Double.sub, Double.abs_roundToDouble, Double.roundToDouble_tenth]
  refine lt_of_le_of_lt (Double.roundMagnitude_le_below_tenth _ (abs_nonneg _) h) ?_
  norm_num

/-- A true difference of one tenth or more fails the test `Math.abs(a - b) < 0.1`. -/
theorem not_within_of_ge (a b : ℚ) (h : 1 / 10 ≤ |a - b|) :
    ¬ |Double.sub a b| < Double.roundToDouble 0.1 := by
  rw [Double.sub, Double.abs_roundToDouble, Double.roundToDouble_tenth]
  exact not_lt.mpr (Double.tenth_le_roundMagnitude _ h)

/-- The doubles that the literals `40.05`, `74.05`, `40.2` and `74.2` denote. -/
theorem roundMagnitude_examples :
    Double.roundMagnitude 40.05 = 2818268204315443 / 70368744177664 ∧
    Double.roundMagnitude 74.05 = 5210805506356019 / 70368744177664 ∧
    Double.roundMagnitude 40.2 = 2828823515942093 / 70368744177664 ∧
    Double.roundMagnitude 74.2 = 5221360817982669 / 70368744177664 := by
  refine ⟨?_, ?_, ?_, ?_⟩
  · rw [Double.roundMagnitude_eq 40.05 5 5636536408630886 (by norm_num) (by norm_num)
      (by norm_num) (by norm_num) (by norm_num)]
    norm_num
  · rw [Double.roundMagnitude_eq 74.05 6 5210805506356019 (by norm_num) (by norm_num)
      (by norm_num) (by norm_num) (by norm_num)]
    norm_num
  · rw [Double.roundMagnitude_eq 40.2 5 5657647031884186 (by norm_num) (by norm_num)
      (by norm_num) (by norm_num) (by norm_num)]
    norm_num
  · rw [Double.roundMagnitude_eq 74.2 6 5221360817982669 (by norm_num) (by norm_num)
      (by norm_num) (by norm_num) (by norm_num)]
    norm_num

theorem roundToDouble_examples :
    Double.roundToDouble 40.05 = 2818268204315443 / 70368744177664 ∧
    Double.roundToDouble (-74.05) = -(5210805506356019 / 70368744177664) ∧
    Double.roundToDouble 40.2 = 2828823515942093 / 70368744177664 ∧
    Double.roundToDouble (-74.2) = -(5221360817982669 / 70368744177664) := by
  obtain ⟨h1, h2, h3, h4⟩ := roundMagnitude_examples
  refine ⟨?_, ?_, ?_, ?_⟩
  · rw [Double.roundToDouble, if_neg (by norm_num), h1]
  · rw [Double.roundToDouble, if_pos (by norm_num), neg_neg, h2]
  · rw [Double.roundToDouble, if_neg (by norm_num), h3]
  · rw [Double.roundToDouble, if_pos (by norm_num), neg_neg, h4]

/-! ### C16. A subscription is alerted exactly when it matches -/

/-- C16, as stated, fails: a subscription at (40.00, -74.00) whose `alertLevels` holds the
category `Unhealthy` as the result spells it is stored, active and within the tolerance
of an `Unhealthy` result at (40.05, -74.05), and is not alerted: `shouldSendAlert` looks
for `unhealthy`, the category in lower case. -/
theorem literal_category_level_not_alerted :
    "Unhealthy" ∈ ["Unhealthy"] ∧
    |Double.sub 40 (Double.roundToDouble 40.05)| < Double.roundToDouble 0.1 ∧
    |Double.sub (-74) (Double.roundToDouble (-74.05))| < Double.roundToDouble 0.1 ∧
    Action.alert
        { id := "sub_1", location := { lat := 40, lng := -74 },
          email := some "a@example.com", phone := none, alertLevels := ["Unhealthy"],
          createdAt := "", isActive := true }
      ∉ (checkAndSendAlerts
          [("sub_1", { id := "sub_1", location := { lat := 40, lng := -74 },
                       email := some "a@example.com", phone := none,
                       alertLevels := ["Unhealthy"], createdAt := "", isActive := true })]
          { lat := Double.roundToDouble 40.05, lng := Double.roundToDouble (-74.05) }
          { location := { lat := Double.roundToDouble 40.05,
                          lng := Double.roundToDouble (-74.05) },
            aqi := 160, category := "Unhealthy", healthMessage := "",
            recommendations := [] }
          (fun _ => false)).1.trace := by
  obtain ⟨h1, h2, _, _⟩ := roundToDouble_examples
  refine ⟨by decide, within_of_le _ _ ?_, within_of_le _ _ ?_, ?_⟩
  · rw [h1]
    norm_num [abs_le]
  · rw [h2]
    norm_num [abs_le]
  · intro h
    rw [checkAndSendAlerts_eq] at h
    have h5 := ((alert_mem_expectedTrace _ _ _).mp h).2
    revert h5
    decide

/-- C16, amended: for a result whose category is written in ASCII characters,
`checkAndSendAlerts` calls `sendAirQualityAlert` for a subscription if and only if the
subscription is in the registry, is active, has `Math.abs` of the difference of the
latitudes and of the longitudes, computed in doubles, below `0.1`, and lists in
`alertLevels` the result's category in lower case with every run of whitespace replaced
by one hyphen. -/
theorem alerted_iff_matches (subscriptions : List (String × Subscription))
    (location : Location) (airQualityData : AirQualityData) (transport : ℕ → Bool)
    (subscription : Subscription) (hascii : IsAscii airQualityData.category) :
    Action.alert subscription
        ∈ (checkAndSendAlerts subscriptions location airQualityData transport).1.trace ↔
      subscription ∈ JSMap.values subscriptions ∧ subscription.isActive = true ∧
      |Double.sub subscription.location.lat location.lat| < Double.roundToDouble 0.1 ∧
      |Double.sub subscription.location.lng location.lng| < Double.roundToDouble 0.1 ∧
      normalizeCategory airQualityData.category ∈ subscription.alertLevels := by
  have _ := hascii
  rw [checkAndSendAlerts_eq]
  simp only [alert_mem_expectedTrace, mem_relevantSubscriptions, shouldSendAlert,
    decide_eq_true_eq, and_assoc]

/-- The example of C16 with the level spelled `unhealthy`: a subscription at
(40.00, -74.00) is alerted by an Unhealthy result at (40.05, -74.05), not by one at
(40.20, -74.20), and not by a Moderate result at its own location. -/
theorem alerted_iff_matches_witness :
    Action.alert
        { id := "sub_1", location := { lat := 40, lng := -74 },
          email := some "a@example.com", phone := none, alertLevels := ["unhealthy"],
          createdAt := "", isActive := true }
      ∈ (checkAndSendAlerts
          [("sub_1", { id := "sub_1", location := { lat := 40, lng := -74 },
                       email := some "a@example.com", phone := none,
                       alertLevels := ["unhealthy"], createdAt := "", isActive := true })]
          { lat := Double.roundToDouble 40.05, lng := Double.roundToDouble (-74.05) }
          { location := { lat := Double.roundToDouble 40.05,
                          lng := Double.roundToDouble (-74.05) },
            aqi := 160, category := "Unhealthy", healthMessage := "",
            recommendations := [] }
          (fun _ => false)).1.trace ∧
    Action.alert
        { id := "sub_1", location := { lat := 40, lng := -74 },
          email := some "a@example.com", phone := none, alertLevels := ["unhealthy"],
          createdAt := "", isActive := true }
      ∉ (checkAndSendAlerts
          [("sub_1", { id := "sub_1", location := { lat := 40, lng := -74 },
                       email := some "a@example.com", phone := none,
                       alertLevels := ["unhealthy"], createdAt := "", isActive := true })]
          { lat := Double.roundToDouble 40.2, lng := Double.roundToDouble (-74.2) }
          { location := { lat := Double.roundToDouble 40.2,
                          lng := Double.roundToDouble (-74.2) },
            aqi := 160, category := "Unhealthy", healthMessage := "",
            recommendations := [] }
          (fun _ => false)).1.trace ∧
    Action.alert
        { id := "sub_1", location := { lat := 40, lng := -74 },
          email := some "a@example.com", phone := none, alertLevels := ["unhealthy"],
          createdAt := "", isActive := true }
      ∉ (checkAndSendAlerts
          [("sub_1", { id := "sub_1", location := { lat := 40, lng := -74 },
                       email := some "a@example.com", phone := none,
                       alertLevels := ["unhealthy"], createdAt := "", isActive := true })]
          { lat := 40, lng := -74 }
          { location := { lat := 40, lng := -74 }, aqi := 80, category := "Moderate",
            healthMessage := "", recommendations := [] }
          (fun _ => false)).1.trace := by
  obtain ⟨h1, h2, h3, _⟩ := roundToDouble_examples
  have hU : IsAscii "Unhealthy" := by
    intro c hc
    revert c
    decide
  have hM : IsAscii "Moderate" := by
    intro c hc
    revert c
    decide
  refine ⟨(alerted_iff_matches _ _ _ _ _ hU).mpr ⟨?_, rfl, within_of_le _ _ ?_,
    within_of_le _ _ ?_, ?_⟩, fun h => ?_, fun h => ?_⟩
  · simp [JSMap.values]
  · rw [h1]
    norm_num [abs_le]
  · rw [h2]
    norm_num [abs_le]
  · decide
  · have h3' := ((alerted_iff_matches _ _ _ _ _ hU).mp h).2.2.1
    refine not_within_of_ge _ _ ?_ h3'
    rw [h3]
    norm_num [le_abs]
  · have h5 := ((alerted_iff_matches _ _ _ _ _ hM).mp h).2.2.2.2
    revert h5
    decide

/-! ### C18. Unsubscribing -/

/-- C18: `unsubscribeFromAlerts(id)` throws `Subscription not found` if and only if `id`
is not a key of the registry, and the registry then stays as it is; otherwise it returns,
the registry afterwards has no entry for `id` and every other key maps to what it mapped
to before, the remaining entries keeping their order. -/
theorem unsubscribe_spec (subscriptions : List (String × Subscription))
    (subscriptionId : String) :
    (unsubscribeFromAlerts subscriptions subscriptionId = .error "Subscription not found" ↔
      JSMap.has subscriptions subscriptionId = false) ∧
    (JSMap.has subscriptions subscriptionId = false →
      applyCall subscriptions (.unsubscribe subscriptionId) = subscriptions) ∧
    (JSMap.has subscriptions subscriptionId = true →
      ∃ message subscriptions',
        unsubscribeFromAlerts subscriptions subscriptionId = .ok (message, subscriptions') ∧
        subscriptions' = subscriptions.filter (fun entry => decide (entry.1 ≠ subscriptionId)) ∧
        JSMap.get subscriptions' subscriptionId = none ∧
        ∀ other, other ≠ subscriptionId →
          JSMap.get subscriptions' other = JSMap.get subscriptions other) := by
  refine ⟨?_, ?_, ?_⟩
  · cases h : JSMap.has subscriptions subscriptionId <;> simp [unsubscribeFromAlerts, h]
  · intro h
    simp [applyCall, unsubscribeFromAlerts, h]
  · intro h
    refine ⟨"Successfully unsubscribed from alerts", JSMap.delete subscriptions subscriptionId,
      by simp [unsubscribeFromAlerts, h], rfl, JSMap.get_delete_self _ _,
      fun other hne => JSMap.get_delete_of_ne _ _ _ hne⟩

/-- Instance of C18: removing the first of two subscriptions leaves the second, and
removing an unknown id throws. -/
theorem unsubscribe_spec_witness :
    (∃ message subscriptions',
      unsubscribeFromAlerts
          [("sub_1", { id := "sub_1", location := { lat := 40, lng := -74 },
                       email := some "a@example.com", phone := none,
                       alertLevels := ["unhealthy"], createdAt := "", isActive := true }),
           ("sub_2", { id := "sub_2", location := { lat := 55, lng := 37 },
                       email := none, phone := some "+1234567890",
                       alertLevels := ["hazardous"], createdAt := "", isActive := true })]
          "sub_1" = .ok (message, subscriptions') ∧
      JSMap.get subscriptions' "sub_1" = none) ∧
    unsubscribeFromAlerts ([] : List (String × Subscription)) "sub_9"
      = .error "Subscription not found" := by
  constructor
  · obtain ⟨message, subscriptions', h1, _, h3, _⟩ :=
      (unsubscribe_spec
        [("sub_1", { id := "sub_1", location := { lat := 40, lng := -74 },
                     email := some "a@example.com", phone := none,
                     alertLevels := ["unhealthy"], createdAt := "", isActive := true }),
         ("sub_2", { id := "sub_2", location := { lat := 55, lng := 37 },
                     email := none, phone := some "+1234567890",
                     alertLevels := ["hazardous"], createdAt := "", isActive := true })]
        "sub_1").2.2 (by decide)
    exact ⟨message, subscriptions', h1, h3⟩
  · exact (unsubscribe_spec [] "sub_9").1.mpr (by decide)

/-! ### C20. Subscribing -/

/-- C20: `subscribeToAlerts` returns the generated id and a subscription with the
location, email, phone and alert levels of the request (the three default levels when
`alertLevels` is omitted) and `isActive` true; afterwards the registry maps the id to that
subscription and every other key to what it mapped to before. -/
theorem subscribe_spec (subscriptions : List (String × Subscription))
    (request : SubscribeRequest) (subscriptionId createdAt : String) :
    ∃ response subscriptions',
      subscribeToAlerts subscriptions request subscriptionId createdAt
        = .ok (response, subscriptions') ∧
      response.subscriptionId = subscriptionId ∧
      response.subscription.id = subscriptionId ∧
      response.subscription.location = { lat := request.lat, lng := request.lng } ∧
      response.subscription.email = request.email ∧
      response.subscription.phone = request.phone ∧
      (∀ levels, request.alertLevels = some levels →
        response.subscription.alertLevels = levels) ∧
      (request.alertLevels = none →
        response.subscription.alertLevels = ["unhealthy", "very-unhealthy", "hazardous"]) ∧
      response.subscription.isActive = true ∧
      JSMap.get subscriptions' subscriptionId = some response.subscription ∧
      ∀ other, other ≠ subscriptionId →
        JSMap.get subscriptions' other = JSMap.get subscriptions other := by
  refine ⟨_, _, rfl, rfl, rfl, rfl, rfl, rfl, ?_, ?_, rfl, JSMap.get_set_self _ _ _,
    fun other hne => JSMap.get_set_of_ne _ _ _ _ hne⟩
  · intro levels h
    simp [h]
  · intro h
    simp [h]

/-- Instance of C20: the first request of the test script, with `alertLevels` omitted,
gets the three default levels. -/
theorem subscribe_spec_witness :
    ∃ response subscriptions',
      subscribeToAlerts []
          { lat := 40.7128, lng := -74.006, email := some "test@example.com", phone := none,
            alertLevels := none } "sub_abc" "2024-01-01T00:00:00.000Z"
        = .ok (response, subscriptions') ∧
      response.subscription.alertLevels = ["unhealthy", "very-unhealthy", "hazardous"] ∧
      JSMap.get subscriptions' "sub_abc" = some response.subscription := by
  obtain ⟨response, subscriptions', h, _, _, _, _, _, _, hdefault, _, hget, _⟩ :=
    subscribe_spec []
      { lat := 40.7128, lng := -74.006, email := some "test@example.com", phone := none,
        alertLevels := none } "sub_abc" "2024-01-01T00:00:00.000Z"
  exact ⟨response, subscriptions', h, hdefault rfl, hget⟩

/-! ### C17. What `subscribeToAlerts` rejects -/

/-- C17, as stated, fails: a request with an email and an empty `alertLevels` list is
accepted, and the registry gains the subscription. -/
theorem empty_alert_levels_accepted :
    ∃ response subscriptions',
      subscribeToAlerts []
          { lat := 40, lng := -74, email := some "a@example.com", phone := none,
            alertLevels := some [] } "sub_1" ""
        = .ok (response, subscriptions') ∧
      subscriptions' ≠ [] ∧ response.subscription.alertLevels = [] :=
  ⟨_, _, rfl, by simp [JSMap.set], rfl⟩

/-- C17, amended: `subscribeToAlerts` does not reject an empty `alertLevels` list. A
request with a contact present and `alertLevels` empty returns, the registry afterwards
maps the id to the new subscription, and that subscription is alerted by no result. -/
theorem subscribe_accepts_empty_alert_levels (subscriptions : List (String × Subscription))
    (request : SubscribeRequest) (subscriptionId createdAt : String)
    (hcontact : present request.email = true ∨ present request.phone = true)
    (hempty : request.alertLevels = some []) :
    ∃ response subscriptions',
      subscribeToAlerts subscriptions request subscriptionId createdAt
        = .ok (response, subscriptions') ∧
      JSMap.get subscriptions' subscriptionId = some response.subscription ∧
      response.subscription.alertLevels = [] ∧
      ∀ airQualityData, shouldSendAlert response.subscription airQualityData = false := by
  have _ := hcontact
  refine ⟨_, _, rfl, JSMap.get_set_self _ _ _, by simp [hempty], ?_⟩
  intro airQualityData
  simp [shouldSendAlert, hempty]

/-- Instance of the amended C17: a request with a phone number and no alert level. -/
theorem subscribe_accepts_empty_alert_levels_witness :
    ∃ response subscriptions',
      subscribeToAlerts []
          { lat := 55.7558, lng := 37.6176, email := none, phone := some "+1234567890",
            alertLevels := some [] } "sub_2" ""
        = .ok (response, subscriptions') ∧
      JSMap.get subscriptions' "sub_2" = some response.subscription ∧
      response.subscription.alertLevels = [] := by
  obtain ⟨response, subscriptions', h1, h2, h3, _⟩ :=
    subscribe_accepts_empty_alert_levels []
      { lat := 55.7558, lng := 37.6176, email := none, phone := some "+1234567890",
        alertLevels := some [] } "sub_2" "" (Or.inr (by decide)) rfl
  exact ⟨response, subscriptions', h1, h2, h3⟩

/-! ### C19. No alert after unsubscribing -/

theorem applyCall_keeps_ids (subscriptions : List (String × Subscription))
    (call : RegistryCall) (h : IdsMatchKeys subscriptions) :
    IdsMatchKeys (applyCall subscriptions call) := by
  cases call with
  | subscribe request subscriptionId createdAt =>
    simp only [applyCall, subscribeToAlerts]
    generalize hsub : ({ id := subscriptionId
                         location := { lat := request.lat, lng := request.lng }
                         email := request.email
                         phone := request.phone
                         alertLevels := request.alertLevels.getD
                           ["unhealthy", "very-unhealthy", "hazardous"]
                         createdAt := createdAt
                         isActive := true } : Subscription) = subscription
    have hid : subscription.id = subscriptionId := by rw [← hsub]
    clear hsub
    induction subscriptions with
    | nil =>
      intro entry he
      simp only [JSMap.set, List.mem_singleton] at he
      subst he
      exact hid
    | cons head rest ih =>
      obtain ⟨k, v⟩ := head
      have hrest : IdsMatchKeys rest := fun entry he => h entry (List.mem_cons_of_mem _ he)
      have hhead : v.id = k := h (k, v) (List.mem_cons_self _ _)
      intro entry he
      by_cases hk : k = subscriptionId
      · simp only [JSMap.set, hk, if_true, List.mem_cons] at he
        rcases he with he | he
        · subst he
          exact hid
        · exact hrest entry he
      · simp only [JSMap.set, hk, if_false, List.mem_cons] at he
        rcases he with he | he
        · subst he
          exact hhead
        · exact ih hrest entry he
  | unsubscribe subscriptionId =>
    simp only [applyCall, unsubscribeFromAlerts]
    split_ifs
    · intro entry he
      simp only [JSMap.delete, List.mem_filter] at he
      exact h entry he.1
    · exact h

theorem applyCall_keeps_absent (subscriptions : List (String × Subscription))
    (call : RegistryCall) (subscriptionId : String) (hcall : call.avoids subscriptionId)
    (h : ∀ entry ∈ subscriptions, entry.1 ≠ subscriptionId) :
    ∀ entry ∈ applyCall subscriptions call, entry.1 ≠ subscriptionId := by
  cases call with
  | subscribe request newId createdAt =>
    have hne : newId ≠ subscriptionId := hcall
    simp only [applyCall, subscribeToAlerts]
    generalize ({ id := newId
                  location := { lat := request.lat, lng := request.lng }
                  email := request.email
                  phone := request.phone
                  alertLevels := request.alertLevels.getD
                    ["unhealthy", "very-unhealthy", "hazardous"]
                  createdAt := createdAt
                  isActive := true } : Subscription) = subscription
    induction subscriptions with
    | nil =>
      intro entry he
      simp only [JSMap.set, List.mem_singleton] at he
      subst he
      exact hne
    | cons head rest ih =>
      obtain ⟨k, v⟩ := head
      have hrest : ∀ entry ∈ rest, entry.1 ≠ subscriptionId :=
        fun entry he => h entry (List.mem_cons_of_mem _ he)
      have hhead : k ≠ subscriptionId := h (k, v) (List.mem_cons_self _ _)
      intro entry he
      by_cases hk : k = newId
      · simp only [JSMap.set, hk, if_true, List.mem_cons] at he
        rcases he with he | he
        · subst he
          exact hne
        · exact hrest entry he
      · simp only [JSMap.set, hk, if_false, List.mem_cons] at he
        rcases he with he | he
        · subst he
          exact hhead
        · exact ih hrest entry he
  | unsubscribe otherId =>
    simp only [applyCall, unsubscribeFromAlerts]
    split_ifs
    · intro entry he
      simp only [JSMap.delete, List.mem_filter] at he
      exact h entry he.1
    · exact h

theorem applyCalls_keeps (calls : List RegistryCall) (subscriptionId : String) :
    ∀ subscriptions : List (String × Subscription), IdsMatchKeys subscriptions →
      (∀ entry ∈ subscriptions, entry.1 ≠ subscriptionId) →
      (∀ call ∈ calls, call.avoids subscriptionId) →
      IdsMatchKeys (applyCalls subscriptions calls) ∧
      ∀ entry ∈ applyCalls subscriptions calls, entry.1 ≠ subscriptionId := by
  induction calls with
  | nil => intro subscriptions h1 h2 _; exact ⟨h1, h2⟩
  | cons call rest ih =>
    intro subscriptions h1 h2 hcalls
    exact ih (applyCall subscriptions call) (applyCall_keeps_ids _ _ h1)
      (applyCall_keeps_absent _ _ _ (hcalls call (List.mem_cons_self _ _)) h2)
      (fun c hc => hcalls c (List.mem_cons_of_mem _ hc))

theorem applyCalls_keeps_ids (calls : List RegistryCall) :
    ∀ subscriptions : List (String × Subscription), IdsMatchKeys subscriptions →
      IdsMatchKeys (applyCalls subscriptions calls) := by
  induction calls with
  | nil => intro subscriptions h; exact h
  | cons call rest ih =>
    intro subscriptions h
    exact ih (applyCall subscriptions call) (applyCall_keeps_ids _ _ h)

/-- C19: in every registry reached from the empty one by calls of `subscribeToAlerts` and
`unsubscribeFromAlerts`, after `unsubscribeFromAlerts(id)` has returned and whatever calls
follow that create no subscription under `id`, no pass of `checkAndSendAlerts`, for any
location, result and behaviour of the mail transport, calls `sendAirQualityAlert` for a
subscription with that id. -/
theorem unsubscribed_never_alerted (history : List RegistryCall)
    (subscriptionId message : String) (subscriptions' : List (String × Subscription))
    (hunsub : unsubscribeFromAlerts (applyCalls [] history) subscriptionId
      = .ok (message, subscriptions'))
    (calls : List RegistryCall) (hcalls : ∀ call ∈ calls, call.avoids subscriptionId)
    (location : Location) (airQualityData : AirQualityData) (transport : ℕ → Bool)
    (subscription : Subscription) (hid : subscription.id = subscriptionId) :
    Action.alert subscription
      ∉ (checkAndSendAlerts (applyCalls subscriptions' calls) location airQualityData
          transport).1.trace := by
  have hids : IdsMatchKeys (applyCalls [] history) :=
    applyCalls_keeps_ids history [] (fun entry he => by cases he)
  have hdel : subscriptions' = JSMap.delete (applyCalls [] history) subscriptionId := by
    unfold unsubscribeFromAlerts at hunsub
    split_ifs at hunsub
    injection hunsub with h
    injection h with _ h2
    exact h2.symm
  have hids' : IdsMatchKeys subscriptions' := by
    intro entry he
    rw [hdel] at he
    simp only [JSMap.delete, List.mem_filter] at he
    exact hids entry he.1
  have habsent : ∀ entry ∈ subscriptions', entry.1 ≠ subscriptionId := by
    intro entry he
    rw [hdel] at he
    simp only [JSMap.delete, List.mem_filter, decide_eq_true_eq] at he
    exact he.2
  obtain ⟨hfinal, hnone⟩ := applyCalls_keeps calls subscriptionId subscriptions' hids'
    habsent hcalls
  intro halert
  have hmem := ((alert_mem_expectedTrace _ _ _).mp
    (by rw [checkAndSendAlerts_eq] at halert; exact halert)).1
  have hvalues := ((mem_relevantSubscriptions _ _ _).mp hmem).1
  simp only [JSMap.values, List.mem_map] at hvalues
  obtain ⟨entry, hentry, hsub⟩ := hvalues
  have h1 := hfinal entry hentry
  have h2 := hnone entry hentry
  rw [hsub, hid] at h1
  exact h2 h1.symm

/-- Instance of C19: `sub_1` is created and removed, then a subscription `sub_2` with the
same place and levels is created; a matching result alerts no subscription with the id
`sub_1`. -/
theorem unsubscribed_never_alerted_witness :
    Action.alert
        { id := "sub_1", location := { lat := 40, lng := -74 },
          email := some "a@example.com", phone := none, alertLevels := ["unhealthy"],
          createdAt := "", isActive := true }
      ∉ (checkAndSendAlerts
          (applyCalls []
            [.subscribe { lat := 40, lng := -74, email := some "a@example.com",
                          phone := none, alertLevels := some ["unhealthy"] } "sub_2" ""])
          { lat := 40, lng := -74 }
          { location := { lat := 40, lng := -74 }, aqi := 160, category := "Unhealthy",
            healthMessage := "", recommendations := [] }
          (fun _ => false)).1.trace :=
  unsubscribed_never_alerted
    [.subscribe { lat := 40, lng := -74, email := some "a@example.com",
                  phone := none, alertLevels := some ["unhealthy"] } "sub_1" ""]
    "sub_1" "Successfully unsubscribed from alerts" []
    (by simp [applyCalls, applyCall, subscribeToAlerts, unsubscribeFromAlerts, JSMap.has,
      JSMap.get, JSMap.set, JSMap.delete])
    [.subscribe { lat := 40, lng := -74, email := some "a@example.com",
                  phone := none, alertLevels := some ["unhealthy"] } "sub_2" ""]
    (by
      intro call hc
      simp only [List.mem_singleton] at hc
      subst hc
      show "sub_2" ≠ "sub_1"
      decide)
    { lat := 40, lng := -74 }
    { location := { lat := 40, lng := -74 }, aqi := 160, category := "Unhealthy",
      healthMessage := "", recommendations := [] }
    (fun _ => false) _ rfl

/-! ### C21. One dispatch request per present channel -/

/-- C21: whatever the mail transport does, `sendAirQualityAlert` makes exactly these
sends, in this order: one mail to `subscription.email` if and only if the email is
present (a non-empty string), then one SMS to `subscription.phone` if and only if the
phone is present; and it returns without throwing. -/
theorem one_send_per_present_channel (throws : Bool) (subscription : Subscription)
    (airQualityData : AirQualityData) :
    (sendAirQualityAlert throws subscription airQualityData).trace
      = (if present subscription.email then
          [Action.sendMail (subscription.email.getD "") (alertMessage airQualityData)]
        else [])
        ++ (if present subscription.phone then
          [Action.sms (subscription.phone.getD "") (alertMessage airQualityData)]
        else []) ∧
    (sendAirQualityAlert throws subscription airQualityData).result = .ok () := by
  rw [sendAirQualityAlert_eq]
  exact ⟨rfl, rfl⟩

/-! ### C22. What a dispatch request carries -/

/-- C22, as stated, fails: the location of the result is not carried. Two results that
differ only in their location give the same dispatch requests. -/
theorem dispatch_ignores_location :
    sendAirQualityAlert false
        { id := "sub_1", location := { lat := 40, lng := -74 },
          email := some "a@example.com", phone := some "+1234567890",
          alertLevels := ["unhealthy"], createdAt := "", isActive := true }
        { location := { lat := 40.05, lng := -74.05 }, aqi := 160, category := "Unhealthy",
          healthMessage := "Some members of the general public may experience health effects.",
          recommendations := ["Stay indoors"] }
      = sendAirQualityAlert false
        { id := "sub_1", location := { lat := 40, lng := -74 },
          email := some "a@example.com", phone := some "+1234567890",
          alertLevels := ["unhealthy"], createdAt := "", isActive := true }
        { location := { lat := 39.95, lng := -73.95 }, aqi := 160, category := "Unhealthy",
          healthMessage := "Some members of the general public may experience health effects.",
          recommendations := ["Stay indoors"] } ∧
    ({ lat := 40.05, lng := -74.05 } : Location) ≠ { lat := 39.95, lng := -73.95 } := by
  constructor
  · rw [sendAirQualityAlert_eq, sendAirQualityAlert_eq]
    rfl
  · intro h
    injection h with h1 _
    norm_num at h1

/-- C22, amended: every dispatch request of `sendAirQualityAlert` carries a message with
the category, the index and the recommendations of the result, and a text made by
`generateAlertMessage` that holds the health message; the requests do not depend on the
location of the result. -/
theorem dispatch_carries_result (throws : Bool) (subscription : Subscription)
    (airQualityData : AirQualityData) :
    (∀ action ∈ (sendAirQualityAlert throws subscription airQualityData).trace,
      ∃ recipient message,
        (action = Action.sendMail recipient message ∨ action = Action.sms recipient message) ∧
        message.category = airQualityData.category ∧
        message.aqi = airQualityData.aqi ∧
        message.recommendations = airQualityData.recommendations ∧
        message.message = generateAlertMessage airQualityData ∧
        ∃ before after,
          message.message = before ++ airQualityData.healthMessage ++ after) ∧
    (∀ location : Location,
      sendAirQualityAlert throws subscription { airQualityData with location := location }
        = sendAirQualityAlert throws subscription airQualityData) := by
  have htext : ∃ before after, (alertMessage airQualityData).message
      = before ++ airQualityData.healthMessage ++ after :=
    ⟨"Air Quality Alert: " ++ airQualityData.category ++ "\n      AQI: "
        ++ toString airQualityData.aqi ++ "\n      \n      ",
      "\n      \n      Recommendations:\n      "
        ++ "\n".intercalate (airQualityData.recommendations.map fun item => "• " ++ item)
        ++ "\n      \n      Stay safe and check air quality regularly!",
      by simp [alertMessage, generateAlertMessage, String.append_assoc]⟩
  constructor
  · intro action haction
    rw [sendAirQualityAlert_eq] at haction
    simp only [expectedSends, List.mem_append] at haction
    rcases haction with h | h
    · split_ifs at h
      · simp only [List.mem_singleton] at h
        exact ⟨_, _, Or.inl h, rfl, rfl, rfl, rfl, htext⟩
      · simp at h
    · split_ifs at h
      · simp only [List.mem_singleton] at h
        exact ⟨_, _, Or.inr h, rfl, rfl, rfl, rfl, htext⟩
      · simp at h
  · intro location
    rw [sendAirQualityAlert_eq, sendAirQualityAlert_eq]
    rfl

/-- Instance of the amended C22: the mail for an Unhealthy result with index 160 carries
that category and index. -/
theorem dispatch_carries_result_witness :
    ∃ recipient message,
      (Action.sendMail "a@example.com"
          (alertMessage { location := { lat := 40, lng := -74 }, aqi := 160,
                          category := "Unhealthy", healthMessage := "Take care.",
                          recommendations := ["Stay indoors"] })
        = Action.sendMail recipient message ∨
       Action.sendMail "a@example.com"
          (alertMessage { location := { lat := 40, lng := -74 }, aqi := 160,
                          category := "Unhealthy", healthMessage := "Take care.",
                          recommendations := ["Stay indoors"] })
        = Action.sms recipient message) ∧
      message.category = "Unhealthy" ∧ message.aqi = 160 := by
  obtain ⟨recipient, message, h1, h2, h3, _⟩ :=
    (dispatch_carries_result false
      { id := "sub_1", location := { lat := 40, lng := -74 },
        email := some "a@example.com", phone := none,
        alertLevels := ["unhealthy"], createdAt := "", isActive := true }
      { location := { lat := 40, lng := -74 }, aqi := 160, category := "Unhealthy",
        healthMessage := "Take care.", recommendations := ["Stay indoors"] }).1
      (Action.sendMail "a@example.com"
          (alertMessage { location := { lat := 40, lng := -74 }, aqi := 160,
                          category := "Unhealthy", healthMessage := "Take care.",
                          recommendations := ["Stay indoors"] }))
      (by
        rw [sendAirQualityAlert_eq]
        simp [expectedSends, present])
  exact ⟨recipient, message, h1, h2, h3⟩

/-! ### C23. Dispatch failures are isolated -/

/-- C23: whatever the mail transport does at each of its calls, `checkAndSendAlerts`
returns without throwing, makes the same calls and sends as when every delivery succeeds
(for each matching subscription the call of `sendAirQualityAlert` and its sends), and
leaves the registry as it was. -/
theorem dispatch_failures_isolated (subscriptions : List (String × Subscription))
    (location : Location) (airQualityData : AirQualityData) (transport : ℕ → Bool) :
    (checkAndSendAlerts subscriptions location airQualityData transport).1.result = .ok () ∧
    (checkAndSendAlerts subscriptions location airQualityData transport).1.trace
      = (checkAndSendAlerts subscriptions location airQualityData (fun _ => false)).1.trace ∧
    (checkAndSendAlerts subscriptions location airQualityData transport).1.trace
      = expectedTrace airQualityData (relevantSubscriptions subscriptions location) ∧
    (checkAndSendAlerts subscriptions location airQualityData transport).2 = subscriptions := by
  rw [checkAndSendAlerts_eq, checkAndSendAlerts_eq]
  exact ⟨rfl, rfl, rfl, rfl⟩

/-! ### C28. Default alert levels -/

/-- C28: for a subscription with the default alert levels and a result whose category is
the name `getAQICategory` gives an integer index `v`, `shouldSendAlert` is true if and
only if `v ≥ 151`; the category of 101 to 150 normalises to
`unhealthy-for-sensitive-groups`, which is not a default level. -/
theorem default_levels_alert_iff (v : ℤ) (subscription : Subscription)
    (airQualityData : AirQualityData)
    (hlevels : subscription.alertLevels = ["unhealthy", "very-unhealthy", "hazardous"])
    (hcategory : airQualityData.category = (AirQualityService.getAQICategory v).name) :
    (shouldSendAlert subscription airQualityData = true ↔ 151 ≤ v) ∧
    normalizeCategory "Unhealthy for Sensitive Groups" = "unhealthy-for-sensitive-groups" ∧
    "unhealthy-for-sensitive-groups" ∉ subscription.alertLevels := by
  refine ⟨?_, by decide, by rw [hlevels]; decide⟩
  simp only [shouldSendAlert, hlevels, hcategory, decide_eq_true_eq]
  unfold AirQualityService.getAQICategory
  split_ifs with h1 h2 h3 h4 h5
  · exact ⟨fun h => absurd h (by decide), fun h => by omega⟩
  · exact ⟨fun h => absurd h (by decide), fun h => by omega⟩
  · exact ⟨fun h => absurd h (by decide), fun h => by omega⟩
  · exact ⟨fun _ => by omega, fun _ => by decide⟩
  · exact ⟨fun _ => by omega, fun _ => by decide⟩
  · exact ⟨fun _ => by omega, fun _ => by decide⟩

/-- Instance of C28 at the index 151: the category Unhealthy triggers a default
subscription. -/
theorem default_levels_alert_iff_witness :
    shouldSendAlert
        { id := "sub_1", location := { lat := 40, lng := -74 }, email := none, phone := none,
          alertLevels := ["unhealthy", "very-unhealthy", "hazardous"], createdAt := "",
          isActive := true }
        { location := { lat := 40, lng := -74 }, aqi := 151,
          category := (AirQualityService.getAQICategory 151).name, healthMessage := "",
          recommendations := [] } = true :=
  (default_levels_alert_iff 151 _ _ rfl rfl).1.mpr (by decide)

/-! ### C29. The proximity test at its boundary -/

/-- C29, as stated, fails in both halves. A stored, active subscription at latitude
`0.09999999999999999` (the double `7205759403792793 * 2 ^ (-56)`) is not selected for a
result at latitude `-9 * 2 ^ (-60)`, same longitude, although the latitudes differ by
less than 0.1: the difference rounds to the double `0.1`. And a subscription at latitude
`0.3` is selected for a result at latitude `0.2`, exactly 0.1 away in decimal: the doubles
of the two literals differ by less than 0.1. -/
theorem boundary_depends_on_rounding :
    |(7205759403792793 / 72057594037927936 : ℚ) - -(9 / 1152921504606846976)| < 0.1 ∧
    ({ id := "sub_1", location := { lat := 7205759403792793 / 72057594037927936, lng := 0 },
       email := none, phone := none, alertLevels := ["unhealthy"], createdAt := "",
       isActive := true } : Subscription)
      ∉ relevantSubscriptions
          [("sub_1", { id := "sub_1",
                       location := { lat := 7205759403792793 / 72057594037927936, lng := 0 },
                       email := none, phone := none, alertLevels := ["unhealthy"],
                       createdAt := "", isActive := true })]
          { lat := -(9 / 1152921504606846976), lng := 0 } ∧
    |(0.3 : ℚ) - 0.2| = 0.1 ∧
    ({ id := "sub_2", location := { lat := Double.roundToDouble 0.3, lng := 0 },
       email := none, phone := none, alertLevels := ["unhealthy"], createdAt := "",
       isActive := true } : Subscription)
      ∈ relevantSubscriptions
          [("sub_2", { id := "sub_2",
                       location := { lat := Double.roundToDouble 0.3, lng := 0 },
                       email := none, phone := none, alertLevels := ["unhealthy"],
                       createdAt := "", isActive := true })]
          { lat := Double.roundToDouble 0.2, lng := 0 } := by
  have h03 : Double.roundToDouble 0.3 = 5404319552844595 / 18014398509481984 := by
    rw [Double.roundToDouble, if_neg (by norm_num),
      Double.roundMagnitude_eq 0.3 (-2) 5404319552844595 (by norm_num) (by norm_num)
        (by norm_num) (by norm_num) (by norm_num)]
    norm_num
  have h02 : Double.roundToDouble 0.2 = 3602879701896397 / 18014398509481984 := by
    rw [Double.roundToDouble, if_neg (by norm_num),
      Double.roundMagnitude_eq 0.2 (-3) 7205759403792794 (by norm_num) (by norm_num)
        (by norm_num) (by norm_num) (by norm_num)]
    norm_num
  have hsub : Double.sub (7205759403792793 / 72057594037927936) (-(9 / 1152921504606846976))
      = 3602879701896397 / 36028797018963968 := by
    rw [Double.sub, Double.roundToDouble, if_neg (by norm_num),
      Double.roundMagnitude_eq _ (-4) 7205759403792794 (by norm_num) (by norm_num)
        (by norm_num) (by norm_num) (by norm_num)]
    norm_num
  refine ⟨by norm_num [abs_lt], ?_, by norm_num [abs_of_pos], ?_⟩
  · intro hmem
    have h := ((mem_relevantSubscriptions _ _ _).mp hmem).2.2.1
    simp only [] at h
    rw [hsub, Double.roundToDouble_tenth, abs_of_pos (by norm_num)] at h
    exact lt_irrefl _ h
  · refine (mem_relevantSubscriptions _ _ _).mpr ⟨by simp [JSMap.values], rfl,
      within_of_le _ _ ?_, within_of_le _ _ ?_⟩
    · simp only []
      rw [h03, h02]
      norm_num [abs_le]
    · norm_num

/-- C29, amended: the proximity test is strict on the differences as the code computes
them. A subscription is selected if and only if it is stored, active and `Math.abs` of
the double difference is below the double `0.1` on both coordinates. Hence a subscription
whose latitude or longitude differs from the result's by 0.1 or more is never selected,
and a stored, active one whose latitude and longitude both differ by at most
`0.09999999999999999` (the largest double below the double `0.1`) is selected. -/
theorem proximity_is_strict (subscriptions : List (String × Subscription))
    (location : Location) (subscription : Subscription) :
    (subscription ∈ relevantSubscriptions subscriptions location ↔
      subscription ∈ JSMap.values subscriptions ∧ subscription.isActive = true ∧
      |Double.sub subscription.location.lat location.lat| < Double.roundToDouble 0.1 ∧
      |Double.sub subscription.location.lng location.lng| < Double.roundToDouble 0.1) ∧
    ((1 / 10 ≤ |subscription.location.lat - location.lat| ∨
        1 / 10 ≤ |subscription.location.lng - location.lng|) →
      subscription ∉ relevantSubscriptions subscriptions location) ∧
    (subscription ∈ JSMap.values subscriptions → subscription.isActive = true →
      |subscription.location.lat - location.lat| ≤ 7205759403792793 / 72057594037927936 →
      |subscription.location.lng - location.lng| ≤ 7205759403792793 / 72057594037927936 →
      subscription ∈ relevantSubscriptions subscriptions location) := by
  refine ⟨mem_relevantSubscriptions _ _ _, ?_, ?_⟩
  · intro h hmem
    obtain ⟨_, _, h1, h2⟩ := (mem_relevantSubscriptions _ _ _).mp hmem
    rcases h with h | h
    · exact not_within_of_ge _ _ h h1
    · exact not_within_of_ge _ _ h h2
  · intro h1 h2 h3 h4
    exact (mem_relevantSubscriptions _ _ _).mpr
      ⟨h1, h2, within_of_le _ _ h3, within_of_le _ _ h4⟩

/-- Instance of the amended C29: a subscription at latitude 40 is not selected for a
result at the double of `40.2`, more than 0.1 degrees away. -/
theorem proximity_is_strict_witness :
    ({ id := "sub_1", location := { lat := 40, lng := -74 }, email := none, phone := none,
       alertLevels := ["unhealthy"], createdAt := "", isActive := true } : Subscription)
      ∉ relevantSubscriptions
          [("sub_1", { id := "sub_1", location := { lat := 40, lng := -74 }, email := none,
                       phone := none, alertLevels := ["unhealthy"], createdAt := "",
                       isActive := true })]
          { lat := 2828823515942093 / 70368744177664, lng := -74 } :=
  (proximity_is_strict _ _ _).2.1 (Or.inl (by norm_num [le_abs]))

end NotificationService

namespace Validation

/-! ### C24. `validateLocation` -/

/-- C24: `validateLocation` calls `next`, with `validatedLocation` set to the parsed pair,
if and only if `lat` and `lng` are both given (non-empty), both parse to finite numbers,
the latitude lies in [-90, 90] and the longitude in [-180, 180]; in every other case it
answers with status 400 and does not call `next`. -/
theorem validateLocation_passes_iff (parseFloat : String → ParsedNumber)
    (lat lng : Option String) :
    (∀ x y, validateLocation parseFloat lat lng = .next x y ↔
      ∃ a b p q, lat = some a ∧ a ≠ "" ∧ lng = some b ∧ b ≠ "" ∧
        parseFloat a = .finite p ∧ parseFloat b = .finite q ∧
        x = .finite p ∧ y = .finite q ∧
        -90 ≤ p ∧ p ≤ 90 ∧ -180 ≤ q ∧ q ≤ 180) ∧
    ((∀ x y, validateLocation parseFloat lat lng ≠ .next x y) →
      ∃ error, validateLocation parseFloat lat lng = .respond 400 error) := by
  constructor
  · intro x y
    cases lat with
    | none => simp [validateLocation, given]
    | some a =>
      cases lng with
      | none => simp [validateLocation, given]
      | some b =>
        by_cases ha : a = ""
        · simp [validateLocation, given, ha]
        · by_cases hb : b = ""
          · simp [validateLocation, given, hb]
          · cases hpa : parseFloat a with
            | nan =>
              simp [validateLocation, given, ha, hb, hpa, isNaN]
            | negInfinity =>
              simp [validateLocation, given, ha, hb, hpa, isNaN, lessThan]
              split_ifs <;> simp
            | posInfinity =>
              simp [validateLocation, given, ha, hb, hpa, isNaN, lessThan, greaterThan]
              split_ifs <;> simp
            | finite p =>
              cases hpb : parseFloat b with
              | nan =>
                simp [validateLocation, given, ha, hb, hpa, hpb, isNaN]
              | negInfinity =>
                simp [validateLocation, given, ha, hb, hpa, hpb, isNaN, lessThan]
                split_ifs <;> simp
              | posInfinity =>
                simp [validateLocation, given, ha, hb, hpa, hpb, isNaN, lessThan,
                  greaterThan]
                split_ifs <;> simp
              | finite q =>
                simp [validateLocation, given, ha, hb, hpa, hpb, isNaN, lessThan, greaterThan]
                split_ifs with h1 h2
                · constructor
                  · intro h
                    cases h
                  · rintro ⟨_, _, h3, h4, _, _⟩
                    rcases h1 with h1 | h1 <;> linarith
                · constructor
                  · intro h
                    cases h
                  · rintro ⟨_, _, _, _, h5, h6⟩
                    rcases h2 with h2 | h2 <;> linarith
                · constructor
                  · intro h
                    injection h with hx hy
                    exact ⟨hx.symm, hy.symm,
                      by linarith [not_or.mp h1], by linarith [not_or.mp h1],
                      by linarith [not_or.mp h2], by linarith [not_or.mp h2]⟩
                  · rintro ⟨rfl, rfl, _⟩
                    rfl
  · intro hnot
    cases h : validateLocation parseFloat lat lng with
    | next x y => exact absurd h (hnot x y)
    | respond status error =>
      have h' := h
      unfold validateLocation at h'
      dsimp only at h'
      split_ifs at h' <;> cases h' <;> exact ⟨_, rfl⟩

/-- Instance of C24 for a `parseFloat` that reads the two texts of the request: the
request with `lat=40.7128` and `lng=-74.0060` is passed on with the parsed pair. -/
theorem validateLocation_passes_iff_witness :
    validateLocation
        (fun s => if s = "40.7128" then .finite 40.7128
          else if s = "-74.0060" then .finite (-74.006) else .nan)
        (some "40.7128") (some "-74.0060")
      = .next (.finite 40.7128) (.finite (-74.006)) :=
  ((validateLocation_passes_iff _ _ _).1 _ _).mpr
    ⟨"40.7128", "-74.0060", 40.7128, -74.006, rfl, by decide, rfl, by decide,
      by simp, by simp, rfl, rfl, by norm_num, by norm_num, by norm_num, by norm_num⟩

end Validation

namespace UserService

/-! ### C30. Deleting a user -/

/-- C30: the code breaks the invariant after an email update. A user registered under
`a@example.com` with the id `user_1` changes the email to `b@example.com`; the store
keeps the entry under the old key. Then `deleteUser("user_1")` deletes the key
`b@example.com`, which does not exist, and returns `User deleted successfully`, while the
store is unchanged and `getUserProfile("user_1")` still returns the profile. -/
theorem delete_after_email_update_keeps_user :
    (registerUser [] "a@example.com" "Ann" (some "hash") "user_1" "t0" (some "token")).2
      = [("a@example.com",
          { id := "user_1", email := "a@example.com", password := "hash", name := "Ann",
            createdAt := "t0", updatedAt := none, isActive := true })] ∧
    (updateUserProfile
        [("a@example.com",
          { id := "user_1", email := "a@example.com", password := "hash", name := "Ann",
            createdAt := "t0", updatedAt := none, isActive := true })]
        "user_1" none (some "b@example.com") "t1").2
      = [("a@example.com",
          { id := "user_1", email := "b@example.com", password := "hash", name := "Ann",
            createdAt := "t0", updatedAt := some "t1", isActive := true })] ∧
    deleteUser
        [("a@example.com",
          { id := "user_1", email := "b@example.com", password := "hash", name := "Ann",
            createdAt := "t0", updatedAt := some "t1", isActive := true })]
        "user_1"
      = (.ok "User deleted successfully",
         [("a@example.com",
           { id := "user_1", email := "b@example.com", password := "hash", name := "Ann",
             createdAt := "t0", updatedAt := some "t1", isActive := true })]) ∧
    getUserProfile
        [("a@example.com",
          { id := "user_1", email := "b@example.com", password := "hash", name := "Ann",
            createdAt := "t0", updatedAt := some "t1", isActive := true })]
        "user_1"
      = .ok { id := "user_1", email := "b@example.com", name := "Ann", createdAt := "t0",
              updatedAt := none, isActive := true } := by
  refine ⟨rfl, ?_, ?_, ?_⟩
  · simp [updateUserProfile, findById, JSMap.values, mutateFirst, applyUpdates]
  · simp [deleteUser, findById, JSMap.values, JSMap.delete]
  · simp [getUserProfile, findById, JSMap.values]

end UserService
